import Mathlib

/-!
Frame orchestration core of the risltc renderer.

A shallow embedding of the resource orchestrator (`update_application`), the
screenshot capture (`take_screenshot`, `implement_screenshot`), the experiment
engine (`advance_experiments`) and the per-frame driver functions
(`handle_frame_input`, `render_frame`) of `src/main.c`.

`VkBool32` values are `Bool` (the program only ever stores `VK_TRUE` and
`VK_FALSE` in them), `uint32_t` counters are `Nat` reduced modulo `2^32` where
the program does arithmetic on them, nullable `char*` paths are
`Option String`, and every call into a collaborator outside the modelled
functions (Vulkan, GLFW, the file system, the user interface) is a field of an
explicit outcome record.
-/

namespace Risltc

/-! ## Update requests and resource flags -/

/-- The structure `application_updates_t` of `main.h`. -/
structure application_updates_t where
  startup : Bool
  window_width : Nat
  window_height : Nat
  recreate_swapchain : Bool
  reload_shaders : Bool
  update_light_count : Bool
  update_light_textures : Bool
  reload_scene : Bool
  change_shading : Bool
  quick_save : Bool
  quick_load : Bool
deriving DecidableEq, Repr

/-- The initializer `application_updates_t updates = { VK_FALSE }`. -/
def no_updates : application_updates_t :=
  { startup := false, window_width := 0, window_height := 0,
    recreate_swapchain := false, reload_shaders := false,
    update_light_count := false, update_light_textures := false,
    reload_scene := false, change_shading := false,
    quick_save := false, quick_load := false }

/-- The fourteen local `VkBool32` variables of `update_application`, one per
managed resource. -/
structure resource_flags where
  swapchain : Bool
  ltc_table : Bool
  scene : Bool
  render_targets : Bool
  render_pass : Bool
  constant_buffers : Bool
  light_buffers : Bool
  light_textures : Bool
  geometry_pass : Bool
  accum_pass : Bool
  copy_pass : Bool
  shading_pass : Bool
  interface_pass : Bool
  frame_queue : Bool
deriving DecidableEq, Repr

/-- The block "Flag objects that need to be rebuilt because something changed
directly" of `update_application`. -/
def seed_flags (update : application_updates_t) : resource_flags :=
  { swapchain := update.recreate_swapchain,
    ltc_table := update.startup,
    scene := update.startup || update.reload_scene,
    render_targets := update.startup,
    render_pass := update.startup,
    constant_buffers := update.startup || update.update_light_count || update.change_shading,
    light_buffers := update.startup || update.update_light_count,
    light_textures := update.startup || update.reload_scene || update.update_light_count
      || update.update_light_textures,
    geometry_pass := update.startup || update.reload_shaders,
    accum_pass := update.startup || update.reload_shaders,
    copy_pass := update.startup || update.reload_shaders,
    shading_pass := update.startup || update.change_shading || update.reload_shaders,
    interface_pass := update.startup || update.reload_shaders,
    frame_queue := update.startup }

/-- One execution of the body of the propagation loop of `update_application`.
The nine assignments run in source order, so a later assignment reads the
values the earlier ones of the same round have written. -/
def propagate_round (f : resource_flags) : resource_flags :=
  let f := { f with render_targets := f.render_targets || f.swapchain }
  let f := { f with render_pass := f.render_pass || (f.swapchain || f.render_targets) }
  let f := { f with constant_buffers := f.constant_buffers || f.swapchain }
  let f := { f with geometry_pass := f.geometry_pass
    || (f.swapchain || f.scene || f.constant_buffers || f.render_targets) }
  let f := { f with shading_pass := f.shading_pass
    || (f.swapchain || f.ltc_table || f.scene || f.render_targets || f.constant_buffers
      || f.light_buffers || f.light_textures || f.geometry_pass || f.shading_pass
      || f.interface_pass || f.frame_queue) }
  let f := { f with interface_pass := f.interface_pass || (f.swapchain || f.render_targets) }
  let f := { f with frame_queue := f.frame_queue || f.swapchain }
  let f := { f with accum_pass := f.accum_pass || (f.swapchain || f.render_targets) }
  let f := { f with copy_pass := f.copy_pass || (f.swapchain || f.render_targets) }
  f

/-- The local `max_dependency_path_length` of `update_application`. -/
def max_dependency_path_length : Nat := 16

/-- The loop `for (i = 0; i != n; ++i)` around the propagation body. -/
def propagate : Nat → resource_flags → resource_flags
  | 0, f => f
  | n + 1, f => propagate n (propagate_round f)

/-! ## The static edge set read off the propagation loop -/

/-- The managed resources, named like the flags of `update_application`. -/
inductive Resource where
  | swapchain | ltc_table | scene | render_targets | render_pass
  | constant_buffers | light_buffers | light_textures | geometry_pass
  | accum_pass | copy_pass | shading_pass | interface_pass | frame_queue
deriving DecidableEq, Repr

/-- Reads the flag of a resource. -/
def resource_flags.get (f : resource_flags) : Resource → Bool
  | .swapchain => f.swapchain
  | .ltc_table => f.ltc_table
  | .scene => f.scene
  | .render_targets => f.render_targets
  | .render_pass => f.render_pass
  | .constant_buffers => f.constant_buffers
  | .light_buffers => f.light_buffers
  | .light_textures => f.light_textures
  | .geometry_pass => f.geometry_pass
  | .accum_pass => f.accum_pass
  | .copy_pass => f.copy_pass
  | .shading_pass => f.shading_pass
  | .interface_pass => f.interface_pass
  | .frame_queue => f.frame_queue

/-- Writes the flag of a resource. -/
def resource_flags.set (f : resource_flags) (r : Resource) (v : Bool) : resource_flags :=
  match r with
  | .swapchain => { f with swapchain := v }
  | .ltc_table => { f with ltc_table := v }
  | .scene => { f with scene := v }
  | .render_targets => { f with render_targets := v }
  | .render_pass => { f with render_pass := v }
  | .constant_buffers => { f with constant_buffers := v }
  | .light_buffers => { f with light_buffers := v }
  | .light_textures => { f with light_textures := v }
  | .geometry_pass => { f with geometry_pass := v }
  | .accum_pass => { f with accum_pass := v }
  | .copy_pass => { f with copy_pass := v }
  | .shading_pass => { f with shading_pass := v }
  | .interface_pass => { f with interface_pass := v }
  | .frame_queue => { f with frame_queue := v }

/-- The nine statements `A |= B1 | B2 | ...` of the propagation loop, in source
order, each as the pair of `A` and the list of its right-hand operands. -/
def propagation_statements : List (Resource × List Resource) :=
  [ (.render_targets, [.swapchain]),
    (.render_pass, [.swapchain, .render_targets]),
    (.constant_buffers, [.swapchain]),
    (.geometry_pass, [.swapchain, .scene, .constant_buffers, .render_targets]),
    (.shading_pass, [.swapchain, .ltc_table, .scene, .render_targets, .constant_buffers,
      .light_buffers, .light_textures, .geometry_pass, .shading_pass, .interface_pass,
      .frame_queue]),
    (.interface_pass, [.swapchain, .render_targets]),
    (.frame_queue, [.swapchain]),
    (.accum_pass, [.swapchain, .render_targets]),
    (.copy_pass, [.swapchain, .render_targets]) ]

/-- Executes one statement `A |= B1 | B2 | ...` on the flags. -/
def run_statement (f : resource_flags) (s : Resource × List Resource) : resource_flags :=
  f.set s.1 (f.get s.1 || s.2.any f.get)

/-- The static edge set: the pair `(A, B)` stands for "resource `A` requires
resource `B`", one pair for every operand `B` of a statement `A |= ...`. -/
def static_edges : List (Resource × Resource) :=
  propagation_statements.flatMap (fun s => s.2.map (fun b => (s.1, b)))

/-- Whether `(a, b)` is an edge of the static edge set. -/
def requires (a b : Resource) : Bool := decide ((a, b) ∈ static_edges)

/-- Whether a list of resources is a dependency chain: every resource of the
list is required by the one that follows it. -/
def is_dependency_chain : List Resource → Bool
  | [] => true
  | [_] => true
  | b :: a :: rest => requires a b && is_dependency_chain (a :: rest)

/-- Number of edges of the longest dependency path that ends in the given
resource, measured on the edge set with the given recursion depth. -/
def dependency_depth : Nat → Resource → Nat
  | 0, _ => 0
  | n + 1, a =>
    ((static_edges.filter (fun e => decide (e.1 = a) && decide (e.2 ≠ a))).map
      (fun e => dependency_depth n e.2 + 1)).foldl max 0

/-- All resources. -/
def all_resources : List Resource :=
  [.swapchain, .ltc_table, .scene, .render_targets, .render_pass, .constant_buffers,
   .light_buffers, .light_textures, .geometry_pass, .accum_pass, .copy_pass,
   .shading_pass, .interface_pass, .frame_queue]

/-- The measured graph depth: the number of edges of the longest dependency
path of the static edge set. -/
def longest_dependency_path : Nat :=
  (all_resources.map (dependency_depth all_resources.length)).foldl max 0

/-! ## Screenshot capture -/

/-- The enumeration `frame_bits_t` of `main.h`. -/
inductive frame_bits_t where
  | frame_bits_ldr
  | frame_bits_hdr_low
  | frame_bits_hdr_high
deriving DecidableEq, Repr

/-- The integer value of a `frame_bits_t` enumerator. -/
def frame_bits_t.val : frame_bits_t → Nat
  | .frame_bits_ldr => 0
  | .frame_bits_hdr_low => 1
  | .frame_bits_hdr_high => 2

/-- The structure `screenshot_t` of `main.h`. A `NULL` path is `none`. Of the
staging image only its extent is kept; `ldr_copy` and `hdr_copy` are the
contents of the two host buffers (`none` for a `NULL` pointer), one list entry
per `uint8_t` respectively per `float`. -/
structure screenshot_t where
  path_png : Option String
  path_jpg : Option String
  path_hdr : Option String
  frame_bits : frame_bits_t
  staging : Option (Nat × Nat)
  ldr_copy : Option (List Nat)
  hdr_copy : Option (List Nat)
deriving DecidableEq, Repr

/-- The state `memset(screenshot, 0, sizeof(*screenshot))` leaves behind. -/
def zeroed_screenshot : screenshot_t :=
  { path_png := none, path_jpg := none, path_hdr := none,
    frame_bits := .frame_bits_ldr, staging := none, ldr_copy := none, hdr_copy := none }

/-- The function `destroy_screenshot`: frees everything and zeroes the object. -/
def destroy_screenshot (_screenshot : screenshot_t) : screenshot_t := zeroed_screenshot

/-- The function `take_screenshot`. -/
def take_screenshot (screenshot : screenshot_t) (path_png path_jpg path_hdr : Option String) :
    screenshot_t :=
  if path_hdr.isSome && (path_png.isSome || path_jpg.isSome) then screenshot
  else if screenshot.path_png.isSome || screenshot.path_jpg.isSome
      || screenshot.path_hdr.isSome then screenshot
  else
    let screenshot :=
      if path_png.isSome then { screenshot with path_png := path_png } else screenshot
    let screenshot :=
      if path_jpg.isSome then { screenshot with path_jpg := path_jpg } else screenshot
    if path_hdr.isSome then
      { screenshot with path_hdr := path_hdr, frame_bits := .frame_bits_hdr_low }
    else screenshot

/-- Whether a capture is pending: some path of the screenshot object is set. -/
def capture_pending (screenshot : screenshot_t) : Bool :=
  screenshot.path_png.isSome || screenshot.path_jpg.isSome || screenshot.path_hdr.isSome

/-- Whether the screenshot object is idle: all paths are empty and the capture
byte is `frame_bits_ldr`, the value 0. -/
def is_idle (screenshot : screenshot_t) : Bool :=
  !capture_pending screenshot && decide (screenshot.frame_bits = .frame_bits_ldr)

/-- What the collaborators of `implement_screenshot` do in one call:
`staging_fails` is a non-zero return of `create_images`, `grab_fails` any of the
failure returns of `grab_screenshot_ldr`, `grabbed i` the byte that the
conversion loops of `grab_screenshot_ldr` store for entry `i` of the plane, and
`png_fails`, `jpg_fails`, `hdr_fails` a zero return of the `stbi_write_*`
functions. -/
structure screenshot_outcomes where
  staging_fails : Bool
  grab_fails : Bool
  grabbed : Nat → Nat
  png_fails : Bool
  jpg_fails : Bool
  hdr_fails : Bool

/-- Modelled from the spec: the function `half_to_float` of `math_utilities.h`,
which is not part of the sources. It expands a half-precision bit pattern to
the bit pattern of the single-precision float of the same value. -/
def half_to_float (half_bits : Nat) : Nat :=
  let sign := (half_bits / 32768) % 2
  let exponent := (half_bits / 1024) % 32
  let mantissa := half_bits % 1024
  if exponent = 31 then sign * 2147483648 + 255 * 8388608 + mantissa * 8192
  else if exponent ≠ 0 then sign * 2147483648 + (exponent + 112) * 8388608 + mantissa * 8192
  else if mantissa = 0 then sign * 2147483648
  else
    let shift := 10 - Nat.log2 mantissa
    sign * 2147483648 + (113 - shift) * 8388608 + ((mantissa * 2 ^ shift) % 1024) * 8192

/-- The helper `create_screenshot_staging_buffers`; `none` is the return 1. -/
def create_screenshot_staging_buffers (screenshot : screenshot_t) (extent : Nat × Nat)
    (o : screenshot_outcomes) : Option screenshot_t :=
  let hdr_mode := screenshot.path_hdr.isSome
  if o.staging_fails then none
  else
    let pixel_count := (extent.1 * extent.2) % 4294967296
    let screenshot := { screenshot with
      staging := some extent,
      ldr_copy := some (List.replicate (3 * pixel_count * (if hdr_mode then 2 else 1)) 0) }
    some (if hdr_mode then
      { screenshot with hdr_copy := some (List.replicate (3 * pixel_count) 0) }
    else screenshot)

/-- Stores `count` bytes `value 0, value 1, ...` into a buffer from `offset` on. -/
def store_bytes (buffer : List Nat) (offset count : Nat) (value : Nat → Nat) : List Nat :=
  (List.range count).foldl (fun b i => b.set (offset + i) (value i % 256)) buffer

/-- The helper `grab_screenshot_ldr`; `none` is the return 1. The plane of
`3 * width * height` bytes goes to the start of `ldr_copy`, or behind the first
plane when the high bits are being captured. -/
def grab_screenshot_ldr (screenshot : screenshot_t) (extent : Nat × Nat)
    (o : screenshot_outcomes) : Option screenshot_t :=
  if o.grab_fails then none
  else
    let offset :=
      if screenshot.frame_bits = .frame_bits_hdr_high then
        (3 * extent.1 * extent.2) % 4294967296
      else 0
    some { screenshot with
      ldr_copy := screenshot.ldr_copy.map
        (fun b => store_bytes b offset (3 * extent.1 * extent.2) o.grabbed) }

/-- The helper `combine_ldr_screenshots_into_hdr`. -/
def combine_ldr_screenshots_into_hdr (screenshot : screenshot_t) : screenshot_t :=
  match screenshot.staging, screenshot.ldr_copy, screenshot.hdr_copy with
  | some extent, some ldr_copy, some hdr_copy =>
    let pixel_count := (extent.1 * extent.2) % 4294967296
    let entry_count := (3 * pixel_count) % 4294967296
    { screenshot with
      hdr_copy := some ((List.range entry_count).foldl
        (fun h i =>
          let low_bits := ldr_copy.getD i 0
          let high_bits := ldr_copy.getD ((i + entry_count) % 4294967296) 0
          let half_bits := (low_bits ||| (high_bits <<< 8)) % 65536
          h.set i (half_to_float half_bits)) hdr_copy) }
  | _, _, _ => screenshot

/-- The result of `implement_screenshot`: the return value, the screenshot
object afterwards and the paths of the image files written by the call. -/
structure screenshot_result where
  ret : Nat
  screenshot : screenshot_t
  written : List String
deriving DecidableEq, Repr

/-- The first step of `implement_screenshot`, "If we are just getting
started, allocate staging memory"; `none` is the failure of that step. -/
def stage_screenshot (screenshot : screenshot_t) (extent : Nat × Nat)
    (o : screenshot_outcomes) : Option screenshot_t :=
  if screenshot.frame_bits ≠ .frame_bits_hdr_high then
    create_screenshot_staging_buffers screenshot extent o
  else some screenshot

/-- The last part of `implement_screenshot`, from the comment "Store the
image" to the end. -/
def store_screenshot (screenshot : screenshot_t) (o : screenshot_outcomes) :
    screenshot_result :=
  if screenshot.path_png.isSome && o.png_fails then
    ⟨1, destroy_screenshot screenshot, []⟩
  else
  let written := screenshot.path_png.toList
  if screenshot.path_jpg.isSome && o.jpg_fails then
    ⟨1, destroy_screenshot screenshot, written⟩
  else
  let written := written ++ screenshot.path_jpg.toList
  let combine := screenshot.path_hdr.isSome
    && decide (screenshot.frame_bits = .frame_bits_hdr_high)
  -- Combine both LDR frames into an HDR frame
  let screenshot := if combine then combine_ldr_screenshots_into_hdr screenshot else screenshot
  if combine && o.hdr_fails then
    ⟨1, destroy_screenshot screenshot, written⟩
  else
  let written := if combine then written ++ screenshot.path_hdr.toList else written
  if screenshot.frame_bits = .frame_bits_hdr_low then
    -- The screenshot will be completed in the next frame
    ⟨0, { screenshot with frame_bits := .frame_bits_hdr_high }, written⟩
  else
    ⟨0, destroy_screenshot screenshot, written⟩

/-- The function `implement_screenshot`. -/
def implement_screenshot (screenshot : screenshot_t) (extent : Nat × Nat)
    (o : screenshot_outcomes) : screenshot_result :=
  let hdr_mode := screenshot.path_hdr.isSome
  if !screenshot.path_png.isSome && !screenshot.path_jpg.isSome && !hdr_mode then
    ⟨0, screenshot, []⟩
  else
    -- If we are just getting started, allocate staging memory
    match stage_screenshot screenshot extent o with
    | none => ⟨1, destroy_screenshot screenshot, []⟩
    | some screenshot =>
      -- Grab swapchain contents and convert to LDR
      match grab_screenshot_ldr screenshot extent o with
      | none => ⟨1, destroy_screenshot screenshot, []⟩
      | some screenshot => store_screenshot screenshot o

/-! ## Application state -/

/-- The structure `render_settings_t` of `main.h`. The three flags that the
modelled functions read are fields of their own; `shading` stands for the
remaining fields (exposure and roughness factors, sample counts, heuristics,
sampling techniques, `animate_noise`, `show_polygonal_lights`, `fast_atan`),
which the modelled functions only copy. -/
structure render_settings_t where
  accum : Bool
  show_gui : Bool
  v_sync : Bool
  shading : Nat
deriving DecidableEq, Repr

/-- The paths of `scene_specification_t`; camera and lights are not read by the
functions modelled here. -/
structure scene_specification_t where
  file_path : String
  texture_path : String
  quick_save_path : String
deriving DecidableEq, Repr

/-- The table `g_scene_paths` of `main.c`. -/
def g_scene_paths : List (List String) :=
  [ ["Bistro Interior", "data/Bistro_interior.vks", "data/Bistro_textures",
      "data/quicksaves/Bistro_interior.save"],
    ["Bistro Exterior", "data/Bistro_exterior.vks", "data/Bistro_textures",
      "data/quicksaves/Bistro_exterior.save"],
    ["Zero Day", "data/zeroday.vks", "data/ZeroDay_textures", "data/quicksaves/ZeroDay.save"] ]

/-- The entry `g_scene_paths[scene_index][column]`. -/
def scene_path (scene_index column : Nat) : String :=
  (g_scene_paths.getD scene_index []).getD column ""

/-- The structure `experiment_t` of `main.h`. -/
structure experiment_t where
  width : Nat
  height : Nat
  scene_index : Nat
  quick_save_path : Option String
  use_hdr : Bool
  screenshot_path : String
  num_samples : Nat
  render_settings : render_settings_t
  base_dir : String
  timings_path : String
  screenshots_dir : String
  ext : String
  exp_name : String
  ss_per_frame : Bool
deriving DecidableEq, Repr

/-- An entry of the experiment array that `create_experiment_list` has zeroed
but not filled. -/
def zeroed_experiment : experiment_t :=
  { width := 0, height := 0, scene_index := 0, quick_save_path := none, use_hdr := false,
    screenshot_path := "", num_samples := 0,
    render_settings := { accum := false, show_gui := false, v_sync := false, shading := 0 },
    base_dir := "", timings_path := "", screenshots_dir := "", ext := "", exp_name := "",
    ss_per_frame := false }

/-- The enumeration `experiment_state_t` of `main.h`. -/
inductive experiment_state_t where
  | experiment_state_rendering
  | experiment_state_screenshot_frame_0
  | experiment_state_screenshot_frame_1
  | experiment_state_new_experiment
deriving DecidableEq, Repr

/-- The structure `experiment_list_t` of `main.h`. The pointer `experiment`
into the array `experiments` is the index it points to (`none` for `NULL`). -/
structure experiment_list_t where
  experiments : List experiment_t
  experiment : Option Nat
  count : Nat
  next : Nat
  next_setup_frame : Nat
  state : experiment_state_t
deriving DecidableEq, Repr

/-- The experiment that the pointer `&list->experiments[index]` refers to. -/
def experiment_list_t.at (list : experiment_list_t) (index : Nat) : experiment_t :=
  list.experiments.getD index zeroed_experiment

/-- The structure `frame_workload_t` of `main.h` without its Vulkan handles. -/
structure frame_workload_t where
  used : Bool
deriving DecidableEq, Repr

/-- The structure `frame_queue_t` of `main.h` without its Vulkan handles. -/
structure frame_queue_t where
  frame_count : Nat
  workloads : List frame_workload_t
  sync_index : Nat
  recreate_swapchain : Bool
deriving DecidableEq, Repr

/-- The state `memset(queue, 0, sizeof(*queue))` leaves behind. -/
def zeroed_frame_queue : frame_queue_t :=
  { frame_count := 0, workloads := [], sync_index := 0, recreate_swapchain := false }

/-- The frame queue after a successful `create_frame_queue`. -/
def created_frame_queue (image_count : Nat) : frame_queue_t :=
  { frame_count := image_count, workloads := List.replicate image_count { used := false },
    sync_index := 0, recreate_swapchain := false }

/-- The fields of `swapchain_t` that the modelled functions read. -/
structure swapchain_t where
  extent_width : Nat
  extent_height : Nat
  image_count : Nat
deriving DecidableEq, Repr

/-- The part of `application_t` that the modelled functions read or write.
`timings` is the path of the open timings file (`none` for `NULL`). -/
structure application_t where
  swapchain : swapchain_t
  scene_specification : scene_specification_t
  render_settings : render_settings_t
  frame_queue : frame_queue_t
  screenshot : screenshot_t
  experiment_list : experiment_list_t
  run_all_exp : Bool
  accum_num : Nat
  timings : Option String
deriving DecidableEq, Repr

/-- What a call does to its surroundings, in the order in which it happens. -/
inductive Event where
  | quick_save
  | quick_load
  | set_window_size (width height : Nat)
  | wait_idle
  | destroy (r : Resource)
  | resize_swapchain (result : Nat)
  | create (r : Resource) (result : Nat)
  | setup_experiment (index : Nat)
  | cleanup_experiment (index : Nat)
  | take_screenshot (path_png path_jpg path_hdr : Option String) (accum_num : Nat)
  | acquire (result : Int) (swapchain_index : Nat)
  | wait_for_fence (swapchain_index : Nat) (result : Int)
  | reset_fence (swapchain_index : Nat) (result : Int)
  | record_commands (swapchain_index accum_num frame_bits : Nat) (result : Nat)
  | submit (swapchain_index : Nat) (result : Int)
  | record_frame_time (swapchain_index accum_num : Nat) (timings : Option String)
  | present (swapchain_index : Nat) (result : Int)
deriving DecidableEq, Repr

/-! ## The orchestrator `update_application` -/

/-- What the collaborators of `update_application` do in one call.
`load_changes_light_count` and `load_changes_light_textures` say whether
`quick_load` finds the number of lights (or a vertex count) respectively a light
texture changed, `swapchain_result` is the return value of
`create_or_resize_swapchain`, `resized` the swapchain it leaves behind, and
`create_result r` the return value of the create function of resource `r`. -/
structure update_outcomes where
  load_changes_light_count : Bool
  load_changes_light_textures : Bool
  swapchain_result : Nat
  resized : swapchain_t
  create_result : Resource → Nat

/-- The writes of `quick_load` to the updates structure it is given. -/
def quick_load_updates (update : application_updates_t) (o : update_outcomes) :
    application_updates_t :=
  let update :=
    if o.load_changes_light_textures then { update with update_light_textures := true }
    else update
  { update with update_light_count := update.update_light_count || o.load_changes_light_count }

/-- The order of the `destroy_*` calls of `update_application`. -/
def teardown_order : List Resource :=
  [.frame_queue, .interface_pass, .copy_pass, .accum_pass, .shading_pass, .geometry_pass,
   .light_textures, .light_buffers, .constant_buffers, .render_pass, .render_targets,
   .scene, .ltc_table]

/-- The order of the create calls in the condition "Rebuild everything else"
of `update_application`. -/
def rebuild_order : List Resource :=
  [.ltc_table, .scene, .render_targets, .render_pass, .constant_buffers, .light_buffers,
   .light_textures, .geometry_pass, .shading_pass, .accum_pass, .copy_pass,
   .interface_pass, .frame_queue]

/-- The whole rebuild sequence: `create_or_resize_swapchain` comes first, then
the create calls of `rebuild_order`. -/
def rebuild_sequence : List Resource := .swapchain :: rebuild_order

/-- The chain `(flag && create(...)) || ...`: the create calls run from left to
right for the flagged resources until one returns non-zero. The result is
whether one did, with the calls made. -/
def rebuild (f : resource_flags) (create_result : Resource → Nat) :
    List Resource → Bool × List Event
  | [] => (false, [])
  | r :: rest =>
    if f.get r then
      if create_result r ≠ 0 then (true, [Event.create r (create_result r)])
      else ((rebuild f create_result rest).1,
        Event.create r 0 :: (rebuild f create_result rest).2)
    else rebuild f create_result rest

/-- The `destroy_*` calls of `update_application` for the flagged resources. -/
def teardown (f : resource_flags) : List Event :=
  (teardown_order.filter f.get).map Event.destroy

/-- The result of `update_application`: the return value, the application
afterwards, the value of `*reset_accum` afterwards, whether the call executed
its assignment `*reset_accum = 1`, and what the call did. -/
structure update_result where
  ret : Nat
  app : application_t
  reset_accum : Bool
  reported : Bool
  trace : List Event

/-- The width and height that `update_application` asks the window to take:
the requested one, or the current one where the request holds zero. -/
def requested_size (app : application_t) (update : application_updates_t) : Nat × Nat :=
  (if update.window_width ≠ 0 then update.window_width else app.swapchain.extent_width,
   if update.window_height ≠ 0 then update.window_height else app.swapchain.extent_height)

/-- The condition of the block "Check if a window resize is requested". -/
def resize_requested (app : application_t) (update : application_updates_t) : Bool :=
  decide (app.swapchain.extent_width ≠ (requested_size app update).1)
    || decide (app.swapchain.extent_height ≠ (requested_size app update).2)

/-- The condition of the block "Return early, if there is nothing to update". -/
def nothing_to_update (update : application_updates_t) : Bool :=
  !update.startup && !update.recreate_swapchain && !update.reload_shaders
    && !update.quick_load && !update.update_light_count && !update.update_light_textures
    && !update.reload_scene && !update.change_shading

/-- The end of `update_application`, from the comment "Rebuild everything
else" on, for the flags `f` that the propagation loop has left. -/
def rebuild_everything_else (app : application_t) (f : resource_flags) (reset_accum : Bool)
    (o : update_outcomes) (trace : List Event) : update_result :=
  let rebuilt := rebuild f o.create_result rebuild_order
  let app :=
    if f.frame_queue && decide (Event.create .frame_queue 0 ∈ rebuilt.2) then
      { app with frame_queue := created_frame_queue app.swapchain.image_count }
    else app
  if rebuilt.1 then ⟨1, app, reset_accum, false, trace ++ rebuilt.2⟩
  else
    -- If we are here, something has changed and we need to reset the accumulation count
    ⟨0, app, true, true, trace ++ rebuilt.2⟩

/-- The second half of `update_application`, from the comment "Tear down
everything that needs to be reinitialized in reverse order" to the end, for the
flags `f` that the propagation loop has left. -/
def rebuild_flagged (app : application_t) (f : resource_flags) (reset_accum : Bool)
    (o : update_outcomes) (trace : List Event) : update_result :=
  -- Tear down everything that needs to be reinitialized in reverse order
  let trace := trace ++ Event.wait_idle :: teardown f
  let app := if f.frame_queue then { app with frame_queue := zeroed_frame_queue } else app
  -- Attempt to recreate the swapchain and finish early if the window is minimized
  if f.swapchain then
    let trace := trace ++ [Event.resize_swapchain o.swapchain_result]
    let app := { app with swapchain := o.resized }
    if o.swapchain_result = 2 then ⟨0, app, reset_accum, false, trace⟩
    else if o.swapchain_result ≠ 0 then ⟨1, app, reset_accum, false, trace⟩
    else rebuild_everything_else app f reset_accum o trace
  else rebuild_everything_else app f reset_accum o trace

/-- The update that `update_application` works with after its block "Check if
a window resize is requested". -/
def resized_update (app : application_t) (update_in : application_updates_t) :
    application_updates_t :=
  if resize_requested app update_in then { update_in with recreate_swapchain := true }
  else update_in

/-- The calls of `update_application` before its early return: the quick save
and the window resize, where requested. -/
def update_prologue (app : application_t) (update_in : application_updates_t) : List Event :=
  (if update_in.quick_save then [Event.quick_save] else [])
    ++ (if resize_requested app update_in then
          [Event.set_window_size (requested_size app update_in).1 (requested_size app update_in).2]
        else [])

/-- The function `update_application`; `reset_accum` is the value of
`*reset_accum` when the call starts. -/
def update_application (app : application_t) (update_in : application_updates_t)
    (reset_accum : Bool) (o : update_outcomes) : update_result :=
  -- Perform a quick save if requested, check if a window resize is requested
  let trace := update_prologue app update_in
  let update := resized_update app update_in
  -- Return early, if there is nothing to update
  if nothing_to_update update then ⟨0, app, reset_accum, false, trace⟩
  else
    -- Perform a quick load
    let trace := if update.quick_load then trace ++ [Event.quick_load] else trace
    let update := if update.quick_load then quick_load_updates update o else update
    -- Flag objects, propagate dependencies, tear down and rebuild
    rebuild_flagged app (propagate max_dependency_path_length (seed_flags update))
      reset_accum o trace

/-- Whether a trace shows a resource being rebuilt: a successful
`create_or_resize_swapchain` or a successful create call. -/
def rebuilt_any (trace : List Event) : Bool :=
  trace.any (fun e => match e with
    | .create _ 0 => true
    | .resize_swapchain 0 => true
    | _ => false)

/-- Whether a trace shows a `destroy_*` or create call, successful or not. -/
def touches_resource (trace : List Event) : Bool :=
  trace.any (fun e => match e with
    | .create _ _ => true
    | .destroy _ => true
    | .resize_swapchain _ => true
    | _ => false)

/-! ## The experiment engine `advance_experiments` -/

/-- Modelled from the spec: the helper `format_uint` of `string_utilities.h`,
which is not part of the sources, for the format `"/%05d"`: a slash and the
decimal digits of the number, padded with zeros to five digits. -/
def format_uint (value : Nat) : String :=
  "/" ++ String.mk (List.replicate (5 - (toString value).length) '0') ++ toString value

/-- Modelled from the spec: the helper `concatenate_strings` of
`string_utilities.h`, which is not part of the sources. -/
def concatenate_strings (pieces : List String) : String :=
  pieces.foldl (fun acc piece => acc ++ piece) ""

/-- Everything `advance_experiments` reaches through its seven pointer
arguments, with what it did and (for `advance_experiments` itself) its return
value. -/
structure experiment_context where
  screenshot : screenshot_t
  updates : application_updates_t
  list : experiment_list_t
  scene : scene_specification_t
  render_settings : render_settings_t
  accum_num : Nat
  timings : Option String
  trace : List Event
deriving DecidableEq, Repr

/-- The helper `setup_experiment`. `timings_opens` says whether `fopen_setvbuf`
succeeds for the timings file. -/
def setup_experiment (c : experiment_context) (timings_opens : Bool) : experiment_context :=
  -- Prepare the next experiment
  let index := c.list.next
  let experiment := c.list.at index
  let list := { c.list with
    experiment := some index,
    next_setup_frame := experiment.num_samples,
    state := .experiment_state_rendering }
  -- Open timings file
  let timings :=
    if !experiment.ss_per_frame then
      (if timings_opens then some experiment.timings_path else none)
    else c.timings
  -- Adjust the resolution as needed
  let updates := { c.updates with
    window_width := experiment.width, window_height := experiment.height }
  -- Prepare the new scene
  let new_scene := decide (c.scene.file_path ≠ scene_path experiment.scene_index 1)
  let scene :=
    if new_scene then
      { c.scene with file_path := scene_path experiment.scene_index 1,
                     texture_path := scene_path experiment.scene_index 2 }
    else c.scene
  let updates := if new_scene then { updates with reload_scene := true } else updates
  -- Prepare camera and lights
  let scene := { scene with quick_save_path :=
    match experiment.quick_save_path with
    | some path => path
    | none => scene_path experiment.scene_index 3 }
  let updates := { updates with quick_load := true }
  -- Ensure that render settings are applied properly
  let updates :=
    if c.render_settings.v_sync ≠ experiment.render_settings.v_sync then
      { updates with recreate_swapchain := true }
    else updates
  let updates := { updates with change_shading := true }
  { c with
    updates := updates, list := list, scene := scene,
    render_settings := experiment.render_settings,
    -- Reset the accum_num here to get correct filename
    accum_num := 0,
    timings := timings,
    trace := c.trace ++ [Event.setup_experiment index] }

/-- The helper `cleanup_experiment` with its return value. `close_timings` says
whether the argument `timings` is non-`NULL`. -/
def cleanup_experiment (c : experiment_context) (close_timings : Bool) :
    Nat × experiment_context :=
  let c := { c with trace := c.trace ++ [Event.cleanup_experiment c.list.next] }
  let c := if close_timings then { c with timings := none } else c
  -- We are done with all experiments
  if (c.list.next + 1) % 4294967296 = c.list.count then
    (1, { c with list := { c.list with
      state := .experiment_state_new_experiment,
      experiment := none,
      next := (c.list.count + 1) % 4294967296 } })
  else
    -- Proceed with the next experiment
    (0, { c with list := { c.list with
      state := .experiment_state_new_experiment,
      next := (c.list.next + 1) % 4294967296 } })

/-- The block of `advance_experiments` that formats the screenshot path of the
current experiment (if any), writes it into the experiment and requests the
screenshot. -/
def request_experiment_screenshot (c : experiment_context) : experiment_context :=
  match c.list.experiment with
  | none => c
  | some index =>
    let exp := c.list.at index
    -- Replace screenshot path with current sample number
    let filename := format_uint c.accum_num
    let tmp := concatenate_strings [exp.base_dir, exp.exp_name, filename, ".", exp.ext]
    let list := { c.list with
      experiments := c.list.experiments.set index { exp with screenshot_path := tmp } }
    if exp.use_hdr then
      { c with list := list,
               screenshot := take_screenshot c.screenshot none none (some tmp),
               trace := c.trace ++ [Event.take_screenshot none none (some tmp) c.accum_num] }
    else
      { c with list := list,
               screenshot := take_screenshot c.screenshot (some tmp) none none,
               trace := c.trace ++ [Event.take_screenshot (some tmp) none none c.accum_num] }

/-- The part of `advance_experiments` behind the call of `setup_experiment`:
the branches on `ss_per_frame` and on the state of the list. -/
def advance_running_experiment (c : experiment_context) : experiment_context :=
  let ss_per_frame :=
    match c.list.experiment with
    | some index => (c.list.at index).ss_per_frame
    | none => false
  if ss_per_frame then
    if c.list.state = .experiment_state_screenshot_frame_0 then
      if c.list.next_setup_frame > (c.accum_num + 1) % 4294967296 then
        -- Continue rendering
        { c with list := { c.list with state := .experiment_state_rendering } }
      else (cleanup_experiment c false).2
    else if c.list.state = .experiment_state_rendering then
      -- Take a screenshot for the current experiment (if any)
      if c.accum_num % 10 = 0 then
        let c := request_experiment_screenshot c
        -- End the current experiment
        { c with list := { c.list with state := .experiment_state_screenshot_frame_0 } }
      else c
    else c
  else
    if c.list.state = .experiment_state_screenshot_frame_0 then
      (cleanup_experiment c true).2
    else if c.list.state = .experiment_state_rendering
        ∧ c.list.next_setup_frame ≤ c.accum_num then
      -- Take a screenshot for the current experiment (if any)
      let c := request_experiment_screenshot c
      -- End the current experiment
      { c with list := { c.list with state := .experiment_state_screenshot_frame_0 } }
    else c

/-- Whether `advance_experiments` calls `setup_experiment`: experiments are
running and the list is in the state `experiment_state_new_experiment`. -/
def starts_experiment (list : experiment_list_t) : Bool :=
  decide (list.next ≤ list.count) && decide (list.state = .experiment_state_new_experiment)

/-- The function `advance_experiments` with its return value. -/
def advance_experiments (c : experiment_context) (timings_opens : Bool) :
    Nat × experiment_context :=
  if c.list.next > c.list.count then
    if c.list.state = .experiment_state_new_experiment then (1, c)
    else
      -- Experiments are not running
      (0, { c with list := { c.list with state := .experiment_state_rendering } })
  else
    (0, advance_running_experiment
      (if c.list.state = .experiment_state_new_experiment then setup_experiment c timings_opens
        else c))

/-! ## The per-frame functions `handle_frame_input` and `render_frame` -/

/-- What `specify_user_interface` does in one frame: the scene paths and the
render settings it leaves behind (`none`: untouched), the flags of the updates
structure it sets, and whether it sets `*reset_accum`. -/
structure interface_outcomes where
  scene : Option scene_specification_t
  settings : Option render_settings_t
  recreate_swapchain : Bool
  reload_scene : Bool
  change_shading : Bool
  quick_save : Bool
  quick_load : Bool
  reset_accum : Bool

/-- The inputs of one `handle_frame_input` call: the user interface, the edge
triggered keys, whether `fopen_setvbuf` opens a timings file, the collaborators
of `update_application`, and whether `control_camera` sets its `need_update`. -/
structure frame_inputs where
  interface : interface_outcomes
  key_escape : Bool
  key_f1 : Bool
  key_f2 : Bool
  key_f3 : Bool
  key_f4 : Bool
  key_f5 : Bool
  key_f10 : Bool
  key_f12 : Bool
  timings_opens : Bool
  update : update_outcomes
  camera_moved : Bool

/-- The result of `handle_frame_input`: the return value, the application
afterwards, what the call did, and the result of its `update_application` call
(`none` when the function returns before that call). -/
structure frame_input_result where
  ret : Nat
  app : application_t
  trace : List Event
  update : Option update_result

/-- The first statements of `handle_frame_input`: the updates structure that
`specify_user_interface` leaves behind, starting from `{ VK_FALSE }`. -/
def interface_updates (i : interface_outcomes) : application_updates_t :=
  { no_updates with
    recreate_swapchain := i.recreate_swapchain,
    reload_scene := i.reload_scene,
    change_shading := i.change_shading,
    quick_save := i.quick_save,
    quick_load := i.quick_load }

/-- The writes of `specify_user_interface` to the application. -/
def apply_interface (app : application_t) (i : interface_outcomes) : application_t :=
  { app with
    scene_specification := i.scene.getD app.scene_specification,
    render_settings := i.settings.getD app.render_settings }

/-- The part of `handle_frame_input` between the escape key and the call of
`advance_experiments`: the keys F5, F3, F4, F10, F12, F1 and F2 and the
`recreate_swapchain` flag that `render_frame` may have left in the frame
queue. The result is the application, the updates and the screenshot
requests made. -/
def apply_keys (app : application_t) (updates : application_updates_t) (i : frame_inputs) :
    application_t × application_updates_t × List Event :=
  -- Reload shaders on request
  let updates := if i.key_f5 then { updates with reload_shaders := true } else updates
  -- Quick save and quick load
  let updates := if i.key_f3 then { updates with quick_save := true } else updates
  let updates := if i.key_f4 then { updates with quick_load := true } else updates
  -- Take a screenshot
  let trace : List Event :=
    if i.key_f10 then [Event.take_screenshot (some "data/screenshot.png") none none app.accum_num]
    else []
  let app :=
    if i.key_f10 then
      { app with screenshot :=
          take_screenshot app.screenshot (some "data/screenshot.png") none none }
    else app
  let trace :=
    if i.key_f12 then
      trace ++ [Event.take_screenshot none none (some "data/screenshot.hdr") app.accum_num]
    else trace
  let app :=
    if i.key_f12 then
      { app with screenshot :=
          take_screenshot app.screenshot none none (some "data/screenshot.hdr") }
    else app
  -- Toggle the user interface
  let app := { app with render_settings := { app.render_settings with
    show_gui := xor app.render_settings.show_gui i.key_f1 } }
  -- Toggle v-sync
  let app :=
    if i.key_f2 then
      { app with render_settings := { app.render_settings with
          v_sync := xor app.render_settings.v_sync true } }
    else app
  let updates := if i.key_f2 then { updates with recreate_swapchain := true } else updates
  -- If things went badly in the previous frame, we may want to resize the swapchain
  let updates :=
    if app.frame_queue.recreate_swapchain then { updates with recreate_swapchain := true }
    else updates
  let app :=
    if app.frame_queue.recreate_swapchain then
      { app with frame_queue := { app.frame_queue with recreate_swapchain := false } }
    else app
  (app, updates, trace)

/-- The arguments of the `advance_experiments` call of `handle_frame_input`. -/
def experiment_context_of (app : application_t) (updates : application_updates_t)
    (trace : List Event) : experiment_context :=
  { screenshot := app.screenshot, updates := updates, list := app.experiment_list,
    scene := app.scene_specification, render_settings := app.render_settings,
    accum_num := app.accum_num, timings := app.timings, trace := trace }

/-- The application after the `advance_experiments` call of `handle_frame_input`. -/
def apply_experiment_context (app : application_t) (c : experiment_context) : application_t :=
  { app with
    screenshot := c.screenshot, experiment_list := c.list, scene_specification := c.scene,
    render_settings := c.render_settings, accum_num := c.accum_num, timings := c.timings }

/-- The function `handle_frame_input`. -/
def handle_frame_input (app : application_t) (i : frame_inputs) : frame_input_result :=
  -- Define the user interface for the current frame
  let updates := interface_updates i.interface
  let reset_accum := i.interface.reset_accum
  let app := apply_interface app i.interface
  -- Pressing escape ends the application
  if i.key_escape then ⟨1, app, [], none⟩
  else
  let keyed := apply_keys app updates i
  -- Cycle through experiments (if they are ongoing)
  let advanced := advance_experiments (experiment_context_of keyed.1 keyed.2.1 keyed.2.2)
    i.timings_opens
  let exp_done := advanced.1
  let app := apply_experiment_context keyed.1 advanced.2
  if exp_done ≠ 0 ∧ app.run_all_exp then ⟨1, app, advanced.2.trace, none⟩
  else
  -- Handle updates
  let updated := update_application app advanced.2.updates reset_accum i.update
  let trace := advanced.2.trace ++ updated.trace
  if updated.ret ≠ 0 then ⟨1, updated.app, trace, some updated⟩
  else
  -- Update the camera
  let reset_accum := updated.reset_accum || i.camera_moved
  -- Reset accumulation if needed
  ⟨0, if reset_accum then { updated.app with accum_num := 0 } else updated.app, trace,
    some updated⟩

/-- What the collaborators of `render_frame` do in one call: the result of
`vkAcquireNextImageKHR` with the image index it yields, the number of
`VK_TIMEOUT` results of `vkWaitForFences` before its first other result
`fence_result`, and the results of `vkResetFences`,
`record_render_frame_commands`, `vkQueueSubmit`, the screenshot collaborators
and `vkQueuePresentKHR`. -/
structure render_outcomes where
  acquire_result : Int
  swapchain_index : Nat
  fence_timeouts : Nat
  fence_result : Int
  reset_result : Int
  record_result : Nat
  submit_result : Int
  screenshot : screenshot_outcomes
  present_result : Int

/-- The value `VK_TIMEOUT` of `VkResult`. -/
def VK_TIMEOUT : Int := 2

/-- The result of `render_frame`: return value, application, what it did. -/
structure render_result where
  ret : Nat
  app : application_t
  trace : List Event

/-- The first part of `render_frame`, up to and including `vkQueueSubmit`:
whether it got through (`false` stands for a `return 1`), the application and
the calls made. -/
def submit_frame (app : application_t) (o : render_outcomes) :
    Bool × application_t × List Event :=
  -- Get synchronization objects
  let queue := { app.frame_queue with
    sync_index := ((app.frame_queue.sync_index + 1) % 4294967296) % app.frame_queue.frame_count }
  let app := { app with frame_queue := queue }
  -- Acquire the next swapchain image
  let swapchain_index := o.swapchain_index
  let trace := [Event.acquire o.acquire_result swapchain_index]
  if o.acquire_result ≠ 0 then (false, app, trace)
  else
  let workload := queue.workloads.getD swapchain_index { used := false }
  -- Perform GPU-CPU synchronization
  let trace :=
    if workload.used then
      trace ++ List.replicate o.fence_timeouts (Event.wait_for_fence swapchain_index VK_TIMEOUT)
        ++ [Event.wait_for_fence swapchain_index o.fence_result]
    else trace
  if workload.used ∧ o.fence_result ≠ 0 then (false, app, trace)
  else
  let trace :=
    if workload.used then trace ++ [Event.reset_fence swapchain_index o.reset_result]
    else trace
  if workload.used ∧ o.reset_result ≠ 0 then (false, app, trace)
  else
  let queue := { queue with workloads := queue.workloads.set swapchain_index { used := true } }
  let app := { app with frame_queue := queue }
  -- Record the command buffer for rendering
  let trace := trace ++ [Event.record_commands swapchain_index app.accum_num
    app.screenshot.frame_bits.val o.record_result]
  if o.record_result ≠ 0 then (false, app, trace)
  else
  -- Queue the command buffer for rendering
  let trace := trace ++ [Event.submit swapchain_index o.submit_result]
  if o.submit_result ≠ 0 then (false, app, trace)
  else (true, app, trace)

/-- The second part of `render_frame`, from `record_frame_time` to the end. -/
def present_frame (app : application_t) (o : render_outcomes) (trace : List Event) :
    render_result :=
  let swapchain_index := o.swapchain_index
  -- Record frametimes
  let trace := trace ++ [Event.record_frame_time swapchain_index app.accum_num app.timings]
  -- Take a screenshot if requested
  let shot := implement_screenshot app.screenshot
    (app.swapchain.extent_width, app.swapchain.extent_height) o.screenshot
  let app := { app with screenshot := shot.screenshot }
  -- Present the image in the window
  let trace := trace ++ [Event.present swapchain_index o.present_result]
  let app :=
    if o.present_result ≠ 0 then
      { app with frame_queue := { app.frame_queue with recreate_swapchain := true } }
    else app
  -- Only increment if we are not currently taking a HDR screenshot
  let app :=
    if app.render_settings.accum ∧ app.screenshot.frame_bits.val < 2 then
      { app with accum_num := (app.accum_num + 1) % 4294967296 }
    else app
  ⟨0, app, trace⟩

/-- The function `render_frame`. -/
def render_frame (app : application_t) (o : render_outcomes) : render_result :=
  let submitted := submit_frame app o
  if submitted.1 then present_frame submitted.2.1 o submitted.2.2
  else ⟨1, submitted.2.1, submitted.2.2⟩

/-! ## Sample states and outcomes -/

/-- A running application: a 1920 x 1080 swapchain with three images, five
samples accumulated, no screenshot pending and no experiments running. -/
def sample_app : application_t :=
  { swapchain := { extent_width := 1920, extent_height := 1080, image_count := 3 },
    scene_specification :=
      { file_path := "data/zeroday.vks",
        texture_path := "data/ZeroDay_textures",
        quick_save_path := "data/quicksaves/ZeroDay.save" },
    render_settings := { accum := true, show_gui := true, v_sync := false, shading := 0 },
    frame_queue := created_frame_queue 3,
    screenshot := zeroed_screenshot,
    experiment_list :=
      { experiments := [], experiment := none, count := 0, next := 1,
        next_setup_frame := 0, state := .experiment_state_rendering },
    run_all_exp := false, accum_num := 5, timings := none }

/-- Collaborators of `update_application` that all succeed, with a quick load
that finds the lights unchanged. -/
def sample_update_outcomes : update_outcomes :=
  { load_changes_light_count := false, load_changes_light_textures := false,
    swapchain_result := 0,
    resized := { extent_width := 1920, extent_height := 1080, image_count := 3 },
    create_result := fun _ => 0 }

/-- Collaborators of `update_application` of which `create_geometry_pass` fails. -/
def failing_update_outcomes : update_outcomes :=
  { sample_update_outcomes with
    create_result := fun r => if r = .geometry_pass then 1 else 0 }

/-- A request that only asks for a quick load. -/
def quick_load_request : application_updates_t := { no_updates with quick_load := true }

/-- A request that only asks to reload the shaders. -/
def reload_shaders_request : application_updates_t := { no_updates with reload_shaders := true }

/-- A list of two experiments: a per-frame capture with a budget of 20 samples
and a single shot with a budget of 5 samples. -/
def sample_experiments : List experiment_t :=
  [ { zeroed_experiment with
      scene_index := 2, use_hdr := true, num_samples := 20, ss_per_frame := true,
      render_settings := { accum := true, show_gui := false, v_sync := false, shading := 1 },
      base_dir := "data/experiments/", exp_name := "a", ext := "hdr",
      screenshot_path := "data/experiments/a/00000.hdr",
      screenshots_dir := "data/experiments/a",
      timings_path := "data/experiments/a/timings.txt" },
    { zeroed_experiment with
      scene_index := 2, use_hdr := false, num_samples := 5, ss_per_frame := false,
      render_settings := { accum := true, show_gui := false, v_sync := false, shading := 2 },
      base_dir := "data/experiments/", exp_name := "b", ext := "png",
      screenshot_path := "data/experiments/b/00000.png",
      screenshots_dir := "data/experiments/b",
      timings_path := "data/experiments/b/timings.txt" } ]

/-- The sample application at the start of an automated run over
`sample_experiments`, with seven samples accumulated by the interactive
session before. -/
def sample_experiment_app : application_t :=
  { sample_app with
    experiment_list :=
      { experiments := sample_experiments, experiment := none, count := 2, next := 0,
        next_setup_frame := 0, state := .experiment_state_new_experiment },
    run_all_exp := true, accum_num := 7 }

/-- A user interface that is left alone. -/
def idle_interface : interface_outcomes :=
  { scene := none, settings := none, recreate_swapchain := false, reload_scene := false,
    change_shading := false, quick_save := false, quick_load := false, reset_accum := false }

/-- A frame without any input. -/
def idle_frame_inputs : frame_inputs :=
  { interface := idle_interface, key_escape := false, key_f1 := false, key_f2 := false,
    key_f3 := false, key_f4 := false, key_f5 := false, key_f10 := false, key_f12 := false,
    timings_opens := true, update := sample_update_outcomes, camera_moved := false }

/-- A frame in which the camera moves and nothing else happens. -/
def camera_frame_inputs : frame_inputs := { idle_frame_inputs with camera_moved := true }

/-- Screenshot collaborators that all succeed. -/
def sample_screenshot_outcomes : screenshot_outcomes :=
  { staging_fails := false, grab_fails := false, grabbed := fun i => i,
    png_fails := false, jpg_fails := false, hdr_fails := false }

/-- Collaborators of `render_frame` that all succeed and hand out image 1. -/
def sample_render_outcomes : render_outcomes :=
  { acquire_result := 0, swapchain_index := 1, fence_timeouts := 0, fence_result := 0,
    reset_result := 0, record_result := 0, submit_result := 0,
    screenshot := sample_screenshot_outcomes, present_result := 0 }

/-- Screenshot collaborators that succeed and grab the byte `0x00` everywhere. -/
def low_plane_outcomes : screenshot_outcomes :=
  { sample_screenshot_outcomes with grabbed := fun _ => 0x00 }

/-- Screenshot collaborators that succeed and grab the byte `0x3C` everywhere. -/
def high_plane_outcomes : screenshot_outcomes :=
  { sample_screenshot_outcomes with grabbed := fun _ => 0x3C }

/-! ## The main loop -/

/-- The result of the main loop: whether it was left through a `break`, the
application afterwards and everything the frames did. -/
structure main_loop_result where
  stopped : Bool
  app : application_t
  trace : List Event
deriving DecidableEq, Repr

/-- The body of the `while` loop of `main` for a window that is not minimized:
`handle_frame_input`, then `render_frame`, with a `break` when either returns
non-zero. -/
def main_loop_frame (app : application_t) (i : frame_inputs) (o : render_outcomes) :
    main_loop_result :=
  let handled := handle_frame_input app i
  if handled.ret ≠ 0 then ⟨true, handled.app, handled.trace⟩
  else
    let rendered := render_frame handled.app o
    ⟨decide (rendered.ret ≠ 0), rendered.app, handled.trace ++ rendered.trace⟩

/-- The `while` loop of `main`, run for the given frames or until a `break`. -/
def main_loop (app : application_t) :
    List (frame_inputs × render_outcomes) → main_loop_result
  | [] => ⟨false, app, []⟩
  | frame :: frames =>
    let first := main_loop_frame app frame.1 frame.2
    if first.stopped then first
    else
      let rest := main_loop first.app frames
      ⟨rest.stopped, rest.app, first.trace ++ rest.trace⟩

/-- The sample counts at which a trace shows `take_screenshot` being called. -/
def screenshot_sample_counts (trace : List Event) : List Nat :=
  trace.filterMap (fun e => match e with
    | .take_screenshot _ _ _ accum_num => some accum_num
    | _ => none)

/-- What the experiment engine does, as far as a trace shows it. -/
inductive milestone where
  | setup (index : Nat)
  | screenshot (accum_num : Nat)
  | cleanup (index : Nat)
deriving DecidableEq, Repr

/-- The calls of `setup_experiment`, `take_screenshot` and
`cleanup_experiment` of a trace, in order. -/
def milestones (trace : List Event) : List milestone :=
  trace.filterMap (fun e => match e with
    | .setup_experiment index => some (.setup index)
    | .take_screenshot _ _ _ accum_num => some (.screenshot accum_num)
    | .cleanup_experiment index => some (.cleanup index)
    | _ => none)

/-- Whether the screenshot object is idle or in the second frame of an HDR
capture: only the HDR path is set and the capture byte is
`frame_bits_hdr_high`. -/
def idle_or_high_phase (screenshot : screenshot_t) : Bool :=
  is_idle screenshot
    || (!screenshot.path_png.isSome && !screenshot.path_jpg.isSome
        && screenshot.path_hdr.isSome
        && decide (screenshot.frame_bits = .frame_bits_hdr_high))

/-- A number of frames without input in which every collaborator succeeds. -/
def quiet_frames (n : Nat) : List (frame_inputs × render_outcomes) :=
  List.replicate n (idle_frame_inputs, sample_render_outcomes)

/-- The experiment list of the scenario: experiment A captures a screenshot
every tenth sample up to its budget of 20 samples, experiment B captures a
single screenshot at its budget of 5 samples. Each of them writes `*.hdr` or
`*.png` files. -/
def scenario_experiments (a_hdr b_hdr : Bool) : List experiment_t :=
  [ { zeroed_experiment with
      scene_index := 2, use_hdr := a_hdr, num_samples := 20, ss_per_frame := true,
      render_settings := { accum := true, show_gui := false, v_sync := false, shading := 1 },
      base_dir := "data/experiments/", exp_name := "a",
      ext := if a_hdr then "hdr" else "png",
      screenshot_path := "data/experiments/a/00000.ext",
      screenshots_dir := "data/experiments/a",
      timings_path := "data/experiments/a/timings.txt" },
    { zeroed_experiment with
      scene_index := 2, use_hdr := b_hdr, num_samples := 5, ss_per_frame := false,
      render_settings := { accum := true, show_gui := false, v_sync := false, shading := 2 },
      base_dir := "data/experiments/", exp_name := "b",
      ext := if b_hdr then "hdr" else "png",
      screenshot_path := "data/experiments/b/00000.ext",
      screenshots_dir := "data/experiments/b",
      timings_path := "data/experiments/b/timings.txt" } ]

/-- The application as `startup_application` leaves it for `-run_exp` with the
experiment list of the scenario, on a swapchain of 2 x 1 pixels. -/
def scenario_app (a_hdr b_hdr : Bool) : application_t :=
  { sample_app with
    swapchain := { extent_width := 2, extent_height := 1, image_count := 3 },
    experiment_list :=
      { experiments := scenario_experiments a_hdr b_hdr, experiment := none, count := 2,
        next := 0, next_setup_frame := 0, state := .experiment_state_new_experiment },
    run_all_exp := true, accum_num := 0 }

/-- The number of the frame in which the run of the scenario ends: an HDR
capture of experiment A holds the sample count for one frame, twice. -/
def scenario_length (a_hdr : Bool) : Nat := if a_hdr then 32 else 30

/-- Whether the screenshot object is in one of the four phases of a capture:
idle, LDR capture pending (a PNG or JPG path, no HDR path, capture byte
`frame_bits_ldr`), first HDR frame pending (only the HDR path, capture byte
`frame_bits_hdr_low`) or second HDR frame pending. -/
def capture_phase_valid (screenshot : screenshot_t) : Bool :=
  idle_or_high_phase screenshot
    || (!screenshot.path_hdr.isSome
        && (screenshot.path_png.isSome || screenshot.path_jpg.isSome)
        && decide (screenshot.frame_bits = .frame_bits_ldr))
    || (!screenshot.path_png.isSome && !screenshot.path_jpg.isSome
        && screenshot.path_hdr.isSome
        && decide (screenshot.frame_bits = .frame_bits_hdr_low))

/-- Whether experiments are stopped with the marker that `cleanup_experiment`
leaves for `advance_experiments` to report: the cursor is past the count and
the state is `experiment_state_new_experiment`. -/
def completion_pending (list : experiment_list_t) : Bool :=
  decide (list.next > list.count) && decide (list.state = .experiment_state_new_experiment)

/-- The arguments of the `advance_experiments` call in frame 29 of the run of
the scenario with two LDR experiments, the frame that finalizes experiment B. -/
def finalizing_context : experiment_context :=
  experiment_context_of (main_loop (scenario_app false false) (quiet_frames 28)).app
    no_updates []

/-! ## Polygonal lights and the quicksave file -/

/-- The structure `polygonal_light_t` of `polygonal_light.h`. Floats are their
32-bit patterns. `head` holds the twenty floats at the start of the structure
in declaration order: `rotation_angles[3]`, `scaling_x` (index 3),
`translation[3]`, `scaling_y` (index 7), `radiant_flux[3]`, `inv_scaling_x`,
`surface_radiance[3]`, `inv_scaling_y` and `plane[4]`. The members between
`texturing_technique` and `texture_file_path`, which no modelled function
reads, are left out. The texture path is the bytes of the C string without its
terminator, `none` for `NULL`; the vertex arrays are `none` for `NULL`. -/
structure polygonal_light_t where
  head : List Nat
  vertex_count : Nat
  texturing_technique : Nat
  texture_file_path : Option (List Nat)
  vertices_plane_space : Option (List Nat)
  vertices_world_space : Option (List Nat)
deriving DecidableEq, Repr

/-- The value of `POLYGONAL_LIGHT_QUICKSAVE_SIZE`: twenty floats and two
32-bit integers. -/
def POLYGONAL_LIGHT_QUICKSAVE_SIZE : Nat := 4 * 20 + 4 * 2

/-- The function `set_polygonal_light_vertex_count` with its return value. -/
def set_polygonal_light_vertex_count (light : polygonal_light_t) (vertex_count : Nat) :
    Nat × polygonal_light_t :=
  if vertex_count = light.vertex_count ∧ light.vertices_plane_space.isSome = true
      ∧ light.vertices_world_space.isSome = true then
    (0, light)
  else
    let vertices := List.replicate (4 * vertex_count) 0
    let vertices :=
      match light.vertices_plane_space with
      | some old =>
        let copied := old.take (4 * (if vertex_count < light.vertex_count then vertex_count
          else light.vertex_count))
        copied ++ vertices.drop copied.length
      | none => vertices
    let light := { light with
      vertices_plane_space := some vertices,
      vertices_world_space := some (List.replicate (4 * vertex_count) 0),
      vertex_count := vertex_count }
    (if vertex_count ≠ light.vertex_count then 1 else 0, light)

/-- The camera and the lights of `scene_specification_t`: the bytes of the
member `camera`, `polygonal_light_count` and the array `polygonal_lights`. -/
structure scene_content_t where
  camera : List Nat
  polygonal_light_count : Nat
  polygonal_lights : List polygonal_light_t
deriving DecidableEq, Repr

/-- The bytes of an unsigned integer of the given width in memory, least
significant byte first. -/
def le_bytes : Nat → Nat → List Nat
  | 0, _ => []
  | width + 1, value => value % 256 :: le_bytes width (value / 256)

/-- The unsigned integer that the given bytes are in memory. -/
def le_value : List Nat → Nat
  | [] => 0
  | b :: bytes => b % 256 + 256 * le_value bytes

/-- The bytes of an array of 32-bit words (floats or integers) in memory. -/
def words_bytes : List Nat → List Nat
  | [] => []
  | w :: ws => le_bytes 4 w ++ words_bytes ws

/-- The first `n` 32-bit words that a byte stream holds. -/
def bytes_words : Nat → List Nat → List Nat
  | 0, _ => []
  | n + 1, stream => le_value (stream.take 4) :: bytes_words n (stream.drop 4)

/-- The first `n` entries of an array, zero where the array ends before. -/
def first_words (array : List Nat) (n : Nat) : List Nat :=
  (List.range n).map (fun k => array.getD k 0)

/-- The bytes that `quick_save` writes for one light. -/
def quick_save_light (light : polygonal_light_t) : List Nat :=
  -- fwrite(light, POLYGONAL_LIGHT_QUICKSAVE_SIZE, 1, file)
  words_bytes (first_words light.head 20)
    ++ le_bytes 4 light.vertex_count ++ le_bytes 4 light.texturing_technique
  -- the size of the texture path with its terminator, and the path
    ++ (match light.texture_file_path with
        | some path => le_bytes 8 (path.length + 1) ++ path ++ [0]
        | none => le_bytes 8 0)
  -- Write NULL pointers for backward compatibility
    ++ le_bytes 8 0 ++ le_bytes 8 0
  -- fwrite(light->vertices_plane_space, sizeof(float), 4 * light->vertex_count, file)
    ++ words_bytes (first_words (light.vertices_plane_space.getD [])
        ((4 * light.vertex_count) % 4294967296))

/-- The bytes that the loop of `quick_save` writes for the lights. -/
def quick_save_lights : List polygonal_light_t → List Nat
  | [] => []
  | light :: lights => quick_save_light light ++ quick_save_lights lights

/-- The function `quick_save`: the contents of the quicksave file afterwards,
`none` when the file cannot be opened (nothing is written then). -/
def quick_save (scene : scene_content_t) (opens : Bool) : Option (List Nat) :=
  if !opens then none
  else
    some (scene.camera
      ++ le_bytes 4 0
      ++ le_bytes 4 scene.polygonal_light_count
      ++ quick_save_lights (scene.polygonal_lights.take scene.polygonal_light_count))

/-- Whether a float with the given bit pattern compares `<= 0.0f`: it is a
zero, or negative and not a NaN. -/
def float_le_zero (bits : Nat) : Bool :=
  decide (bits % 2147483648 = 0)
    || (decide (2147483648 ≤ bits) && decide (bits % 2147483648 ≤ 2139095040))

/-- The light that the memory returned by `malloc` holds before `quick_load`
reads into it (its contents are not defined by the program; no modelled
function reads them before they are written). -/
def unread_light : polygonal_light_t :=
  { head := List.replicate 20 0, vertex_count := 0, texturing_technique := 0,
    texture_file_path := none, vertices_plane_space := none, vertices_world_space := none }

/-- What the loop of `quick_load` carries from light to light: the rest of
the file, the local `vertex_count_changed` and whether the assignment
`updates->update_light_textures = VK_TRUE` has been executed. -/
structure quick_load_state where
  stream : List Nat
  vertex_count_changed : Bool
  textures_changed : Bool
deriving DecidableEq, Repr

/-- The array that a pointer read from the file stands for: none for `NULL`.
A non-null pointer read from a file points to no array of the program; it is
the empty array here. -/
def pointer_from_file (bytes : List Nat) : Option (List Nat) :=
  if le_value bytes = 0 then none else some []

/-- One iteration of the loop of `quick_load`, for light `i`: the light read
and the state for the next iteration. -/
def quick_load_light (old_polygonal_lights : List polygonal_light_t)
    (old_polygonal_light_count i : Nat) (s : quick_load_state) :
    polygonal_light_t × quick_load_state :=
  -- fread(light, POLYGONAL_LIGHT_QUICKSAVE_SIZE, 1, file)
  let header := s.stream.take POLYGONAL_LIGHT_QUICKSAVE_SIZE
  let stream := s.stream.drop POLYGONAL_LIGHT_QUICKSAVE_SIZE
  let light := { unread_light with
    head := bytes_words 20 header,
    vertex_count := le_value ((header.drop 80).take 4),
    texturing_technique := le_value ((header.drop 84).take 4) }
  let old := old_polygonal_lights.getD i unread_light
  let vertex_count_changed := s.vertex_count_changed
    || (decide (i < old_polygonal_light_count)
        && decide (light.vertex_count ≠ old.vertex_count))
  -- Quick fix for legacy files
  let light :=
    if float_le_zero (light.head.getD 7 0) then
      { light with head := light.head.set 7 (light.head.getD 3 0) }
    else light
  -- Read the texture file path (if any)
  let path_size := le_value (stream.take 8)
  let stream := stream.drop 8
  let path := (stream.take path_size).takeWhile (fun b => b % 256 ≠ 0)
  let light :=
    if path_size ≠ 0 then { light with texture_file_path := some path } else light
  let textures_changed := s.textures_changed
    || (decide (path_size ≠ 0) && decide (i < old_polygonal_light_count)
        && old.texture_file_path.isSome && decide (some path ≠ old.texture_file_path))
  let stream := if path_size ≠ 0 then stream.drop path_size else stream
  -- Read NULL pointers for backward compatibility
  let light := { light with
    vertices_plane_space := pointer_from_file (stream.take 8),
    vertices_world_space := pointer_from_file ((stream.drop 8).take 8) }
  let stream := stream.drop 16
  -- Allocate and read vertex locations
  let light := (set_polygonal_light_vertex_count light light.vertex_count).2
  let count := (4 * light.vertex_count) % 4294967296
  let available := min count (stream.length / 4)
  let light := { light with
    vertices_plane_space := light.vertices_plane_space.map
      (fun array => bytes_words available stream ++ array.drop available) }
  (light, { stream := stream.drop (4 * count), vertex_count_changed := vertex_count_changed,
            textures_changed := textures_changed })

/-- The loop of `quick_load` over the lights `i`, ..., `i + n - 1`. -/
def quick_load_lights (old_polygonal_lights : List polygonal_light_t)
    (old_polygonal_light_count : Nat) :
    Nat → Nat → quick_load_state → List polygonal_light_t × quick_load_state
  | 0, _, s => ([], s)
  | n + 1, i, s =>
    let first := quick_load_light old_polygonal_lights old_polygonal_light_count i s
    let rest := quick_load_lights old_polygonal_lights old_polygonal_light_count n (i + 1)
      first.2
    (first.1 :: rest.1, rest.2)

/-- The function `quick_load` on the contents of the quicksave file (`none`
when the file cannot be opened) and the updates structure (`none` for `NULL`):
the scene and the updates structure afterwards. -/
def quick_load (scene : scene_content_t) (file : Option (List Nat))
    (updates : Option application_updates_t) :
    scene_content_t × Option application_updates_t :=
  match file with
  | none => (scene, updates)
  | some stream =>
    -- Load the camera
    let read := stream.take scene.camera.length
    let camera := read ++ scene.camera.drop read.length
    let stream := stream.drop scene.camera.length
    -- Legacy
    let stream := stream.drop 4
    -- Load polygonal lights
    let old_polygonal_light_count := scene.polygonal_light_count
    let old_polygonal_lights := scene.polygonal_lights
    let polygonal_light_count := le_value (stream.take 4)
    let stream := stream.drop 4
    let loaded := quick_load_lights old_polygonal_lights old_polygonal_light_count
      polygonal_light_count 0
      { stream := stream, vertex_count_changed := false, textures_changed := false }
    let updates := updates.map (fun u =>
      if loaded.2.textures_changed then { u with update_light_textures := true } else u)
    let updates := updates.map (fun u => { u with
      update_light_count := u.update_light_count
        || (decide (old_polygonal_light_count ≠ polygonal_light_count)
            || loaded.2.vertex_count_changed) })
    ({ camera := camera, polygonal_light_count := polygonal_light_count,
       polygonal_lights := loaded.1 }, updates)

/-- A triangular light without texture: unit scalings (`0x3F800000` is 1.0),
three vertices in plane space. -/
def triangle_light : polygonal_light_t :=
  { head := [0, 0, 0, 1065353216, 0, 0, 0, 1065353216, 0, 0, 0, 0, 0, 0, 0, 0, 0, 0, 0, 0],
    vertex_count := 3, texturing_technique := 0, texture_file_path := none,
    vertices_plane_space := some [0, 0, 0, 0, 1065353216, 0, 0, 0, 0, 1065353216, 0, 0],
    vertices_world_space := some [0, 0, 0, 0, 0, 0, 0, 0, 0, 0, 0, 0] }

/-- The triangular light with the texture path `"a"` (`0x61`). -/
def textured_triangle_light : polygonal_light_t :=
  { triangle_light with texturing_technique := 1, texture_file_path := some [97] }

/-- A scene with a four-byte camera record and the given lights. -/
def scene_with_lights (lights : List polygonal_light_t) : scene_content_t :=
  { camera := [1, 2, 3, 4], polygonal_light_count := lights.length, polygonal_lights := lights }

/-- A light of 1073741824 vertices, for which `4 * vertex_count` is zero in
`uint32_t`: the scalings of the triangle, no texture, and vertex arrays of
4294967296 floats as `set_polygonal_light_vertex_count` allocates them, with
1.0 in every plane-space entry. -/
def wrapped_light : polygonal_light_t :=
  { triangle_light with
    vertex_count := 1073741824,
    vertices_plane_space := some (List.replicate 4294967296 1065353216),
    vertices_world_space := some (List.replicate 4294967296 0) }

/-- Whether a light is one that `quick_save` writes as it is: the texture path
is a C string (no zero byte) whose size fits `size_t`, and the plane-space
vertex array holds `4 * vertex_count` floats of 32 bits, a count that fits
`uint32_t`. -/
def light_well_formed (light : polygonal_light_t) : Bool :=
  decide (4 * light.vertex_count < 4294967296)
    && (match light.texture_file_path with
        | some path => path.all (fun b => decide (b % 256 ≠ 0))
            && decide (path.length + 1 < 18446744073709551616)
        | none => true)
    && (match light.vertices_plane_space with
        | some array => decide (array.length = 4 * light.vertex_count)
            && array.all (fun w => decide (w < 4294967296))
        | none => false)

/-- Whether a scene is one that `quick_save` writes as it is:
`polygonal_light_count` is the number of lights and fits `uint32_t`, and every
light is well formed. -/
def scene_well_formed (scene : scene_content_t) : Bool :=
  decide (scene.polygonal_light_count = scene.polygonal_lights.length)
    && decide (scene.polygonal_light_count < 4294967296)
    && scene.polygonal_lights.all light_well_formed

/-- What the round trip through the quicksave file is about for a light: its
vertex count, its plane-space vertex array and its texture path. -/
def saved_part (light : polygonal_light_t) : Nat × Option (List Nat) × Option (List Nat) :=
  (light.vertex_count, light.vertices_plane_space, light.texture_file_path)

/-! ## The frame timer -/

/-- The value of `FRAME_TIME_COUNT`: how many past frame times are kept. -/
def FRAME_TIME_COUNT : Nat := 100

/-- The value of `VK_NOT_READY`. -/
def VK_NOT_READY : Int := 1

/-- The `float` that the conversion of a `double` gives, both as IEEE 754 bit
patterns (binary64 and binary32), in the default rounding mode, to nearest
with ties to even. A normal float keeps the 24 leading bits of the 53-bit
significand (29 bits are dropped), a subnormal float fewer; a carry out of the
rounding moves to the next exponent, and what lies beyond the largest float
becomes infinity. A NaN keeps its sign and its leading payload bits and is
quiet. -/
def double_to_float (bits : Nat) : Nat :=
  let sign := (bits / 9223372036854775808) % 2
  let exponent := (bits / 4503599627370496) % 2048
  let fraction := bits % 4503599627370496
  let magnitude :=
    if exponent = 2047 then
      if fraction = 0 then 2139095040
      else 2143289344 + (fraction / 536870912) % 4194304
    else
      let significand := if exponent = 0 then fraction else 4503599627370496 + fraction
      let shift := if exponent ≥ 897 then 29 else 926 - max exponent 1
      let base := if exponent ≥ 897 then (exponent - 897) * 8388608 else 0
      let kept := significand / 2 ^ shift
      let rest := significand % 2 ^ shift
      let half := 2 ^ (shift - 1)
      let rounded := if rest > half ∨ (rest = half ∧ kept % 2 = 1) then kept + 1 else kept
      min (base + rounded) 2139095040
  sign * 2147483648 + magnitude

/-- Doubles the fraction of a subnormal float until bit 23 is set, lowering
the exponent of the double by one with each step. -/
def normalize_subnormal : Nat → Nat → Nat → Nat × Nat
  | 0, exponent, fraction => (exponent, fraction)
  | fuel + 1, exponent, fraction =>
    if fraction ≥ 8388608 then (exponent, fraction)
    else normalize_subnormal fuel (exponent - 1) (2 * fraction)

/-- The `double` that the conversion of a `float` gives, both as IEEE 754 bit
patterns: the same value (a NaN becomes quiet). This is the conversion that C
applies to a `float` before it compares it with a `double`. -/
def float_to_double (bits : Nat) : Nat :=
  let sign := (bits / 2147483648) % 2
  let exponent := (bits / 8388608) % 256
  let fraction := bits % 8388608
  let magnitude :=
    if exponent = 255 then
      if fraction = 0 then 9218868437227405312
      else 9221120237041090560 + (fraction % 4194304) * 536870912
    else if exponent = 0 then
      if fraction = 0 then 0
      else
        let normal := normalize_subnormal 23 897 fraction
        normal.1 * 4503599627370496 + (normal.2 - 8388608) * 536870912
    else (exponent + 896) * 4503599627370496 + fraction * 536870912
  sign * 9223372036854775808 + magnitude

/-- Where the bit pattern of a float stands in the ascending order of the
values: the negative floats from the largest magnitude down, then the positive
ones. The two zeros, which `compare_floats` calls equal, stand next to each
other, the negative one first, and the NaNs, for which `compare_floats` gives
no order, stand at the two ends. -/
def float_order_key (bits : Nat) : Nat :=
  if bits < 2147483648 then bits + 2147483648
  else if bits < 4294967296 then 4294967295 - bits
  else bits

/-- The static variables of `frame_timer.c`: the ring `g_recorded_times` of
doubles, in which invalid entries are zero, and `g_recorded_time_index`, the
most recently written entry. A double is its IEEE 754 bit pattern. -/
structure frame_timer_t where
  g_recorded_times : List Nat
  g_recorded_time_index : Nat
deriving DecidableEq, Repr

/-- The frame timer when the program starts. -/
def initial_frame_timer : frame_timer_t :=
  { g_recorded_times := List.replicate FRAME_TIME_COUNT 0,
    g_recorded_time_index := FRAME_TIME_COUNT - 1 }

/-- The function `reset_timer_buffer`. -/
def reset_timer_buffer (timer : frame_timer_t) : frame_timer_t :=
  { timer with g_recorded_time_index := FRAME_TIME_COUNT - 1 }

/-- The function `record_frame_time` on the ring, for the result of
`vkGetQueryPoolResults` and the double `timestamp_ns * 1e-9` that the two
timestamps and `ts_period` give. -/
def record_frame_time (timer : frame_timer_t) (result : Int) (time : Nat) : frame_timer_t :=
  if result = VK_NOT_READY then timer
  else if result = 0 then
    let index := (timer.g_recorded_time_index + 1) % 4294967296
    let index := if index ≥ FRAME_TIME_COUNT then (index + 4294967296 - FRAME_TIME_COUNT)
      % 4294967296 else index
    { g_recorded_times := timer.g_recorded_times.set index time,
      g_recorded_time_index := index }
  else timer

/-- The slot `lhs` that the loop of `get_frame_time` reads in iteration `i`. -/
def frame_time_slot (timer : frame_timer_t) (i : Nat) : Nat :=
  ((timer.g_recorded_time_index + FRAME_TIME_COUNT - i) % 4294967296) % FRAME_TIME_COUNT

/-- Whether a double compares `!= 0.0`: it is neither of the two zeros. -/
def double_not_zero (bits : Nat) : Bool :=
  decide (bits % 9223372036854775808 ≠ 0)

/-- The array `frame_times` after the loop of `get_frame_time`, with its
`recorded_count` entries: the valid doubles, each converted to `float` by the
assignment. -/
def listed_frame_times (timer : frame_timer_t) : List Nat :=
  (((List.range (FRAME_TIME_COUNT - 1)).map
    (fun i => timer.g_recorded_times.getD (frame_time_slot timer i) 0)).filter
    double_not_zero).map double_to_float

/-- The function `get_frame_time`, which returns a `float`: the `return`
statements convert from `double`. The call of `qsort` with `compare_floats`
sorts in ascending order, the order of `float_order_key`. -/
def get_frame_time (timer : frame_timer_t) (get_last : Nat) : Nat :=
  -- Only return last frame time if that was requested
  if get_last ≠ 0 then
    double_to_float
      (timer.g_recorded_times.getD (timer.g_recorded_time_index % FRAME_TIME_COUNT) 0)
  else
    -- List valid frame times from previous frames
    let frame_times := listed_frame_times timer
    let recorded_count := frame_times.length
    if recorded_count = 0 then 0
    else
      -- Sort
      let frame_times := frame_times.insertionSort
        (fun a b => float_order_key a ≤ float_order_key b)
      -- Return the median
      frame_times.getD (recorded_count / 2) 0

/-- The valid entries of the ring in all slots but the one after the most
recently written entry, which is the slot that the next record is written
to, as floats. -/
def valid_entries (timer : frame_timer_t) : List Nat :=
  ((((List.range FRAME_TIME_COUNT).filter
      (fun slot => decide (slot ≠ (timer.g_recorded_time_index + 1) % FRAME_TIME_COUNT))).map
    (fun slot => timer.g_recorded_times.getD slot 0)).filter double_not_zero).map
    double_to_float

/-- Whether a float is a median of the given floats: it is one of them, and
at least half of them are at most the value and at least half of them are at
least the value, in the order of `float_order_key`. -/
def is_median (median : Nat) (values : List Nat) : Bool :=
  decide (median ∈ values)
    && decide (values.length ≤ 2 * (values.filter
        (fun v => decide (float_order_key v ≤ float_order_key median))).length)
    && decide (values.length ≤ 2 * (values.filter
        (fun v => decide (float_order_key median ≤ float_order_key v))).length)

/-- The frame timer after the given times have been recorded, one after the
other, each with the result `VK_SUCCESS`. -/
def record_frame_times (timer : frame_timer_t) (times : List Nat) : frame_timer_t :=
  times.foldl (fun t time => record_frame_time t 0 time) timer

/-- The doubles that `timestamp_ns * 1e-9` gives for the frame times
`timestamp_ns` of 10, 20, ..., 990 milliseconds, that is `1e7f`, `2e7f`, ...,
`99e7f` nanoseconds: 0.01, 0.02, ..., 0.99 seconds up to the rounding of the
product. The fiftieth is `0x3FE0000000000000`, exactly 0.5. -/
def sample_frame_times : List Nat :=
  [4576918229304087675, 4581421828931458171, 4584304132692975289, 4585925428558828667,
   4587366580439587226, 4588807732320345785, 4589708452245819884, 4590429028186199163,
   4591149604126578443, 4591870180066957722, 4592590756007337001, 4593311331947716281,
   4593851763903000740, 4594212051873190380, 4594572339843380020, 4594932627813569659,
   4595292915783759299, 4595653203753948939, 4596013491724138578, 4596373779694328218,
   4596734067664517858, 4597094355634707497, 4597454643604897137, 4597814931575086777,
   4598175219545276416, 4598355363530371236, 4598535507515466056, 4598715651500560876,
   4598895795485655696, 4599075939470750516, 4599256083455845335, 4599436227440940155,
   4599616371426034975, 4599796515411129795, 4599976659396224615, 4600156803381319435,
   4600336947366414254, 4600517091351509074, 4600697235336603894, 4600877379321698714,
   4601057523306793534, 4601237667291888354, 4601417811276983174, 4601597955262077993,
   4601778099247172813, 4601958243232267633, 4602138387217362453, 4602318531202457273,
   4602498675187552093, 4602678819172646912, 4602768891165194322, 4602858963157741732,
   4602949035150289142, 4603039107142836552, 4603129179135383962, 4603219251127931372,
   4603309323120478782, 4603399395113026192, 4603489467105573602, 4603579539098121012,
   4603669611090668421, 4603759683083215831, 4603849755075763241, 4603939827068310651,
   4604029899060858061, 4604119971053405471, 4604210043045952881, 4604300115038500291,
   4604390187031047701, 4604480259023595111, 4604570331016142521, 4604660403008689931,
   4604750475001237341, 4604840546993784750, 4604930618986332160, 4605020690978879570,
   4605110762971426980, 4605200834963974390, 4605290906956521800, 4605380978949069210,
   4605471050941616620, 4605561122934164030, 4605651194926711440, 4605741266919258850,
   4605831338911806260, 4605921410904353670, 4606011482896901080, 4606101554889448489,
   4606191626881995899, 4606281698874543309, 4606371770867090719, 4606461842859638129,
   4606551914852185539, 4606641986844732949, 4606732058837280359, 4606822130829827769,
   4606912202822375179, 4607002274814922589, 4607092346807469999]

/-- The frame timer of a program that has recorded the 99 frame times 10, 20,
..., 990 milliseconds since it started: the slots 0 to 98 hold them, slot 99
is empty and the most recently written entry is slot 98. -/
def sample_frame_timer : frame_timer_t :=
  record_frame_times initial_frame_timer sample_frame_times

/-! ## Fences and command recordings -/

/-- Whether an event is a call of `record_render_frame_commands`. -/
def is_record_commands : Event → Bool
  | Event.record_commands _ _ _ _ => true
  | _ => false

/-- Whether an event is a call of `vkWaitForFences`. -/
def is_wait_for_fence : Event → Bool
  | Event.wait_for_fence _ _ => true
  | _ => false

/-- Follows a trace with the list of pending workloads, those that have been
submitted and whose fence has not been waited for with success since. A
successful `vkQueueSubmit` makes the workload pending, a successful
`vkWaitForFences` ends that. The result is `none` when the trace records the
commands of a pending workload, and the pending workloads after the trace
otherwise. -/
def fence_monitor : List Nat → List Event → Option (List Nat)
  | pending, [] => some pending
  | pending, Event.wait_for_fence k result :: rest =>
    fence_monitor (if result = 0 then pending.filter (fun j => decide (j ≠ k)) else pending) rest
  | pending, Event.record_commands k _ _ _ :: rest =>
    if k ∈ pending then none else fence_monitor pending rest
  | pending, Event.submit k result :: rest =>
    fence_monitor (if result = 0 then k :: pending else pending) rest
  | pending, _ :: rest => fence_monitor pending rest

/-- Whether the workload of the given swapchain image is marked as used. -/
def workload_used (app : application_t) (swapchain_index : Nat) : Bool :=
  (app.frame_queue.workloads.getD swapchain_index { used := false }).used

/-- The running application after one frame has been rendered to swapchain
image 1: the workload of that image is marked as used and submitted. -/
def used_workload_app : application_t :=
  (render_frame sample_app sample_render_outcomes).app

/-- The update request of a `handle_frame_input` call that gets past the
escape key: the local `updates` as it is after `advance_experiments`, which is
what `update_application` is called with. -/
def frame_update_request (app : application_t) (i : frame_inputs) : application_updates_t :=
  let keyed := apply_keys (apply_interface app i.interface) (interface_updates i.interface) i
  (advance_experiments (experiment_context_of keyed.1 keyed.2.1 keyed.2.2)
    i.timings_opens).2.updates

/-- The running application after a frame whose presentation has failed. -/
def failed_present_app : application_t :=
  (render_frame sample_app { sample_render_outcomes with present_result := -1000001004 }).app

/-! ## The cursor of the experiment list -/

/-- Whether the cursor `next` of the list indexes an experiment or is the
sentinel `count + 1` of a list that is not running. -/
def cursor_valid (list : experiment_list_t) : Bool :=
  decide (list.next < list.count) || decide (list.next = list.count + 1)

/-- The arguments of the first `advance_experiments` call of an application
that `startup_application` has started with `run_all_exp` on the list that
`create_experiment_list` builds when no environment variable selects
experiments: no experiments, cursor 0, state
`experiment_state_new_experiment`. -/
def empty_started_context : experiment_context :=
  experiment_context_of
    { sample_app with
      experiment_list :=
        { experiments := [], experiment := none, count := 0, next := 0,
          next_setup_frame := 0, state := .experiment_state_new_experiment },
      run_all_exp := true, accum_num := 0 }
    no_updates []

/-- The screenshot path that `advance_experiments` builds for an experiment
at a sample count: `base_dir`, `exp_name`, the sample count in the format
`"/%05d"`, a dot and `ext`. -/
def experiment_screenshot_path (exp : experiment_t) (accum_num : Nat) : String :=
  concatenate_strings [exp.base_dir, exp.exp_name, format_uint accum_num, ".", exp.ext]

/-- Whether `result` is what a screenshot request for the current experiment
`index` makes of the context `c`: `take_screenshot` has been called with the
path for the current sample count, as `*.hdr` path for an HDR experiment and
as `*.png` path otherwise, the path has been written to the experiment, the
state is `experiment_state_screenshot_frame_0`, and nothing else differs. -/
def screenshot_request_issued (c : experiment_context) (index : Nat)
    (result : experiment_context) : Bool :=
  let exp := c.list.at index
  let path := experiment_screenshot_path exp c.accum_num
  let path_png := if exp.use_hdr then none else some path
  let path_hdr := if exp.use_hdr then some path else none
  decide (result = { c with
    list := { c.list with
      experiments := c.list.experiments.set index { exp with screenshot_path := path },
      state := .experiment_state_screenshot_frame_0 },
    screenshot := take_screenshot c.screenshot path_png none path_hdr,
    trace := c.trace ++ [Event.take_screenshot path_png none path_hdr c.accum_num] })

/-- The context of the scenario (two LDR experiments) at the start of frame
10: experiment A is in the state rendering with ten samples accumulated. -/
def rendering_context : experiment_context :=
  experiment_context_of (main_loop (scenario_app false false) (quiet_frames 10)).app
    no_updates []

/-! ## The reachable states of the screenshot object -/

/-- A call of one of the three functions that write the screenshot object,
with its arguments other than the object: the paths given to
`take_screenshot`, the swapchain extent and the collaborators of
`implement_screenshot`, and `destroy_screenshot`. -/
inductive screenshot_operation where
  | take (path_png path_jpg path_hdr : Option String)
  | implement (extent : Nat × Nat) (o : screenshot_outcomes)
  | destroy

/-- The screenshot object after one of the calls. -/
def apply_screenshot_operation (screenshot : screenshot_t) :
    screenshot_operation → screenshot_t
  | .take path_png path_jpg path_hdr => take_screenshot screenshot path_png path_jpg path_hdr
  | .implement extent o => (implement_screenshot screenshot extent o).screenshot
  | .destroy => destroy_screenshot screenshot

/-- The screenshot object after a sequence of calls. -/
def run_screenshot_operations (screenshot : screenshot_t)
    (operations : List screenshot_operation) : screenshot_t :=
  operations.foldl apply_screenshot_operation screenshot

/-- Whether the output paths are mutually consistent: a set HDR path excludes
a PNG and a JPG path, and the capture byte differs from `frame_bits_ldr` only
with a set HDR path. -/
def paths_consistent (screenshot : screenshot_t) : Bool :=
  (!screenshot.path_hdr.isSome
      || (!screenshot.path_png.isSome && !screenshot.path_jpg.isSome))
    && (decide (screenshot.frame_bits = .frame_bits_ldr) || screenshot.path_hdr.isSome)

/-! ## Screenshot requests in an automated run -/

/-- Whether an event is a call of `take_screenshot`. -/
def is_take_screenshot : Event → Bool
  | Event.take_screenshot _ _ _ _ => true
  | _ => false

/-- The arguments of the `advance_experiments` call of `handle_frame_input`. -/
def engine_call_context (app : application_t) (i : frame_inputs) : experiment_context :=
  let keyed := apply_keys (apply_interface app i.interface) (interface_updates i.interface) i
  experiment_context_of keyed.1 keyed.2.1 keyed.2.2

/-- What holds of the application between the frames of an automated run: the
screenshot object is idle, or it is in the second frame of an HDR capture and
the experiment list is in the state `experiment_state_screenshot_frame_0`. -/
def engine_invariant (app : application_t) : Bool :=
  is_idle app.screenshot
    || (idle_or_high_phase app.screenshot
        && decide (app.experiment_list.state = .experiment_state_screenshot_frame_0))

/-- The application of the scenario with seven samples accumulated and an
HDR screenshot requested: the frame to come captures the low byte-plane. -/
def hdr_requested_app : application_t :=
  { scenario_app true false with
    screenshot := take_screenshot zeroed_screenshot none none (some "a.hdr"),
    accum_num := 7 }

/-! ## The buffer of the screenshot path -/

/-- The function `fill_path_info` of `experiment_list.c`: the screenshot path
is allocated with the dummy name `"/00000"`. -/
def fill_path_info (exp : experiment_t) : experiment_t :=
  { exp with
    -- Dummy name to get correct length for malloc
    screenshot_path := concatenate_strings [exp.base_dir, exp.exp_name, "/00000", ".", exp.ext],
    screenshots_dir := concatenate_strings [exp.base_dir, exp.exp_name],
    timings_path := concatenate_strings [exp.base_dir, exp.exp_name, "/timings.txt"] }

/-- The experiment `uniform_area` that `create_experiment_list` defines when
`EXP_ENSURE_CORRECT` is set: a single HDR screenshot at 100000 samples. -/
def ensure_correct_uniform_area : experiment_t :=
  fill_path_info
    { zeroed_experiment with
      scene_index := 1, width := 1280, height := 720,
      render_settings := { accum := true, show_gui := false, v_sync := false, shading := 0 },
      quick_save_path := some "data/quicksaves/Bistro_exterior.save",
      use_hdr := true, base_dir := "data/experiments/ensure_correct/",
      ss_per_frame := false, ext := "hdr",
      num_samples := 100000, exp_name := "uniform_area" }

/-- The arguments of the `advance_experiments` call in the frame in which the
experiment `uniform_area` has reached its budget of 100000 samples. -/
def budget_reached_context : experiment_context :=
  experiment_context_of
    { scenario_app true false with
      experiment_list :=
        { experiments := [ensure_correct_uniform_area], experiment := some 0, count := 1,
          next := 0, next_setup_frame := 100000, state := .experiment_state_rendering },
      accum_num := 100000 }
    no_updates []

/-! ## The light buffer -/

/-- The value of `POLYGONAL_LIGHT_FIXED_CONSTANT_BUFFER_SIZE`: twelve floats. -/
def POLYGONAL_LIGHT_FIXED_CONSTANT_BUFFER_SIZE : Nat := 4 * 12

/-- The function `get_max_polygonal_light_vertex_count`: the maximal vertex
count of the lights, 3 if there are none. -/
def get_max_polygonal_light_vertex_count (scene : scene_content_t) : Nat :=
  (scene.polygonal_lights.take scene.polygonal_light_count).foldl
    (fun maximum light => if maximum < light.vertex_count then light.vertex_count else maximum) 3

/-- The local `polygonal_light_size` of `create_light_buffers`: the factor
`12 * max - 8` is computed in `uint32_t`, the size in `size_t`. -/
def polygonal_light_size (scene : scene_content_t) : Nat :=
  POLYGONAL_LIGHT_FIXED_CONSTANT_BUFFER_SIZE
    + 4 * (((12 * get_max_polygonal_light_vertex_count scene) % 4294967296
        + 4294967296 - 8) % 4294967296)

/-- The size of the buffer that `create_light_buffers` allocates and hands to
`write_lights`. -/
def light_buffer_size (scene : scene_content_t) : Nat :=
  let size := (scene.polygonal_light_count * polygonal_light_size scene) % 18446744073709551616
  if scene.polygonal_light_count = 0 then
    (size + polygonal_light_size scene) % 18446744073709551616
  else size

/-- The byte ranges (offset into `data`, length) that one iteration of the
loop of `write_lights` writes with its three `memcpy` calls, and the offset
for the next iteration. -/
def write_light (max_vertex_count offset : Nat) (light : polygonal_light_t) :
    List (Nat × Nat) × Nat :=
  -- Write fixed-size data
  let fixed := (offset, POLYGONAL_LIGHT_FIXED_CONSTANT_BUFFER_SIZE)
  let offset := (offset + POLYGONAL_LIGHT_FIXED_CONSTANT_BUFFER_SIZE) % 18446744073709551616
  -- Write vertex world space
  let vertices := (offset, 4 * 4 * light.vertex_count)
  let repeated :=
    if light.vertex_count < max_vertex_count then
      -- Repeat the first vertex
      [(offset + 4 * 4 * light.vertex_count, 4 * 4)]
    else []
  (fixed :: vertices :: repeated, (offset + 4 * 4 * max_vertex_count) % 18446744073709551616)

/-- The byte ranges that the loop of `write_lights` writes for the given
lights, from the given offset on. -/
def write_lights_from (max_vertex_count : Nat) : Nat → List polygonal_light_t → List (Nat × Nat)
  | _, [] => []
  | offset, light :: lights =>
    (write_light max_vertex_count offset light).1
      ++ write_lights_from max_vertex_count (write_light max_vertex_count offset light).2 lights

/-- The byte ranges of `data` that `write_lights` writes. -/
def write_lights (scene : scene_content_t) : List (Nat × Nat) :=
  write_lights_from (get_max_polygonal_light_vertex_count scene) 0
    (scene.polygonal_lights.take scene.polygonal_light_count)

/-- A scene with a single light of 357913942 vertices; of the light only the
vertex count is set. -/
def huge_light_scene : scene_content_t :=
  scene_with_lights [{ unread_light with vertex_count := 357913942 }]

/-! ## Propagation: auxiliary lemmas -/

theorem propagate_round_idem (f : resource_flags) :
    propagate_round (propagate_round f) = propagate_round f := by
  rcases f with ⟨a, b, c, d, e, g, h, i, j, k, l, m, n, o⟩
  simp only [propagate_round, resource_flags.mk.injEq]
  refine ⟨?_, ?_, ?_, ?_, ?_, ?_, ?_, ?_, ?_, ?_, ?_, ?_, ?_, ?_⟩ <;>
    simp [Bool.or_assoc, Bool.or_comm, Bool.or_left_comm]

theorem propagate_succ_round (n : Nat) (f : resource_flags) :
    propagate (n + 1) f = propagate_round f := by
  induction n generalizing f with
  | zero => rfl
  | succ n ih =>
    show propagate (n + 1) (propagate_round f) = propagate_round f
    rw [ih, propagate_round_idem]

theorem propagate_cap_eq_round (f : resource_flags) :
    propagate max_dependency_path_length f = propagate_round f :=
  propagate_succ_round 15 f

theorem run_statements_eq_round (f : resource_flags) :
    propagation_statements.foldl run_statement f = propagate_round f := by
  rcases f with ⟨a, b, c, d, e, g, h, i, j, k, l, m, n, o⟩
  simp [propagation_statements, run_statement, resource_flags.set, resource_flags.get,
    propagate_round, Bool.or_assoc]

theorem dependency_depth_le (r : Resource) : dependency_depth 14 r ≤ 3 := by
  cases r <;> decide

theorem dependency_depth_lt_of_requires (a b : Resource) (h : requires a b = true)
    (hne : b ≠ a) : dependency_depth 14 b < dependency_depth 14 a := by
  cases a <;> cases b <;> first
    | exact absurd rfl hne
    | exact absurd h (by decide)
    | decide

theorem dependency_chain_bound (p : List Resource) :
    ∀ r : Resource, (r :: p).Nodup → is_dependency_chain (r :: p) = true →
      dependency_depth 14 r + p.length ≤ 3 := by
  induction p with
  | nil => intro r _ _; simpa using dependency_depth_le r
  | cons a rest ih =>
    intro r hnd hch
    have hra : r ≠ a := by
      intro h
      rw [h] at hnd
      exact (List.nodup_cons.mp hnd).1 (List.mem_cons_self a rest)
    have hch2 : requires a r = true ∧ is_dependency_chain (a :: rest) = true := by
      simpa [is_dependency_chain] using hch
    have hlt := dependency_depth_lt_of_requires a r hch2.1 hra
    have := ih a (List.nodup_cons.mp hnd).2 hch2.2
    simp only [List.length_cons]
    omega

/-! ## The propagation loop -/

/-- C1: for every update request, one more round of the propagation body applied
to the flags that the loop of `update_application` leaves after its 16 rounds
changes no flag. -/
theorem propagation_closure_is_fixed_point (update : application_updates_t) :
    propagate_round (propagate max_dependency_path_length (seed_flags update))
      = propagate max_dependency_path_length (seed_flags update) := by
  rw [propagate_cap_eq_round, propagate_round_idem]

/-- C2: the static edge set is the one the loop body executes; its longest
dependency path has `longest_dependency_path = 3` edges (no path without a
repeated resource has more, and one has exactly that many), which is below the
cap of 16; and for some `k` with `longest_dependency_path ≤ k < 16` the flags
after `k` rounds already equal the flags after the 16 rounds, for every
request. -/
theorem propagation_converges_below_cap :
    (∀ f : resource_flags, propagation_statements.foldl run_statement f = propagate_round f)
    ∧ longest_dependency_path < max_dependency_path_length
    ∧ (∀ p : List Resource, p.Nodup → is_dependency_chain p = true →
        p.length ≤ longest_dependency_path + 1)
    ∧ (∃ p : List Resource, p.Nodup ∧ is_dependency_chain p = true
        ∧ p.length = longest_dependency_path + 1)
    ∧ (∃ k : Nat, k < max_dependency_path_length ∧ longest_dependency_path ≤ k
        ∧ ∀ update : application_updates_t,
          propagate k (seed_flags update)
            = propagate max_dependency_path_length (seed_flags update)) := by
  have hlong : longest_dependency_path = 3 := by decide
  refine ⟨run_statements_eq_round, by decide, ?_, ?_, ?_⟩
  · intro p hnd hch
    rw [hlong]
    cases p with
    | nil => simp
    | cons r rest =>
      have := dependency_chain_bound rest r hnd hch
      simp only [List.length_cons]
      omega
  · exact ⟨[.swapchain, .render_targets, .geometry_pass, .shading_pass],
      by decide, by decide, by decide⟩
  · refine ⟨3, by decide, by decide, fun update => ?_⟩
    rw [propagate_cap_eq_round, propagate_succ_round]

/-! ## The orchestrator: auxiliary lemmas -/

theorem rebuild_events (f : resource_flags) (cr : Resource → Nat) (l : List Resource) :
    ∀ e ∈ (rebuild f cr l).2, ∃ r, e = Event.create r (cr r) ∧ f.get r = true := by
  induction l with
  | nil => intro e he; simp [rebuild] at he
  | cons r rest ih =>
    intro e he
    unfold rebuild at he
    by_cases hf : f.get r = true
    · by_cases hc : cr r = 0
      · simp only [hf, hc, if_true, ne_eq, not_true_eq_false, if_false,
          List.mem_cons] at he
        rcases he with he | he
        · exact ⟨r, by rw [he, hc], hf⟩
        · exact ih e he
      · simp only [hf, if_true, ne_eq, hc, not_false_eq_true, List.mem_singleton] at he
        exact ⟨r, he, hf⟩
    · simp only [hf, Bool.false_eq_true, if_false] at he
      exact ih e he

theorem rebuild_ok (f : resource_flags) (cr : Resource → Nat) (l : List Resource)
    (h : (rebuild f cr l).1 = false) :
    (rebuild f cr l).2 = (l.filter f.get).map (fun r => Event.create r 0) := by
  induction l with
  | nil => simp [rebuild]
  | cons r rest ih =>
    unfold rebuild at h ⊢
    by_cases hf : f.get r = true
    · by_cases hc : cr r = 0
      · simp only [hf, hc, if_true, ne_eq, not_true_eq_false, if_false] at h ⊢
        simp [List.filter_cons, hf, ih h]
      · simp [hf, hc] at h
    · simp only [hf, Bool.false_eq_true, if_false] at h ⊢
      simp [List.filter_cons, hf, ih h]

theorem rebuild_failed_last (f : resource_flags) (cr : Resource → Nat) (l : List Resource)
    (r : Resource) (n : Nat) (hn : n ≠ 0) (he : Event.create r n ∈ (rebuild f cr l).2) :
    (rebuild f cr l).1 = true ∧ ∃ pre, (rebuild f cr l).2 = pre ++ [Event.create r n] := by
  induction l with
  | nil => simp [rebuild] at he
  | cons a rest ih =>
    unfold rebuild at he ⊢
    by_cases hf : f.get a = true
    · by_cases hc : cr a = 0
      · simp only [hf, hc, if_true, ne_eq, not_true_eq_false, if_false,
          List.mem_cons] at he ⊢
        rcases he with he | he
        · injection he with _ h2
          exact absurd h2 hn
        · obtain ⟨h1, pre, h2⟩ := ih he
          exact ⟨h1, Event.create a 0 :: pre, by rw [h2]; rfl⟩
      · simp only [hf, if_true, ne_eq, hc, not_false_eq_true, List.mem_singleton] at he ⊢
        exact ⟨trivial, [], by rw [he]; rfl⟩
    · simp only [hf, Bool.false_eq_true, if_false] at he ⊢
      exact ih he

theorem any_flag_eq (u : application_updates_t) :
    ((propagate max_dependency_path_length (seed_flags u)).swapchain
      || rebuild_order.any (propagate max_dependency_path_length (seed_flags u)).get)
    = (u.startup || u.recreate_swapchain || u.reload_shaders || u.update_light_count
        || u.update_light_textures || u.reload_scene || u.change_shading) := by
  rw [propagate_cap_eq_round]
  rcases u with ⟨a, w, h, b, c, d, e, f, g, qs, ql⟩
  simp only [seed_flags, propagate_round, rebuild_order, List.any, resource_flags.get]
  cases a <;> cases b <;> cases c <;> cases d <;> cases e <;> cases f <;> cases g <;> rfl

theorem rebuilt_any_append (a b : List Event) :
    rebuilt_any (a ++ b) = (rebuilt_any a || rebuilt_any b) := by
  simp [rebuilt_any, List.any_append]

theorem touches_resource_append (a b : List Event) :
    touches_resource (a ++ b) = (touches_resource a || touches_resource b) := by
  simp [touches_resource, List.any_append]

theorem rebuilt_any_wait_idle (l : List Event) :
    rebuilt_any (Event.wait_idle :: l) = rebuilt_any l := by
  simp [rebuilt_any]

theorem touches_resource_wait_idle (l : List Event) :
    touches_resource (Event.wait_idle :: l) = touches_resource l := by
  simp [touches_resource]

theorem rebuilt_any_teardown (f : resource_flags) : rebuilt_any (teardown f) = false := by
  simp only [rebuilt_any, teardown, List.any_eq_false]
  intro e he
  obtain ⟨r, _, hr⟩ := List.mem_map.mp he
  subst hr
  simp

theorem create_not_mem_teardown (f : resource_flags) (r : Resource) (n : Nat) :
    Event.create r n ∉ teardown f := by
  simp [teardown]

theorem rebuilt_any_prologue (app : application_t) (u : application_updates_t) :
    rebuilt_any (update_prologue app u) = false := by
  unfold update_prologue
  split_ifs <;> simp [rebuilt_any]

theorem touches_resource_prologue (app : application_t) (u : application_updates_t) :
    touches_resource (update_prologue app u) = false := by
  unfold update_prologue
  split_ifs <;> simp [touches_resource]

theorem quick_load_not_mem_prologue (app : application_t) (u : application_updates_t) :
    Event.quick_load ∉ update_prologue app u := by
  unfold update_prologue
  split_ifs <;> simp

theorem create_not_mem_prologue (app : application_t) (u : application_updates_t)
    (r : Resource) (n : Nat) : Event.create r n ∉ update_prologue app u := by
  unfold update_prologue
  split_ifs <;> simp

theorem rebuilt_any_created (f : resource_flags) (l : List Resource) :
    rebuilt_any ((l.filter f.get).map (fun r => Event.create r 0)) = l.any f.get := by
  induction l with
  | nil => simp [rebuilt_any]
  | cons r rest ih =>
    by_cases hf : f.get r = true
    · simp [rebuilt_any, List.filter_cons, hf]
    · simp only [rebuilt_any] at ih
      simp [rebuilt_any, List.filter_cons, hf, ih]

theorem no_flag_teardown (f : resource_flags)
    (h : (f.swapchain || rebuild_order.any f.get) = false) :
    f.swapchain = false ∧ teardown f = []
      ∧ (rebuild_order.filter f.get).map (fun r => Event.create r 0) = [] := by
  rcases f with ⟨a, b, c, d, e, g, h', i, j, k, l, m, n, o⟩
  simp only [rebuild_order, List.any, resource_flags.get, Bool.or_false,
    Bool.or_eq_false_iff] at h
  obtain ⟨h1, h2, h3, h4, h5, h6, h7, h8, h9, h10, h11, h12, h13, h14⟩ := h
  subst h1 h2 h3 h4 h5 h6 h7 h8 h9 h10 h11 h12 h13 h14
  exact ⟨rfl, rfl, rfl⟩

/-- The two ways in which the second half of `update_application` returns 0. -/
theorem rebuild_flagged_success (app : application_t) (f : resource_flags) (reset : Bool)
    (o : update_outcomes) (tr : List Event)
    (h : (rebuild_flagged app f reset o tr).ret = 0) :
    ((rebuild_flagged app f reset o tr).reported = false
      ∧ (rebuild_flagged app f reset o tr).reset_accum = reset
      ∧ f.swapchain = true
      ∧ (rebuild_flagged app f reset o tr).trace
          = (tr ++ Event.wait_idle :: teardown f) ++ [Event.resize_swapchain 2])
    ∨ ((rebuild_flagged app f reset o tr).reported = true
      ∧ (rebuild_flagged app f reset o tr).reset_accum = true
      ∧ (rebuild_flagged app f reset o tr).trace
          = ((tr ++ Event.wait_idle :: teardown f)
              ++ (if f.swapchain then [Event.resize_swapchain 0] else []))
            ++ (rebuild_order.filter f.get).map (fun r => Event.create r 0)) := by
  unfold rebuild_flagged at h ⊢
  by_cases hs : f.swapchain = true
  · by_cases h2 : o.swapchain_result = 2
    · left
      simp [hs, h2]
    · by_cases h0 : o.swapchain_result = 0
      · right
        simp only [hs, h2, if_true, if_false] at h ⊢
        simp only [h0, if_false, ne_eq, not_true_eq_false] at h ⊢
        unfold rebuild_everything_else at h ⊢
        by_cases hr : (rebuild f o.create_result rebuild_order).1 = true
        · simp [hr] at h
        · simp only [hr, Bool.false_eq_true, if_false] at h ⊢
          rw [rebuild_ok f o.create_result rebuild_order (by simpa using hr)]
          exact ⟨trivial, trivial, rfl⟩
      · simp [hs, h2, h0] at h
  · right
    simp only [hs, Bool.false_eq_true, if_false] at h ⊢
    unfold rebuild_everything_else at h ⊢
    by_cases hr : (rebuild f o.create_result rebuild_order).1 = true
    · simp [hr] at h
    · simp only [hr, Bool.false_eq_true, if_false] at h ⊢
      rw [rebuild_ok f o.create_result rebuild_order (by simpa using hr)]
      simp

/-- A failed create call ends the second half of `update_application`. -/
theorem rebuild_flagged_failure (app : application_t) (f : resource_flags) (reset : Bool)
    (o : update_outcomes) (tr : List Event) (r : Resource) (n : Nat) (hn : n ≠ 0)
    (htr : Event.create r n ∉ tr)
    (h : Event.create r n ∈ (rebuild_flagged app f reset o tr).trace) :
    (rebuild_flagged app f reset o tr).ret = 1
      ∧ (rebuild_flagged app f reset o tr).reported = false
      ∧ (rebuild_flagged app f reset o tr).reset_accum = reset
      ∧ ∃ pre, (rebuild_flagged app f reset o tr).trace = pre ++ [Event.create r n] := by
  have key : ∀ (app' : application_t) (tr' : List Event), Event.create r n ∉ tr' →
      Event.create r n ∈ (rebuild_everything_else app' f reset o tr').trace →
      (rebuild_everything_else app' f reset o tr').ret = 1
        ∧ (rebuild_everything_else app' f reset o tr').reported = false
        ∧ (rebuild_everything_else app' f reset o tr').reset_accum = reset
        ∧ ∃ pre, (rebuild_everything_else app' f reset o tr').trace
            = pre ++ [Event.create r n] := by
    intro app' tr' htr' h'
    unfold rebuild_everything_else at h' ⊢
    have hmem : Event.create r n ∈ (rebuild f o.create_result rebuild_order).2 := by
      by_cases hr : (rebuild f o.create_result rebuild_order).1 = true
      · simp only [hr, if_true, List.mem_append] at h'
        exact h'.resolve_left htr'
      · simp only [hr, Bool.false_eq_true, if_false, List.mem_append] at h'
        exact h'.resolve_left htr'
    obtain ⟨h1, pre, h2⟩ := rebuild_failed_last f o.create_result rebuild_order r n hn hmem
    simp only [h1, if_true]
    exact ⟨trivial, trivial, trivial, tr' ++ pre, by rw [h2, List.append_assoc]⟩
  have hnot : Event.create r n ∉ tr ++ Event.wait_idle :: teardown f := by
    simp [htr, create_not_mem_teardown]
  unfold rebuild_flagged at h ⊢
  by_cases hs : f.swapchain = true
  · by_cases h2 : o.swapchain_result = 2
    · simp [hs, h2, htr, create_not_mem_teardown] at h
    · by_cases h0 : o.swapchain_result = 0
      · simp only [hs, h2, if_true, if_false] at h ⊢
        simp only [h0, if_false, ne_eq, not_true_eq_false] at h ⊢
        exact key _ _ (by simp [htr, create_not_mem_teardown]) h
      · simp [hs, h2, h0, htr, create_not_mem_teardown] at h
  · simp only [hs, Bool.false_eq_true, if_false] at h ⊢
    exact key _ _ hnot h

/-! ## The orchestrator `update_application` -/

/-- C3, as stated, fails: for a request that only asks for a quick load, with a
quick save file that leaves the lights as they are, the call succeeds and sets
`*reset_accum` although no resource is rebuilt. -/
theorem quick_load_resets_without_rebuild :
    (update_application sample_app quick_load_request false sample_update_outcomes).ret = 0
    ∧ ¬ ((update_application sample_app quick_load_request false
            sample_update_outcomes).reset_accum = true
        ↔ rebuilt_any (update_application sample_app quick_load_request false
            sample_update_outcomes).trace = true) := by
  decide

/-- C3, amended: `*reset_accum` after the call is its value before the call or
the assignment `*reset_accum = 1`, and a successful call executes that
assignment if and only if it rebuilt at least one resource or it performed a
quick load and neither destroyed nor created any resource. -/
theorem reset_accum_iff_rebuilt_or_quick_load (app : application_t)
    (update : application_updates_t) (reset : Bool) (o : update_outcomes)
    (h : (update_application app update reset o).ret = 0) :
    (update_application app update reset o).reset_accum
        = (reset || (update_application app update reset o).reported)
    ∧ ((update_application app update reset o).reported = true
        ↔ (rebuilt_any (update_application app update reset o).trace = true
          ∨ (Event.quick_load ∈ (update_application app update reset o).trace
            ∧ touches_resource (update_application app update reset o).trace = false))) := by
  unfold update_application at h ⊢
  simp only [] at h ⊢
  by_cases hn : nothing_to_update (resized_update app update) = true
  · simp only [hn, if_true, Bool.or_false, true_and]
    simp [rebuilt_any_prologue, quick_load_not_mem_prologue]
  · simp only [hn, Bool.false_eq_true, if_false] at h ⊢
    generalize hu : resized_update app update = u at h hn ⊢
    have htr1 : rebuilt_any (if u.quick_load = true
        then update_prologue app update ++ [Event.quick_load]
        else update_prologue app update) = false := by
      split_ifs
      · rw [rebuilt_any_append, rebuilt_any_prologue]; rfl
      · exact rebuilt_any_prologue app update
    have htr2 : touches_resource (if u.quick_load = true
        then update_prologue app update ++ [Event.quick_load]
        else update_prologue app update) = false := by
      split_ifs
      · rw [touches_resource_append, touches_resource_prologue]; rfl
      · exact touches_resource_prologue app update
    have htr3 : u.quick_load = true → Event.quick_load ∈ (if u.quick_load = true
        then update_prologue app update ++ [Event.quick_load]
        else update_prologue app update) := by
      intro hq; simp [hq]
    generalize (if u.quick_load = true then update_prologue app update ++ [Event.quick_load]
        else update_prologue app update) = tr at h htr1 htr2 htr3 ⊢
    have hflag := any_flag_eq (if u.quick_load = true then quick_load_updates u o else u)
    have hq : (propagate max_dependency_path_length (seed_flags
          (if u.quick_load = true then quick_load_updates u o else u))).swapchain = false
        ∧ rebuild_order.any (propagate max_dependency_path_length (seed_flags
          (if u.quick_load = true then quick_load_updates u o else u))).get = false
        → u.quick_load = true := by
      intro hno
      rw [hno.1, hno.2] at hflag
      by_cases hql : u.quick_load = true
      · exact hql
      · exfalso
        simp only [hql, Bool.false_eq_true, if_false] at hflag
        apply hn
        simp only [Bool.not_eq_true] at hql
        simp only [nothing_to_update, hql]
        revert hflag
        cases u.startup <;> cases u.recreate_swapchain <;> cases u.reload_shaders
          <;> cases u.update_light_count <;> cases u.update_light_textures
          <;> cases u.reload_scene <;> cases u.change_shading <;> simp
    generalize propagate max_dependency_path_length (seed_flags
      (if u.quick_load = true then quick_load_updates u o else u)) = f at h hq ⊢
    rcases rebuild_flagged_success app f reset o tr h with ⟨h1, h2, h3, h4⟩ | ⟨h1, h2, h4⟩
    · have hA : rebuilt_any ((tr ++ Event.wait_idle :: teardown f)
          ++ [Event.resize_swapchain 2]) = false := by
        rw [rebuilt_any_append, rebuilt_any_append, htr1, rebuilt_any_wait_idle,
          rebuilt_any_teardown]
        rfl
      have hB : touches_resource ((tr ++ Event.wait_idle :: teardown f)
          ++ [Event.resize_swapchain 2]) = true := by
        rw [touches_resource_append]
        simp [touches_resource]
      rw [h1, h2, h4, hA, hB]
      simp
    · rw [h1, h2, h4]
      simp only [Bool.or_true, true_and, true_iff]
      by_cases hany : (f.swapchain || rebuild_order.any f.get) = true
      · left
        simp only [rebuilt_any_append, rebuilt_any_created]
        rcases Bool.or_eq_true_iff.mp hany with hs | hr
        · simp [hs, rebuilt_any]
        · simp [hr]
      · right
        have hany' : (f.swapchain || rebuild_order.any f.get) = false := by simpa using hany
        obtain ⟨hs, ht, hc⟩ := no_flag_teardown f hany'
        have hr : rebuild_order.any f.get = false := by
          rw [hs] at hany'
          simpa using hany'
        rw [hs, ht, hc]
        refine ⟨?_, ?_⟩
        · simp [htr3 (hq ⟨hs, hr⟩)]
        · simp only [Bool.false_eq_true, if_false, List.append_nil]
          rw [touches_resource_append, htr2]
          rfl

/-- Witness for C3: a shader reload succeeds, so the amended statement holds
for it with its hypothesis discharged. -/
theorem reset_accum_iff_rebuilt_or_quick_load_witness :
    (update_application sample_app reload_shaders_request false sample_update_outcomes).ret = 0
    ∧ ((update_application sample_app reload_shaders_request false
          sample_update_outcomes).reset_accum
        = (false || (update_application sample_app reload_shaders_request false
            sample_update_outcomes).reported)
      ∧ ((update_application sample_app reload_shaders_request false
            sample_update_outcomes).reported = true
        ↔ (rebuilt_any (update_application sample_app reload_shaders_request false
              sample_update_outcomes).trace = true
          ∨ (Event.quick_load ∈ (update_application sample_app reload_shaders_request false
                sample_update_outcomes).trace
            ∧ touches_resource (update_application sample_app reload_shaders_request false
                sample_update_outcomes).trace = false)))) :=
  ⟨by decide, reset_accum_iff_rebuilt_or_quick_load sample_app reload_shaders_request false
    sample_update_outcomes (by decide)⟩

/-- C4: a request with all flags false and zero width and height returns 0,
leaves the application and `*reset_accum` as they are, and calls nothing: no
quick save, no quick load, no destroy and no create function. -/
theorem all_false_request_does_nothing (app : application_t) (reset : Bool)
    (o : update_outcomes) :
    (update_application app no_updates reset o).ret = 0
    ∧ (update_application app no_updates reset o).app = app
    ∧ (update_application app no_updates reset o).reset_accum = reset
    ∧ (update_application app no_updates reset o).reported = false
    ∧ (update_application app no_updates reset o).trace = [] := by
  have hr : resize_requested app no_updates = false := by
    simp [resize_requested, requested_size, no_updates]
  have hu : resized_update app no_updates = no_updates := by
    simp only [resized_update, hr, Bool.false_eq_true, if_false]
  have hp : update_prologue app no_updates = [] := by
    simp only [update_prologue, hr, Bool.false_eq_true, if_false]
    rfl
  have hn : nothing_to_update no_updates = true := rfl
  unfold update_application
  simp only [hu, hp, hn, if_true, and_self]

theorem handle_frame_input_update_failed (app : application_t) (i : frame_inputs)
    (u : update_result) (hu : (handle_frame_input app i).update = some u)
    (hret : u.ret ≠ 0) : (handle_frame_input app i).ret = 1 := by
  unfold handle_frame_input at hu ⊢
  simp only [] at hu ⊢
  split_ifs at hu ⊢ with h1 h2 h3 h4
  all_goals first
    | rfl
    | (exfalso
       simp only [Option.some.injEq] at hu
       simp only [ne_eq, Decidable.not_not] at h3
       rw [← hu] at hret
       exact hret h3)

/-- C5: when a create call of the rebuild chain returns non-zero, the call of
`update_application` returns 1, does not set `*reset_accum`, and the failed
call is the last thing it does, so that no later rebuild step is attempted; and
whenever the `update_application` call of `handle_frame_input` returns
non-zero, `handle_frame_input` returns 1, which ends the main loop. -/
theorem failed_rebuild_step_aborts (app : application_t) (update : application_updates_t)
    (reset : Bool) (o : update_outcomes) (r : Resource) (n : Nat) (hn : n ≠ 0)
    (h : Event.create r n ∈ (update_application app update reset o).trace) :
    (update_application app update reset o).ret = 1
    ∧ (update_application app update reset o).reported = false
    ∧ (update_application app update reset o).reset_accum = reset
    ∧ (∃ pre, (update_application app update reset o).trace = pre ++ [Event.create r n])
    ∧ (∀ (app' : application_t) (i : frame_inputs) (u : update_result),
        (handle_frame_input app' i).update = some u → u.ret ≠ 0 →
          (handle_frame_input app' i).ret = 1) := by
  refine ⟨?_, ?_⟩
  swap
  · refine ⟨?_, ?_, ?_, ?_⟩
    rotate_left 3
    · exact handle_frame_input_update_failed
    all_goals
      unfold update_application at h ⊢
      simp only [] at h ⊢
      by_cases hnu : nothing_to_update (resized_update app update) = true
      · simp only [hnu, if_true] at h
        exact absurd h (create_not_mem_prologue app update r n)
      · simp only [hnu, Bool.false_eq_true, if_false] at h ⊢
        have htr : Event.create r n ∉ (if (resized_update app update).quick_load = true
            then update_prologue app update ++ [Event.quick_load]
            else update_prologue app update) := by
          split_ifs <;> simp [create_not_mem_prologue]
        first
          | exact (rebuild_flagged_failure app _ reset o _ r n hn htr h).2.1
          | exact (rebuild_flagged_failure app _ reset o _ r n hn htr h).2.2.1
          | exact (rebuild_flagged_failure app _ reset o _ r n hn htr h).2.2.2
  · unfold update_application at h ⊢
    simp only [] at h ⊢
    by_cases hnu : nothing_to_update (resized_update app update) = true
    · simp only [hnu, if_true] at h
      exact absurd h (create_not_mem_prologue app update r n)
    · simp only [hnu, Bool.false_eq_true, if_false] at h ⊢
      have htr : Event.create r n ∉ (if (resized_update app update).quick_load = true
          then update_prologue app update ++ [Event.quick_load]
          else update_prologue app update) := by
        split_ifs <;> simp [create_not_mem_prologue]
      exact (rebuild_flagged_failure app _ reset o _ r n hn htr h).1

/-- Witness for C5: with a failing `create_geometry_pass`, a shader reload
attempts that call, so the theorem applies to it. -/
theorem failed_rebuild_step_aborts_witness :
    (1 ≠ 0 ∧ Event.create .geometry_pass 1
        ∈ (update_application sample_app reload_shaders_request false
            failing_update_outcomes).trace)
    ∧ ((update_application sample_app reload_shaders_request false
          failing_update_outcomes).ret = 1
      ∧ (update_application sample_app reload_shaders_request false
          failing_update_outcomes).reported = false
      ∧ (update_application sample_app reload_shaders_request false
          failing_update_outcomes).reset_accum = false
      ∧ (∃ pre, (update_application sample_app reload_shaders_request false
          failing_update_outcomes).trace = pre ++ [Event.create .geometry_pass 1])
      ∧ (∀ (app' : application_t) (i : frame_inputs) (u : update_result),
          (handle_frame_input app' i).update = some u → u.ret ≠ 0 →
            (handle_frame_input app' i).ret = 1)) :=
  ⟨⟨by decide, by decide⟩,
    failed_rebuild_step_aborts sample_app reload_shaders_request false failing_update_outcomes
      .geometry_pass 1 (by decide) (by decide)⟩

/-- C6, as stated, fails: the propagation loop encodes the edges "shading pass
requires interface pass" and "shading pass requires frame queue" (and the edge
from the shading pass to itself), yet the rebuild sequence creates the shading
pass before the interface pass and the frame queue, as the calls made for a
start-up request show. -/
theorem rebuild_order_violates_shading_edges :
    requires .shading_pass .interface_pass = true
    ∧ requires .shading_pass .frame_queue = true
    ∧ requires .shading_pass .shading_pass = true
    ∧ rebuild_sequence.indexOf .shading_pass < rebuild_sequence.indexOf .interface_pass
    ∧ rebuild_sequence.indexOf .shading_pass < rebuild_sequence.indexOf .frame_queue
    ∧ ¬ (∀ a b : Resource, requires a b = true →
          rebuild_sequence.indexOf b < rebuild_sequence.indexOf a)
    ∧ ((update_application sample_app { no_updates with startup := true } false
          sample_update_outcomes).trace.filter
            (fun e => decide (e = Event.create .shading_pass 0)
              || decide (e = Event.create .interface_pass 0)
              || decide (e = Event.create .frame_queue 0)))
        = [Event.create .shading_pass 0, Event.create .interface_pass 0,
            Event.create .frame_queue 0] := by
  refine ⟨by decide, by decide, by decide, by decide, by decide, ?_, by decide⟩
  intro h
  exact absurd (h .shading_pass .interface_pass (by decide)) (by decide)

/-- C6, amended: for every edge "A requires B" encoded in the propagation loop
other than the three edges from the shading pass to itself, to the interface
pass and to the frame queue, the create step of B comes before the create step
of A in the rebuild sequence. -/
theorem rebuild_order_respects_edges (a b : Resource) (h : requires a b = true)
    (hex : ¬ (a = .shading_pass
      ∧ (b = .shading_pass ∨ b = .interface_pass ∨ b = .frame_queue))) :
    rebuild_sequence.indexOf b < rebuild_sequence.indexOf a := by
  cases a <;> cases b <;> first
    | exact absurd h (by decide)
    | exact absurd (by decide) hex
    | decide

/-- Witness for C6: the edge "geometry pass requires constant buffers". -/
theorem rebuild_order_respects_edges_witness :
    requires .geometry_pass .constant_buffers = true
    ∧ ¬ (Resource.geometry_pass = .shading_pass
      ∧ (Resource.constant_buffers = .shading_pass
        ∨ Resource.constant_buffers = .interface_pass
        ∨ Resource.constant_buffers = .frame_queue))
    ∧ rebuild_sequence.indexOf .constant_buffers < rebuild_sequence.indexOf .geometry_pass :=
  ⟨by decide, by decide,
    rebuild_order_respects_edges .geometry_pass .constant_buffers (by decide) (by decide)⟩

/-! ## The per-frame functions -/

theorem submit_frame_preserves (app : application_t) (o : render_outcomes) :
    (submit_frame app o).2.1.accum_num = app.accum_num
    ∧ (submit_frame app o).2.1.screenshot = app.screenshot
    ∧ (submit_frame app o).2.1.render_settings = app.render_settings
    ∧ (submit_frame app o).2.1.swapchain = app.swapchain := by
  unfold submit_frame
  simp only []
  split_ifs <;> exact ⟨rfl, rfl, rfl, rfl⟩

theorem frame_bits_val_lt_two (b : frame_bits_t) :
    b.val < 2 ↔ b ≠ .frame_bits_hdr_high := by
  cases b <;> simp [frame_bits_t.val]

theorem present_frame_sample_count (app : application_t) (o : render_outcomes)
    (trace : List Event) :
    (present_frame app o trace).app.screenshot
        = (implement_screenshot app.screenshot
            (app.swapchain.extent_width, app.swapchain.extent_height) o.screenshot).screenshot
    ∧ (present_frame app o trace).app.accum_num
        = (if app.render_settings.accum = true
              ∧ (implement_screenshot app.screenshot
                  (app.swapchain.extent_width, app.swapchain.extent_height)
                  o.screenshot).screenshot.frame_bits ≠ .frame_bits_hdr_high
            then (app.accum_num + 1) % 4294967296 else app.accum_num) := by
  unfold present_frame
  simp only [frame_bits_val_lt_two]
  split_ifs <;> simp_all

/-- C7: a `render_frame` call that returns 0 leaves the sample count unchanged
when accumulation is disabled or when the capture byte is `frame_bits_hdr_high`
after the `implement_screenshot` call of the frame, and otherwise increases it
by 1 in `uint32_t` arithmetic, which is exactly 1 more below the largest
`uint32_t` value. -/
theorem render_frame_sample_count (app : application_t) (o : render_outcomes)
    (h : (render_frame app o).ret = 0) :
    (render_frame app o).app.screenshot
        = (implement_screenshot app.screenshot
            (app.swapchain.extent_width, app.swapchain.extent_height) o.screenshot).screenshot
    ∧ (app.render_settings.accum = false → (render_frame app o).app.accum_num = app.accum_num)
    ∧ ((render_frame app o).app.screenshot.frame_bits = .frame_bits_hdr_high →
        (render_frame app o).app.accum_num = app.accum_num)
    ∧ (app.render_settings.accum = true →
        (render_frame app o).app.screenshot.frame_bits ≠ .frame_bits_hdr_high →
        (render_frame app o).app.accum_num = (app.accum_num + 1) % 4294967296
        ∧ (app.accum_num + 1 < 4294967296 →
            (render_frame app o).app.accum_num = app.accum_num + 1)) := by
  obtain ⟨h1, h2, h3, h4⟩ := submit_frame_preserves app o
  unfold render_frame at h ⊢
  simp only [] at h ⊢
  by_cases hs : (submit_frame app o).1 = true
  · simp only [hs, if_true] at h ⊢
    obtain ⟨p1, p2⟩ := present_frame_sample_count (submit_frame app o).2.1 o
      (submit_frame app o).2.2
    simp only [h1, h2, h3, h4] at p1 p2
    rw [p1, p2]
    refine ⟨rfl, ?_, ?_, ?_⟩
    · intro ha
      simp [ha]
    · intro hb
      simp [hb]
    · intro ha hb
      simp only [ha, hb, ne_eq, not_false_eq_true, and_self, if_true, true_and]
      intro hlt
      exact Nat.mod_eq_of_lt hlt
  · simp [hs] at h

/-- Witness for C7: a frame of the sample application without any failure. -/
theorem render_frame_sample_count_witness :
    (render_frame sample_app sample_render_outcomes).ret = 0
    ∧ (render_frame sample_app sample_render_outcomes).app.accum_num = 6
    ∧ ((render_frame sample_app sample_render_outcomes).app.screenshot
        = (implement_screenshot sample_app.screenshot
            (sample_app.swapchain.extent_width, sample_app.swapchain.extent_height)
            sample_render_outcomes.screenshot).screenshot
      ∧ (sample_app.render_settings.accum = false →
          (render_frame sample_app sample_render_outcomes).app.accum_num = sample_app.accum_num)
      ∧ ((render_frame sample_app sample_render_outcomes).app.screenshot.frame_bits
            = .frame_bits_hdr_high →
          (render_frame sample_app sample_render_outcomes).app.accum_num = sample_app.accum_num)
      ∧ (sample_app.render_settings.accum = true →
          (render_frame sample_app sample_render_outcomes).app.screenshot.frame_bits
            ≠ .frame_bits_hdr_high →
          (render_frame sample_app sample_render_outcomes).app.accum_num
            = (sample_app.accum_num + 1) % 4294967296
          ∧ (sample_app.accum_num + 1 < 4294967296 →
              (render_frame sample_app sample_render_outcomes).app.accum_num
                = sample_app.accum_num + 1))) :=
  ⟨by decide, by decide,
    render_frame_sample_count sample_app sample_render_outcomes (by decide)⟩

theorem rebuild_flagged_fields (app : application_t) (f : resource_flags) (reset : Bool)
    (o : update_outcomes) (tr : List Event) :
    (rebuild_flagged app f reset o tr).reset_accum
        = (reset || (rebuild_flagged app f reset o tr).reported)
    ∧ (rebuild_flagged app f reset o tr).app.accum_num = app.accum_num := by
  unfold rebuild_flagged rebuild_everything_else
  simp only []
  split_ifs <;> simp

theorem update_application_fields (app : application_t) (update : application_updates_t)
    (reset : Bool) (o : update_outcomes) :
    (update_application app update reset o).reset_accum
        = (reset || (update_application app update reset o).reported)
    ∧ (update_application app update reset o).app.accum_num = app.accum_num := by
  unfold update_application
  simp only []
  split_ifs
  · simp
  all_goals exact rebuild_flagged_fields _ _ _ _ _

theorem apply_keys_fields (app : application_t) (updates : application_updates_t)
    (i : frame_inputs) :
    (apply_keys app updates i).1.accum_num = app.accum_num
    ∧ (apply_keys app updates i).1.experiment_list = app.experiment_list := by
  unfold apply_keys
  simp only []
  split_ifs <;> exact ⟨rfl, rfl⟩

theorem cleanup_experiment_accum_num (c : experiment_context) (b : Bool) :
    (cleanup_experiment c b).2.accum_num = c.accum_num := by
  unfold cleanup_experiment
  simp only []
  split_ifs <;> rfl

theorem request_experiment_screenshot_accum_num (c : experiment_context) :
    (request_experiment_screenshot c).accum_num = c.accum_num := by
  unfold request_experiment_screenshot
  cases c.list.experiment with
  | none => rfl
  | some index =>
    simp only []
    split_ifs <;> rfl

theorem advance_running_experiment_accum_num (c : experiment_context) :
    (advance_running_experiment c).accum_num = c.accum_num := by
  unfold advance_running_experiment
  simp only []
  split_ifs <;>
    simp [cleanup_experiment_accum_num, request_experiment_screenshot_accum_num]

theorem advance_experiments_accum_num (c : experiment_context) (t : Bool) :
    (advance_experiments c t).2.accum_num
      = if starts_experiment c.list = true then 0 else c.accum_num := by
  unfold advance_experiments starts_experiment
  by_cases hgt : c.list.next > c.list.count
  · have hle : ¬ c.list.next ≤ c.list.count := by omega
    simp only [hgt, if_true, hle, decide_False, Bool.false_and, Bool.false_eq_true, if_false]
    split_ifs <;> rfl
  · have hle : c.list.next ≤ c.list.count := by omega
    simp only [hgt, if_false, hle, decide_True, Bool.true_and, decide_eq_true_eq,
      advance_running_experiment_accum_num]
    split_ifs
    · rfl
    · rfl

/-- C8, as stated, fails: in a frame in which only the camera moves,
`update_application` reports no change (it returns early and does not set
`*reset_accum`), yet `handle_frame_input` resets the sample count from 5 to
0. -/
theorem camera_motion_resets_sample_count :
    sample_app.accum_num = 5
    ∧ (handle_frame_input sample_app camera_frame_inputs).ret = 0
    ∧ (handle_frame_input sample_app camera_frame_inputs).update.map (fun u => u.reported)
        = some false
    ∧ (handle_frame_input sample_app camera_frame_inputs).update.map (fun u => u.reset_accum)
        = some false
    ∧ (handle_frame_input sample_app camera_frame_inputs).app.accum_num = 0 := by
  decide

/-- C8, amended: a `handle_frame_input` call that returns 0 has called
`update_application`, which returned 0. The sample count is 0 afterwards if
`*reset_accum` is set after that call, which is the case exactly if the user
interface had set it or `update_application` reported a change, or if
`control_camera` sets it. Otherwise the sample count is 0 in a frame in which
`advance_experiments` sets up a new experiment, and is left as it was in every
other frame. -/
theorem sample_count_after_frame_input (app : application_t) (i : frame_inputs)
    (h : (handle_frame_input app i).ret = 0) :
    ∃ u : update_result, (handle_frame_input app i).update = some u ∧ u.ret = 0
      ∧ u.reset_accum = (i.interface.reset_accum || u.reported)
      ∧ ((u.reset_accum = true ∨ i.camera_moved = true) →
          (handle_frame_input app i).app.accum_num = 0)
      ∧ (u.reset_accum = false → i.camera_moved = false →
          (handle_frame_input app i).app.accum_num
            = if starts_experiment app.experiment_list = true then 0 else app.accum_num) := by
  unfold handle_frame_input at h ⊢
  simp only [] at h ⊢
  by_cases hesc : i.key_escape = true
  · simp [hesc] at h
  simp only [hesc, Bool.false_eq_true, if_false] at h ⊢
  obtain ⟨k1, k2⟩ := apply_keys_fields (apply_interface app i.interface)
    (interface_updates i.interface) i
  generalize apply_keys (apply_interface app i.interface) (interface_updates i.interface) i
    = keyed at h k1 k2 ⊢
  have ha := advance_experiments_accum_num
    (experiment_context_of keyed.1 keyed.2.1 keyed.2.2) i.timings_opens
  have hl : (experiment_context_of keyed.1 keyed.2.1 keyed.2.2).list = app.experiment_list := by
    simp only [experiment_context_of, k2, apply_interface]
  have hn : (experiment_context_of keyed.1 keyed.2.1 keyed.2.2).accum_num = app.accum_num := by
    simp only [experiment_context_of, k1, apply_interface]
  rw [hl, hn] at ha
  generalize advance_experiments (experiment_context_of keyed.1 keyed.2.1 keyed.2.2)
    i.timings_opens = advanced at h ha ⊢
  by_cases hdone : advanced.1 ≠ 0 ∧ (apply_experiment_context keyed.1 advanced.2).run_all_exp = true
  · simp [hdone] at h
  simp only [hdone, if_false] at h ⊢
  obtain ⟨u1, u2⟩ := update_application_fields (apply_experiment_context keyed.1 advanced.2)
    advanced.2.updates i.interface.reset_accum i.update
  have hc : (apply_experiment_context keyed.1 advanced.2).accum_num = advanced.2.accum_num := rfl
  rw [hc, ha] at u2
  generalize update_application (apply_experiment_context keyed.1 advanced.2)
    advanced.2.updates i.interface.reset_accum i.update = updated at h u1 u2 ⊢
  by_cases hret : updated.ret ≠ 0
  · simp [hret] at h
  simp only [hret, if_false] at h ⊢
  refine ⟨updated, rfl, by simpa using hret, u1, ?_, ?_⟩
  · intro hor
    have : (updated.reset_accum || i.camera_moved) = true := by
      rcases hor with h1 | h1 <;> simp [h1]
    simp [this]
  · intro h1 h2
    simp [h1, h2, u2]

/-- Witness for C8: the first frame of an automated run sets up an experiment
and returns 0. -/
theorem sample_count_after_frame_input_witness :
    (handle_frame_input sample_experiment_app idle_frame_inputs).ret = 0
    ∧ starts_experiment sample_experiment_app.experiment_list = true
    ∧ ∃ u : update_result,
        (handle_frame_input sample_experiment_app idle_frame_inputs).update = some u
        ∧ u.ret = 0
        ∧ u.reset_accum = (idle_frame_inputs.interface.reset_accum || u.reported)
        ∧ ((u.reset_accum = true ∨ idle_frame_inputs.camera_moved = true) →
            (handle_frame_input sample_experiment_app idle_frame_inputs).app.accum_num = 0)
        ∧ (u.reset_accum = false → idle_frame_inputs.camera_moved = false →
            (handle_frame_input sample_experiment_app idle_frame_inputs).app.accum_num
              = if starts_experiment sample_experiment_app.experiment_list = true then 0
                else sample_experiment_app.accum_num) :=
  ⟨by decide, by decide,
    sample_count_after_frame_input sample_experiment_app idle_frame_inputs (by decide)⟩

/-! ## Screenshot capture -/

/-- C9: `take_screenshot` returns the screenshot object unchanged, in every
field, when a capture is pending or when an HDR path comes together with a PNG
or JPG path. In every other case it stores exactly the three requested paths,
leaves the buffers alone, sets the capture byte to `frame_bits_hdr_low` when an
HDR path is requested and leaves it alone otherwise; so from a capture byte
other than `frame_bits_hdr_low` the byte is `frame_bits_hdr_low` afterwards if
and only if an HDR path is requested. -/
theorem take_screenshot_contract (screenshot : screenshot_t)
    (path_png path_jpg path_hdr : Option String) :
    ((capture_pending screenshot = true
        ∨ (path_hdr.isSome = true ∧ (path_png.isSome = true ∨ path_jpg.isSome = true))) →
      take_screenshot screenshot path_png path_jpg path_hdr = screenshot)
    ∧ (¬ (capture_pending screenshot = true
        ∨ (path_hdr.isSome = true ∧ (path_png.isSome = true ∨ path_jpg.isSome = true))) →
      (take_screenshot screenshot path_png path_jpg path_hdr).path_png = path_png
      ∧ (take_screenshot screenshot path_png path_jpg path_hdr).path_jpg = path_jpg
      ∧ (take_screenshot screenshot path_png path_jpg path_hdr).path_hdr = path_hdr
      ∧ (take_screenshot screenshot path_png path_jpg path_hdr).staging = screenshot.staging
      ∧ (take_screenshot screenshot path_png path_jpg path_hdr).ldr_copy = screenshot.ldr_copy
      ∧ (take_screenshot screenshot path_png path_jpg path_hdr).hdr_copy = screenshot.hdr_copy
      ∧ (path_hdr.isSome = true →
          (take_screenshot screenshot path_png path_jpg path_hdr).frame_bits
            = .frame_bits_hdr_low)
      ∧ (path_hdr.isSome = false →
          (take_screenshot screenshot path_png path_jpg path_hdr).frame_bits
            = screenshot.frame_bits)
      ∧ (screenshot.frame_bits ≠ .frame_bits_hdr_low →
          ((take_screenshot screenshot path_png path_jpg path_hdr).frame_bits
              = .frame_bits_hdr_low ↔ path_hdr.isSome = true))) := by
  rcases screenshot with ⟨sp, sj, sh, fb, st, lc, hc⟩
  cases sp <;> cases sj <;> cases sh <;> cases path_png <;> cases path_jpg <;> cases path_hdr
    <;> simp [take_screenshot, capture_pending]

theorem stage_screenshot_fields (s s' : screenshot_t) (extent : Nat × Nat)
    (o : screenshot_outcomes) (h : stage_screenshot s extent o = some s') :
    s'.path_png = s.path_png ∧ s'.path_jpg = s.path_jpg ∧ s'.path_hdr = s.path_hdr
      ∧ s'.frame_bits = s.frame_bits := by
  unfold stage_screenshot create_screenshot_staging_buffers at h
  simp only [] at h
  split_ifs at h <;> simp only [Option.some.injEq] at h <;> subst h <;> exact ⟨rfl, rfl, rfl, rfl⟩

theorem grab_screenshot_ldr_fields (s s' : screenshot_t) (extent : Nat × Nat)
    (o : screenshot_outcomes) (h : grab_screenshot_ldr s extent o = some s') :
    s'.path_png = s.path_png ∧ s'.path_jpg = s.path_jpg ∧ s'.path_hdr = s.path_hdr
      ∧ s'.frame_bits = s.frame_bits := by
  unfold grab_screenshot_ldr at h
  simp only [] at h
  split_ifs at h <;> simp only [Option.some.injEq] at h <;> subst h <;> exact ⟨rfl, rfl, rfl, rfl⟩

theorem combine_ldr_screenshots_into_hdr_fields (s : screenshot_t) :
    (combine_ldr_screenshots_into_hdr s).path_png = s.path_png
      ∧ (combine_ldr_screenshots_into_hdr s).path_jpg = s.path_jpg
      ∧ (combine_ldr_screenshots_into_hdr s).path_hdr = s.path_hdr
      ∧ (combine_ldr_screenshots_into_hdr s).frame_bits = s.frame_bits := by
  unfold combine_ldr_screenshots_into_hdr
  split <;> exact ⟨rfl, rfl, rfl, rfl⟩

theorem store_screenshot_failure (s : screenshot_t) (o : screenshot_outcomes)
    (h : (store_screenshot s o).ret ≠ 0) :
    (store_screenshot s o).screenshot = zeroed_screenshot := by
  unfold store_screenshot at h ⊢
  simp only [] at h ⊢
  split_ifs at h ⊢
  all_goals first
    | rfl
    | exact absurd rfl h

theorem store_screenshot_success (s : screenshot_t) (o : screenshot_outcomes)
    (h : (store_screenshot s o).ret = 0) :
    (s.frame_bits = .frame_bits_hdr_low
      ∧ (store_screenshot s o).screenshot.frame_bits = .frame_bits_hdr_high
      ∧ (store_screenshot s o).screenshot.path_png = s.path_png
      ∧ (store_screenshot s o).screenshot.path_jpg = s.path_jpg
      ∧ (store_screenshot s o).screenshot.path_hdr = s.path_hdr)
    ∨ (s.frame_bits ≠ .frame_bits_hdr_low
      ∧ (store_screenshot s o).screenshot = zeroed_screenshot) := by
  obtain ⟨c1, c2, c3, c4⟩ := combine_ldr_screenshots_into_hdr_fields s
  unfold store_screenshot at h ⊢
  simp only [] at h ⊢
  split_ifs at h ⊢ with h1 h2 h3 h4 h5 h6
  all_goals first
    | exact absurd h (by decide)
    | exact Or.inr ⟨by simp_all, rfl⟩
    | exact Or.inl ⟨by simp_all, rfl, by simp_all, by simp_all, by simp_all⟩

/-- A failing `implement_screenshot` call leaves the zeroed object behind. -/
theorem implement_screenshot_failure (s : screenshot_t) (extent : Nat × Nat)
    (o : screenshot_outcomes) (h : (implement_screenshot s extent o).ret ≠ 0) :
    (implement_screenshot s extent o).screenshot = zeroed_screenshot := by
  unfold implement_screenshot at h ⊢
  simp only [] at h ⊢
  split_ifs at h ⊢
  · exact absurd rfl h
  · cases hst : stage_screenshot s extent o with
    | none => rfl
    | some s1 =>
      simp only [hst] at h ⊢
      cases hg : grab_screenshot_ldr s1 extent o with
      | none => rfl
      | some s2 =>
        simp only [hg] at h ⊢
        exact store_screenshot_failure s2 o h

/-- A successful `implement_screenshot` call on a pending capture either moves
from the low to the high byte and keeps the paths, or leaves the zeroed object
behind. -/
theorem implement_screenshot_success (s : screenshot_t) (extent : Nat × Nat)
    (o : screenshot_outcomes) (hp : capture_pending s = true)
    (h : (implement_screenshot s extent o).ret = 0) :
    (s.frame_bits = .frame_bits_hdr_low
      ∧ (implement_screenshot s extent o).screenshot.frame_bits = .frame_bits_hdr_high
      ∧ (implement_screenshot s extent o).screenshot.path_png = s.path_png
      ∧ (implement_screenshot s extent o).screenshot.path_jpg = s.path_jpg
      ∧ (implement_screenshot s extent o).screenshot.path_hdr = s.path_hdr)
    ∨ (s.frame_bits ≠ .frame_bits_hdr_low
      ∧ (implement_screenshot s extent o).screenshot = zeroed_screenshot) := by
  have hp' : (!s.path_png.isSome && !s.path_jpg.isSome && !s.path_hdr.isSome) = false := by
    unfold capture_pending at hp
    revert hp
    cases s.path_png.isSome <;> cases s.path_jpg.isSome <;> cases s.path_hdr.isSome <;> simp
  unfold implement_screenshot at h ⊢
  simp only [hp', Bool.false_eq_true, if_false] at h ⊢
  cases hst : stage_screenshot s extent o with
  | none => simp [hst] at h
  | some s1 =>
    simp only [hst] at h ⊢
    obtain ⟨f1, f2, f3, f4⟩ := stage_screenshot_fields s s1 extent o hst
    cases hg : grab_screenshot_ldr s1 extent o with
    | none => simp [hg] at h
    | some s2 =>
      simp only [hg] at h ⊢
      obtain ⟨g1, g2, g3, g4⟩ := grab_screenshot_ldr_fields s1 s2 extent o hg
      have := store_screenshot_success s2 o h
      rw [g1, g2, g3, g4, f1, f2, f3, f4] at this
      exact this

theorem is_idle_fields (s : screenshot_t) (h : is_idle s = true) :
    s.path_png = none ∧ s.path_jpg = none ∧ s.path_hdr = none
      ∧ s.frame_bits = .frame_bits_ldr := by
  rcases s with ⟨sp, sj, sh, fb, st, lc, hc⟩
  cases sp <;> cases sj <;> cases sh <;> simp_all [is_idle, capture_pending]

/-- C10: from an idle screenshot object (all paths empty, capture byte
`frame_bits_ldr`) a call of `implement_screenshot` changes nothing; an LDR
request makes the capture pending with capture byte `frame_bits_ldr`, and one
successful call then leaves the zeroed, idle object; an HDR request makes it
pending with capture byte `frame_bits_hdr_low`, the first successful call
keeps the HDR path and moves the capture byte to `frame_bits_hdr_high`, and the
second successful call leaves the zeroed, idle object; and a failing call
leaves the zeroed, idle object, whatever the object was before. -/
theorem screenshot_phase_sequences (screenshot : screenshot_t)
    (h_idle : is_idle screenshot = true) :
    (∀ (extent : Nat × Nat) (o : screenshot_outcomes),
        implement_screenshot screenshot extent o = ⟨0, screenshot, []⟩)
    ∧ (∀ (path_png path_jpg : Option String) (extent : Nat × Nat) (o : screenshot_outcomes),
        (path_png.isSome = true ∨ path_jpg.isSome = true) →
        capture_pending (take_screenshot screenshot path_png path_jpg none) = true
        ∧ (take_screenshot screenshot path_png path_jpg none).frame_bits = .frame_bits_ldr
        ∧ ((implement_screenshot (take_screenshot screenshot path_png path_jpg none)
              extent o).ret = 0 →
            (implement_screenshot (take_screenshot screenshot path_png path_jpg none)
              extent o).screenshot = zeroed_screenshot))
    ∧ (∀ (path_hdr : String) (extent : Nat × Nat) (o : screenshot_outcomes),
        (take_screenshot screenshot none none (some path_hdr)).path_hdr = some path_hdr
        ∧ (take_screenshot screenshot none none (some path_hdr)).frame_bits
            = .frame_bits_hdr_low
        ∧ ((implement_screenshot (take_screenshot screenshot none none (some path_hdr))
              extent o).ret = 0 →
            (implement_screenshot (take_screenshot screenshot none none (some path_hdr))
                extent o).screenshot.path_png = none
            ∧ (implement_screenshot (take_screenshot screenshot none none (some path_hdr))
                extent o).screenshot.path_jpg = none
            ∧ (implement_screenshot (take_screenshot screenshot none none (some path_hdr))
                extent o).screenshot.path_hdr = some path_hdr
            ∧ (implement_screenshot (take_screenshot screenshot none none (some path_hdr))
                extent o).screenshot.frame_bits = .frame_bits_hdr_high
            ∧ ∀ (extent2 : Nat × Nat) (o2 : screenshot_outcomes),
                (implement_screenshot
                  (implement_screenshot (take_screenshot screenshot none none (some path_hdr))
                    extent o).screenshot extent2 o2).ret = 0 →
                (implement_screenshot
                  (implement_screenshot (take_screenshot screenshot none none (some path_hdr))
                    extent o).screenshot extent2 o2).screenshot = zeroed_screenshot))
    ∧ (∀ (s : screenshot_t) (extent : Nat × Nat) (o : screenshot_outcomes),
        (implement_screenshot s extent o).ret ≠ 0 →
          (implement_screenshot s extent o).screenshot = zeroed_screenshot)
    ∧ is_idle zeroed_screenshot = true := by
  obtain ⟨i1, i2, i3, i4⟩ := is_idle_fields screenshot h_idle
  refine ⟨?_, ?_, ?_, implement_screenshot_failure, by decide⟩
  · intro extent o
    simp [implement_screenshot, i1, i2, i3]
  · intro path_png path_jpg extent o hreq
    have t1 : capture_pending (take_screenshot screenshot path_png path_jpg none) = true := by
      rcases screenshot with ⟨sp, sj, sh, fb, st, lc, hc⟩
      simp only at i1 i2 i3 i4
      subst i1 i2 i3 i4
      cases path_png <;> cases path_jpg <;> simp_all [take_screenshot, capture_pending]
    have t2 : (take_screenshot screenshot path_png path_jpg none).frame_bits
        = .frame_bits_ldr := by
      rcases screenshot with ⟨sp, sj, sh, fb, st, lc, hc⟩
      simp only at i1 i2 i3 i4
      subst i1 i2 i3 i4
      cases path_png <;> cases path_jpg <;> simp_all [take_screenshot]
    refine ⟨t1, t2, fun hret => ?_⟩
    rcases implement_screenshot_success _ extent o t1 hret with ⟨hl, _⟩ | ⟨_, hz⟩
    · rw [t2] at hl
      exact absurd hl (by decide)
    · exact hz
  · intro path_hdr extent o
    have t1 : (take_screenshot screenshot none none (some path_hdr)).path_hdr
        = some path_hdr := by
      simp [take_screenshot, i1, i2, i3]
    have t2 : (take_screenshot screenshot none none (some path_hdr)).frame_bits
        = .frame_bits_hdr_low := by
      simp [take_screenshot, i1, i2, i3]
    have t3 : (take_screenshot screenshot none none (some path_hdr)).path_png = none := by
      simp [take_screenshot, i1, i2, i3]
    have t4 : (take_screenshot screenshot none none (some path_hdr)).path_jpg = none := by
      simp [take_screenshot, i1, i2, i3]
    have t5 : capture_pending (take_screenshot screenshot none none (some path_hdr)) = true := by
      simp [capture_pending, t1]
    refine ⟨t1, t2, fun hret => ?_⟩
    rcases implement_screenshot_success _ extent o t5 hret with ⟨_, h2, h3, h4, h5⟩ | ⟨hl, _⟩
    · rw [t3] at h3
      rw [t4] at h4
      rw [t1] at h5
      refine ⟨h3, h4, h5, h2, fun extent2 o2 hret2 => ?_⟩
      have t6 : capture_pending (implement_screenshot
          (take_screenshot screenshot none none (some path_hdr)) extent o).screenshot = true := by
        simp [capture_pending, h5]
      rcases implement_screenshot_success _ extent2 o2 t6 hret2 with ⟨hl, _⟩ | ⟨_, hz⟩
      · rw [h2] at hl
        exact absurd hl (by decide)
      · exact hz
    · exact absurd t2 hl

/-- Witness for C10: from the zeroed object, a PNG request is completed by one
successful call and an HDR request by two. -/
theorem screenshot_phase_sequences_witness :
    is_idle zeroed_screenshot = true
    ∧ (implement_screenshot
        (take_screenshot zeroed_screenshot (some "data/screenshot.png") none none) (2, 1)
        sample_screenshot_outcomes).ret = 0
    ∧ (implement_screenshot
        (take_screenshot zeroed_screenshot (some "data/screenshot.png") none none) (2, 1)
        sample_screenshot_outcomes).screenshot = zeroed_screenshot
    ∧ (implement_screenshot
        (take_screenshot zeroed_screenshot none none (some "data/screenshot.hdr")) (2, 1)
        sample_screenshot_outcomes).ret = 0
    ∧ (implement_screenshot
        (implement_screenshot
          (take_screenshot zeroed_screenshot none none (some "data/screenshot.hdr")) (2, 1)
          sample_screenshot_outcomes).screenshot (2, 1) sample_screenshot_outcomes).ret = 0
    ∧ (implement_screenshot
        (implement_screenshot
          (take_screenshot zeroed_screenshot none none (some "data/screenshot.hdr")) (2, 1)
          sample_screenshot_outcomes).screenshot (2, 1) sample_screenshot_outcomes).screenshot
        = zeroed_screenshot :=
  ⟨by decide, by decide,
    ((screenshot_phase_sequences zeroed_screenshot (by decide)).2.1
      (some "data/screenshot.png") none (2, 1) sample_screenshot_outcomes
      (Or.inl rfl)).2.2 (by decide),
    by decide, by decide,
    (((screenshot_phase_sequences zeroed_screenshot (by decide)).2.2.1
      "data/screenshot.hdr" (2, 1) sample_screenshot_outcomes).2.2 (by decide)).2.2.2.2
      (2, 1) sample_screenshot_outcomes (by decide)⟩

/-! ## HDR recombination -/

theorem foldl_set_range_getElem? (F : Nat → Nat) (offset : Nat) (n : Nat) (b : List Nat)
    (j : Nat) :
    ((List.range n).foldl (fun b i => b.set (offset + i) (F i)) b)[j]?
      = if offset ≤ j ∧ j < offset + n ∧ j < b.length then some (F (j - offset)) else b[j]? := by
  induction n with
  | zero =>
    have : ¬ (offset ≤ j ∧ j < offset + 0 ∧ j < b.length) := by omega
    rw [if_neg this]
    rfl
  | succ n ih =>
    have hlen : ((List.range n).foldl (fun b i => b.set (offset + i) (F i)) b).length
        = b.length := by
      clear ih
      induction n with
      | zero => rfl
      | succ m ihm => rw [List.range_succ, List.foldl_append]; simp [ihm]
    rw [List.range_succ, List.foldl_append]
    simp only [List.foldl_cons, List.foldl_nil, List.getElem?_set, hlen, ih]
    by_cases hj : offset + n = j
    · subst hj
      by_cases hb : offset + n < b.length
      · have h1 : offset ≤ offset + n ∧ offset + n < offset + (n + 1)
            ∧ offset + n < b.length := ⟨by omega, by omega, hb⟩
        simp [hb, h1]
      · have h1 : ¬ (offset ≤ offset + n ∧ offset + n < offset + (n + 1)
            ∧ offset + n < b.length) := by omega
        have h2 : ¬ (offset ≤ offset + n ∧ offset + n < offset + n
            ∧ offset + n < b.length) := by omega
        have h3 : b[offset + n]? = none := by
          rw [List.getElem?_eq_none_iff]; omega
        simp [hb, h1, h2, h3]
    · simp only [hj, if_false]
      by_cases hc : offset ≤ j ∧ j < offset + n ∧ j < b.length
      · have h1 : offset ≤ j ∧ j < offset + (n + 1) ∧ j < b.length := by omega
        simp [hc, h1]
      · have h1 : ¬ (offset ≤ j ∧ j < offset + (n + 1) ∧ j < b.length) := by omega
        simp [hc, h1]

theorem store_bytes_getElem? (b : List Nat) (offset count : Nat) (value : Nat → Nat)
    (j : Nat) :
    (store_bytes b offset count value)[j]?
      = if offset ≤ j ∧ j < offset + count ∧ j < b.length then some (value (j - offset) % 256)
        else b[j]? :=
  foldl_set_range_getElem? (fun i => value i % 256) offset count b j

theorem store_bytes_length (b : List Nat) (offset count : Nat) (value : Nat → Nat) :
    (store_bytes b offset count value).length = b.length := by
  unfold store_bytes
  induction count with
  | zero => rfl
  | succ m ihm => rw [List.range_succ, List.foldl_append]; simp [ihm]

/-- The screenshot object between the two frames of an HDR capture. -/
theorem hdr_low_phase (screenshot : screenshot_t) (h_idle : is_idle screenshot = true)
    (path_hdr : String) (extent : Nat × Nat) (o : screenshot_outcomes)
    (hsize : 3 * extent.1 * extent.2 < 4294967296)
    (hret : (implement_screenshot (take_screenshot screenshot none none (some path_hdr))
      extent o).ret = 0) :
    (implement_screenshot (take_screenshot screenshot none none (some path_hdr))
      extent o).screenshot
      = { path_png := none, path_jpg := none, path_hdr := some path_hdr,
          frame_bits := .frame_bits_hdr_high, staging := some extent,
          ldr_copy := some (store_bytes (List.replicate (3 * (extent.1 * extent.2) * 2) 0) 0
            (3 * extent.1 * extent.2) o.grabbed),
          hdr_copy := some (List.replicate (3 * (extent.1 * extent.2)) 0) } := by
  obtain ⟨i1, i2, i3, i4⟩ := is_idle_fields screenshot h_idle
  rcases screenshot with ⟨sp, sj, sh, fb, st, lc, hc⟩
  simp only at i1 i2 i3 i4
  subst i1 i2 i3 i4
  have hmod : extent.1 * extent.2 % 4294967296 = extent.1 * extent.2 := by
    apply Nat.mod_eq_of_lt
    have : extent.1 * extent.2 ≤ 3 * extent.1 * extent.2 := by
      rw [Nat.mul_assoc]; omega
    omega
  revert hret
  cases hs : o.staging_fails <;> cases hg : o.grab_fails <;>
    simp [implement_screenshot, take_screenshot, stage_screenshot,
      create_screenshot_staging_buffers, grab_screenshot_ldr, store_screenshot, hs, hg, hmod,
      destroy_screenshot]

/-- C11: in an HDR capture started from an idle screenshot object, with an
image whose two byte-planes have at most 2^32 entries together (so that the
`uint32_t` index `i + entry_count` does not wrap), the second frame stores its
byte-plane behind the one of the first frame, and `combine_ldr_screenshots_into_hdr`
then writes to entry `i` of `hdr_copy` the expansion `half_to_float` of the
half-precision pattern `low | (high << 8)`, where `low` is byte `i` grabbed in
the first (low) frame and `high` is byte `i` grabbed in the second (high)
frame; for the pair low `0x00`, high `0x3C` the pattern is `0x3C00`, which
expands to `0x3F800000`, the single-precision pattern of 1.0. -/
theorem hdr_recombines_low_and_high_bytes (screenshot : screenshot_t)
    (h_idle : is_idle screenshot = true) (path_hdr : String) (extent : Nat × Nat)
    (o1 o2 : screenshot_outcomes) (hplanes : 2 * (3 * extent.1 * extent.2) ≤ 4294967296)
    (hret : (implement_screenshot (take_screenshot screenshot none none (some path_hdr))
      extent o1).ret = 0)
    (hgrab : o2.grab_fails = false) :
    ∃ high_phase : screenshot_t,
      grab_screenshot_ldr (implement_screenshot
        (take_screenshot screenshot none none (some path_hdr)) extent o1).screenshot extent o2
        = some high_phase
      ∧ implement_screenshot (implement_screenshot
          (take_screenshot screenshot none none (some path_hdr)) extent o1).screenshot extent o2
        = store_screenshot high_phase o2
      ∧ (∀ i : Nat, i < 3 * extent.1 * extent.2 →
          (combine_ldr_screenshots_into_hdr high_phase).hdr_copy.map (fun h => h[i]?)
            = some (some (half_to_float
                ((o1.grabbed i % 256) ||| ((o2.grabbed i % 256) <<< 8)))))
      ∧ (0x00 ||| (0x3C <<< 8)) = 0x3C00
      ∧ half_to_float 0x3C00 = 0x3F800000 := by
  have hsize : 3 * extent.1 * extent.2 < 4294967296 := by omega
  have hlow := hdr_low_phase screenshot h_idle path_hdr extent o1 hsize hret
  have hmod : extent.1 * extent.2 % 4294967296 = extent.1 * extent.2 := by
    apply Nat.mod_eq_of_lt
    have : extent.1 * extent.2 ≤ 3 * extent.1 * extent.2 := by
      rw [Nat.mul_assoc]; omega
    omega
  have hmod3 : 3 * extent.1 * extent.2 % 4294967296 = 3 * extent.1 * extent.2 :=
    Nat.mod_eq_of_lt hsize
  have hmod3' : 3 * (extent.1 * extent.2) % 4294967296 = 3 * (extent.1 * extent.2) := by
    rw [← Nat.mul_assoc]; exact hmod3
  rw [hlow]
  refine ⟨
    { path_png := none, path_jpg := none, path_hdr := some path_hdr,
      frame_bits := .frame_bits_hdr_high, staging := some extent,
      ldr_copy := some (store_bytes
        (store_bytes (List.replicate (3 * (extent.1 * extent.2) * 2) 0) 0
          (3 * extent.1 * extent.2) o1.grabbed)
        (3 * extent.1 * extent.2) (3 * extent.1 * extent.2) o2.grabbed),
      hdr_copy := some (List.replicate (3 * (extent.1 * extent.2)) 0) },
    ?_, ?_, ?_, by decide, by decide⟩
  · simp [grab_screenshot_ldr, hgrab, hmod3]
  · simp [implement_screenshot, stage_screenshot, grab_screenshot_ldr, hgrab, hmod3]
  · intro i hi
    have hi' : i < 3 * (extent.1 * extent.2) := by rw [← Nat.mul_assoc]; exact hi
    simp only [combine_ldr_screenshots_into_hdr, hmod, hmod3', Option.map_some',
      Option.some.injEq]
    have key := foldl_set_range_getElem?
      (fun i => half_to_float
        (((store_bytes (store_bytes (List.replicate (3 * (extent.1 * extent.2) * 2) 0) 0
              (3 * extent.1 * extent.2) o1.grabbed)
            (3 * extent.1 * extent.2) (3 * extent.1 * extent.2) o2.grabbed).getD i 0
          ||| ((store_bytes (store_bytes (List.replicate (3 * (extent.1 * extent.2) * 2) 0) 0
              (3 * extent.1 * extent.2) o1.grabbed)
            (3 * extent.1 * extent.2) (3 * extent.1 * extent.2) o2.grabbed).getD
              ((i + 3 * (extent.1 * extent.2)) % 4294967296) 0 <<< 8)) % 65536))
      0 (3 * (extent.1 * extent.2)) (List.replicate (3 * (extent.1 * extent.2)) 0) i
    simp only [Nat.zero_add, Nat.sub_zero, List.length_replicate] at key
    rw [key]
    have hcond : 0 ≤ i ∧ i < 3 * (extent.1 * extent.2) ∧ i < 3 * (extent.1 * extent.2) :=
      ⟨Nat.zero_le i, hi', hi'⟩
    rw [if_pos hcond]
    have hwrap : (i + 3 * (extent.1 * extent.2)) % 4294967296
        = i + 3 * (extent.1 * extent.2) := by
      apply Nat.mod_eq_of_lt
      rw [Nat.mul_assoc] at hplanes
      omega
    rw [hwrap]
    have hlo : (store_bytes (store_bytes (List.replicate (3 * (extent.1 * extent.2) * 2) 0) 0
          (3 * extent.1 * extent.2) o1.grabbed)
        (3 * extent.1 * extent.2) (3 * extent.1 * extent.2) o2.grabbed).getD i 0
        = o1.grabbed i % 256 := by
      rw [List.getD_eq_getElem?_getD, store_bytes_getElem?, store_bytes_getElem?]
      simp only [store_bytes_length, List.length_replicate]
      have h1 : ¬ (3 * extent.1 * extent.2 ≤ i ∧ i < 3 * extent.1 * extent.2
          + 3 * extent.1 * extent.2 ∧ i < 3 * (extent.1 * extent.2) * 2) := by omega
      have h2 : 0 ≤ i ∧ i < 0 + 3 * extent.1 * extent.2
          ∧ i < 3 * (extent.1 * extent.2) * 2 := by omega
      rw [if_neg h1, if_pos h2]
      simp
    have hhi : (store_bytes (store_bytes (List.replicate (3 * (extent.1 * extent.2) * 2) 0) 0
          (3 * extent.1 * extent.2) o1.grabbed)
        (3 * extent.1 * extent.2) (3 * extent.1 * extent.2) o2.grabbed).getD
          (i + 3 * (extent.1 * extent.2)) 0
        = o2.grabbed i % 256 := by
      rw [List.getD_eq_getElem?_getD, store_bytes_getElem?]
      simp only [store_bytes_length, List.length_replicate]
      have h1 : 3 * extent.1 * extent.2 ≤ i + 3 * (extent.1 * extent.2)
          ∧ i + 3 * (extent.1 * extent.2) < 3 * extent.1 * extent.2 + 3 * extent.1 * extent.2
          ∧ i + 3 * (extent.1 * extent.2) < 3 * (extent.1 * extent.2) * 2 := by
        rw [Nat.mul_assoc]; omega
      rw [if_pos h1]
      have h2 : i + 3 * (extent.1 * extent.2) - 3 * extent.1 * extent.2 = i := by
        rw [Nat.mul_assoc]; omega
      simp [h2]
    rw [hlo, hhi]
    have hlt : (o1.grabbed i % 256 ||| (o2.grabbed i % 256) <<< 8) < 65536 := by
      have a1 : o1.grabbed i % 256 < 2 ^ 16 := by
        have := Nat.mod_lt (o1.grabbed i) (by decide : 256 > 0); omega
      have a2 : (o2.grabbed i % 256) <<< 8 < 2 ^ 16 := by
        rw [Nat.shiftLeft_eq]
        have := Nat.mod_lt (o2.grabbed i) (by decide : 256 > 0); omega
      exact Nat.or_lt_two_pow a1 a2
    rw [Nat.mod_eq_of_lt hlt]

/-- Witness for C11: a 2 x 1 image whose low plane is all `0x00` and whose high
plane is all `0x3C`. -/
theorem hdr_recombines_low_and_high_bytes_witness :
    is_idle zeroed_screenshot = true
    ∧ 2 * (3 * ((2 : Nat), (1 : Nat)).1 * ((2 : Nat), (1 : Nat)).2) ≤ 4294967296
    ∧ (implement_screenshot
        (take_screenshot zeroed_screenshot none none (some "data/screenshot.hdr")) (2, 1)
        low_plane_outcomes).ret = 0
    ∧ high_plane_outcomes.grab_fails = false
    ∧ ∃ high_phase : screenshot_t,
        grab_screenshot_ldr (implement_screenshot
          (take_screenshot zeroed_screenshot none none (some "data/screenshot.hdr")) (2, 1)
          low_plane_outcomes).screenshot (2, 1) high_plane_outcomes = some high_phase
        ∧ implement_screenshot (implement_screenshot
            (take_screenshot zeroed_screenshot none none (some "data/screenshot.hdr")) (2, 1)
            low_plane_outcomes).screenshot (2, 1) high_plane_outcomes
          = store_screenshot high_phase high_plane_outcomes
        ∧ (∀ i : Nat, i < 3 * ((2 : Nat), (1 : Nat)).1 * ((2 : Nat), (1 : Nat)).2 →
            (combine_ldr_screenshots_into_hdr high_phase).hdr_copy.map (fun h => h[i]?)
              = some (some (half_to_float
                  ((low_plane_outcomes.grabbed i % 256)
                    ||| ((high_plane_outcomes.grabbed i % 256) <<< 8)))))
        ∧ (0x00 ||| (0x3C <<< 8)) = 0x3C00
        ∧ half_to_float 0x3C00 = 0x3F800000 :=
  ⟨by decide, by decide, by decide, rfl,
    hdr_recombines_low_and_high_bytes zeroed_screenshot (by decide) "data/screenshot.hdr"
      (2, 1) low_plane_outcomes high_plane_outcomes (by decide) (by decide) rfl⟩

/-! ## The experiment engine in the main loop -/

/-- C12, as stated, fails: in the run of the scenario, the very first frame
sets experiment A up and requests a screenshot for it at sample count 0, so the
screenshots of A are not requested at the sample counts 10 and 20 only. -/
theorem scenario_requests_screenshot_at_sample_zero :
    milestones (main_loop (scenario_app false false) (quiet_frames 1)).trace
      = [.setup 0, .screenshot 0]
    ∧ milestones (main_loop (scenario_app true true) (quiet_frames 1)).trace
      = [.setup 0, .screenshot 0]
    ∧ screenshot_sample_counts
        (main_loop (scenario_app false false) (quiet_frames 30)).trace ≠ [10, 20, 5]
    ∧ screenshot_sample_counts
        (main_loop (scenario_app true true) (quiet_frames 32)).trace ≠ [10, 20, 5] := by
  decide

set_option maxRecDepth 100000 in
/-- C12, amended: in the run of the scenario, for LDR as for HDR experiments,
the engine sets experiment A up and requests screenshots for it at the sample
counts 0, 10 and 20, then cleans A up and sets experiment B up, requests one
screenshot for B, at sample count 5, and cleans B up; the
`advance_experiments` call of the next frame then reports that all experiments
are complete, so that `handle_frame_input` returns 1 before its
`update_application` call and the main loop ends. -/
theorem scenario_run (a_hdr b_hdr : Bool) :
    milestones (main_loop (scenario_app a_hdr b_hdr)
        (quiet_frames (scenario_length a_hdr))).trace
      = [.setup 0, .screenshot 0, .screenshot 10, .screenshot 20, .cleanup 0,
          .setup 1, .screenshot 5, .cleanup 1]
    ∧ (main_loop (scenario_app a_hdr b_hdr)
        (quiet_frames (scenario_length a_hdr - 1))).stopped = false
    ∧ (main_loop (scenario_app a_hdr b_hdr)
        (quiet_frames (scenario_length a_hdr))).stopped = true
    ∧ (handle_frame_input (main_loop (scenario_app a_hdr b_hdr)
        (quiet_frames (scenario_length a_hdr - 1))).app idle_frame_inputs).ret = 1
    ∧ (handle_frame_input (main_loop (scenario_app a_hdr b_hdr)
        (quiet_frames (scenario_length a_hdr - 1))).app idle_frame_inputs).update.isNone = true
    ∧ (advance_experiments (experiment_context_of (main_loop (scenario_app a_hdr b_hdr)
        (quiet_frames (scenario_length a_hdr - 1))).app no_updates []) true).1 = 1 := by
  cases a_hdr <;> cases b_hdr <;> decide

theorem take_screenshot_phase_valid (s : screenshot_t) (path_png path_jpg path_hdr : Option String)
    (h : capture_phase_valid s = true) :
    capture_phase_valid (take_screenshot s path_png path_jpg path_hdr) = true := by
  rcases s with ⟨sp, sj, sh, fb, st, lc, hc⟩
  cases sp <;> cases sj <;> cases sh <;> cases fb <;> cases path_png <;> cases path_jpg
    <;> cases path_hdr
    <;> simp_all [take_screenshot, capture_phase_valid, idle_or_high_phase, is_idle,
      capture_pending]

theorem phase_valid_of_idle_or_high (s : screenshot_t) (h : idle_or_high_phase s = true) :
    capture_phase_valid s = true := by
  simp [capture_phase_valid, h]

theorem implement_screenshot_idle_or_high (s : screenshot_t) (extent : Nat × Nat)
    (o : screenshot_outcomes) (h : capture_phase_valid s = true) :
    idle_or_high_phase (implement_screenshot s extent o).screenshot = true := by
  by_cases hp : capture_pending s = true
  · by_cases hret : (implement_screenshot s extent o).ret = 0
    · rcases implement_screenshot_success s extent o hp hret with ⟨h1, h2, h3, h4, h5⟩ | ⟨_, hz⟩
      · rcases s with ⟨sp, sj, sh, fb, st, lc, hc⟩
        simp only at h1 h3 h4 h5
        subst h1
        generalize implement_screenshot _ extent o = r at h2 h3 h4 h5
        rcases r with ⟨ret, ⟨rp, rj, rh, rfb, rst, rlc, rhc⟩, w⟩
        simp only at h2 h3 h4 h5
        subst h2 h3 h4 h5
        clear hret hp
        cases rp <;> cases rj <;> cases rh
          <;> simp_all [capture_phase_valid, idle_or_high_phase, is_idle, capture_pending]
      · rw [hz]; decide
    · rw [implement_screenshot_failure s extent o hret]; decide
  · have hnp : capture_pending s = false := by simpa using hp
    have hsame : implement_screenshot s extent o = ⟨0, s, []⟩ := by
      unfold capture_pending at hnp
      simp only [Bool.or_eq_false_iff] at hnp
      simp [implement_screenshot, hnp.1.1, hnp.1.2, hnp.2]
    rw [hsame]
    rcases s with ⟨sp, sj, sh, fb, st, lc, hc⟩
    cases sp <;> cases sj <;> cases sh <;> cases fb
      <;> simp_all [capture_phase_valid, idle_or_high_phase, is_idle, capture_pending]

theorem rebuild_flagged_keeps (app : application_t) (f : resource_flags) (reset : Bool)
    (o : update_outcomes) (tr : List Event) :
    (rebuild_flagged app f reset o tr).app.screenshot = app.screenshot
    ∧ (rebuild_flagged app f reset o tr).app.experiment_list = app.experiment_list := by
  unfold rebuild_flagged rebuild_everything_else
  simp only []
  split_ifs <;> exact ⟨rfl, rfl⟩

theorem update_application_keeps (app : application_t) (update : application_updates_t)
    (reset : Bool) (o : update_outcomes) :
    (update_application app update reset o).app.screenshot = app.screenshot
    ∧ (update_application app update reset o).app.experiment_list = app.experiment_list := by
  unfold update_application
  simp only []
  split_ifs
  · exact ⟨rfl, rfl⟩
  all_goals exact rebuild_flagged_keeps _ _ _ _ _

theorem apply_keys_screenshot (app : application_t) (updates : application_updates_t)
    (i : frame_inputs) :
    (capture_phase_valid app.screenshot = true →
      capture_phase_valid (apply_keys app updates i).1.screenshot = true)
    ∧ (i.key_f10 = false → i.key_f12 = false →
      (apply_keys app updates i).1.screenshot = app.screenshot) := by
  unfold apply_keys
  simp only []
  refine ⟨fun h => ?_, fun h10 h12 => ?_⟩
  · split_ifs <;>
      first
        | exact h
        | exact take_screenshot_phase_valid _ _ _ _ h
        | exact take_screenshot_phase_valid _ _ _ _ (take_screenshot_phase_valid _ _ _ _ h)
  · simp only [h10, h12, Bool.false_eq_true, if_false]
    split_ifs <;> rfl

theorem cleanup_experiment_screenshot (c : experiment_context) (b : Bool) :
    (cleanup_experiment c b).2.screenshot = c.screenshot := by
  unfold cleanup_experiment
  simp only []
  split_ifs <;> rfl

theorem request_experiment_screenshot_keeps (c : experiment_context) :
    (request_experiment_screenshot c).list.next = c.list.next
    ∧ (capture_phase_valid c.screenshot = true →
        capture_phase_valid (request_experiment_screenshot c).screenshot = true) := by
  unfold request_experiment_screenshot
  cases c.list.experiment with
  | none => exact ⟨rfl, fun h => h⟩
  | some index =>
    simp only []
    split_ifs
    · exact ⟨rfl, fun h => take_screenshot_phase_valid _ _ _ _ h⟩
    · exact ⟨rfl, fun h => take_screenshot_phase_valid _ _ _ _ h⟩

theorem advance_running_experiment_screenshot (c : experiment_context) :
    (capture_phase_valid c.screenshot = true →
      capture_phase_valid (advance_running_experiment c).screenshot = true)
    ∧ ((advance_running_experiment c).list.next ≠ c.list.next →
      (advance_running_experiment c).screenshot = c.screenshot
      ∧ c.list.state = .experiment_state_screenshot_frame_0) := by
  obtain ⟨r1, r2⟩ := request_experiment_screenshot_keeps c
  unfold advance_running_experiment
  simp only []
  split_ifs with h1 h2 h3 h4 h5 h6 h7
  all_goals refine ⟨fun h => ?_, fun hn => ?_⟩
  all_goals first
    | exact h
    | exact r2 h
    | (rw [cleanup_experiment_screenshot]; exact h)
    | exact absurd rfl hn
    | exact absurd r1 hn
    | exact ⟨cleanup_experiment_screenshot c _, by assumption⟩

theorem setup_experiment_keeps (c : experiment_context) (t : Bool) :
    (setup_experiment c t).screenshot = c.screenshot
    ∧ (setup_experiment c t).list.next = c.list.next
    ∧ (setup_experiment c t).list.state = .experiment_state_rendering := by
  unfold setup_experiment
  exact ⟨rfl, rfl, rfl⟩

theorem advance_experiments_screenshot (c : experiment_context) (t : Bool) :
    (capture_phase_valid c.screenshot = true →
      capture_phase_valid (advance_experiments c t).2.screenshot = true)
    ∧ ((advance_experiments c t).2.list.next ≠ c.list.next →
      (advance_experiments c t).2.screenshot = c.screenshot
      ∧ c.list.state = .experiment_state_screenshot_frame_0) := by
  unfold advance_experiments
  split_ifs with h1 h2 h3
  · exact ⟨fun h => h, fun hn => absurd rfl hn⟩
  · exact ⟨fun h => h, fun hn => absurd rfl hn⟩
  · obtain ⟨s1, s2, s3⟩ := setup_experiment_keeps c t
    obtain ⟨a1, a2⟩ := advance_running_experiment_screenshot (setup_experiment c t)
    refine ⟨fun h => a1 (by rw [s1]; exact h), fun hn => ?_⟩
    simp only at hn
    rw [← s2] at hn
    have := (a2 hn).2
    rw [s3] at this
    exact absurd this (by decide)
  · exact advance_running_experiment_screenshot c

theorem handle_frame_input_screenshot (app : application_t) (i : frame_inputs) :
    (capture_phase_valid app.screenshot = true →
      capture_phase_valid (handle_frame_input app i).app.screenshot = true)
    ∧ (i.key_f10 = false → i.key_f12 = false →
      (handle_frame_input app i).app.experiment_list.next ≠ app.experiment_list.next →
      (handle_frame_input app i).app.screenshot = app.screenshot) := by
  obtain ⟨k1, k2⟩ := apply_keys_screenshot (apply_interface app i.interface)
    (interface_updates i.interface) i
  obtain ⟨_, k3⟩ := apply_keys_fields (apply_interface app i.interface)
    (interface_updates i.interface) i
  have k1' : capture_phase_valid app.screenshot = true →
      capture_phase_valid (apply_keys (apply_interface app i.interface)
        (interface_updates i.interface) i).1.screenshot = true := k1
  have k2' : i.key_f10 = false → i.key_f12 = false →
      (apply_keys (apply_interface app i.interface)
        (interface_updates i.interface) i).1.screenshot = app.screenshot := k2
  have k3' : (apply_keys (apply_interface app i.interface)
        (interface_updates i.interface) i).1.experiment_list = app.experiment_list := k3
  unfold handle_frame_input
  simp only []
  by_cases hesc : i.key_escape = true
  · simp only [hesc, if_true]
    exact ⟨fun h => h, fun _ _ hn => absurd rfl hn⟩
  simp only [hesc, Bool.false_eq_true, if_false]
  generalize apply_keys (apply_interface app i.interface) (interface_updates i.interface) i
    = keyed at k1' k2' k3' ⊢
  obtain ⟨a1, a2⟩ := advance_experiments_screenshot
    (experiment_context_of keyed.1 keyed.2.1 keyed.2.2) i.timings_opens
  have a1' : capture_phase_valid keyed.1.screenshot = true →
      capture_phase_valid (advance_experiments (experiment_context_of keyed.1 keyed.2.1
        keyed.2.2) i.timings_opens).2.screenshot = true := a1
  have a2' : (advance_experiments (experiment_context_of keyed.1 keyed.2.1
        keyed.2.2) i.timings_opens).2.list.next ≠ keyed.1.experiment_list.next →
      (advance_experiments (experiment_context_of keyed.1 keyed.2.1
        keyed.2.2) i.timings_opens).2.screenshot = keyed.1.screenshot :=
    fun hn => (a2 hn).1
  generalize advance_experiments (experiment_context_of keyed.1 keyed.2.1 keyed.2.2)
    i.timings_opens = advanced at a1' a2' ⊢
  obtain ⟨u1, u2⟩ := update_application_keeps (apply_experiment_context keyed.1 advanced.2)
    advanced.2.updates i.interface.reset_accum i.update
  have u1' : (update_application (apply_experiment_context keyed.1 advanced.2)
      advanced.2.updates i.interface.reset_accum i.update).app.screenshot
      = advanced.2.screenshot := u1
  have u2' : (update_application (apply_experiment_context keyed.1 advanced.2)
      advanced.2.updates i.interface.reset_accum i.update).app.experiment_list
      = advanced.2.list := u2
  generalize update_application (apply_experiment_context keyed.1 advanced.2)
    advanced.2.updates i.interface.reset_accum i.update = updated at u1' u2' ⊢
  have fin : (capture_phase_valid app.screenshot = true →
        capture_phase_valid advanced.2.screenshot = true)
      ∧ (i.key_f10 = false → i.key_f12 = false →
        advanced.2.list.next ≠ app.experiment_list.next →
        advanced.2.screenshot = app.screenshot) := by
    refine ⟨fun h => a1' (k1' h), fun h10 h12 hn => ?_⟩
    rw [← k3'] at hn
    rw [a2' hn, k2' h10 h12]
  split_ifs
  · exact fin
  · simp only [u1', u2']
    exact fin
  · simp only [u1', u2']
    exact fin
  · simp only [u1', u2']
    exact fin

theorem render_frame_idle_or_high (app : application_t) (o : render_outcomes)
    (h : capture_phase_valid app.screenshot = true) (hret : (render_frame app o).ret = 0) :
    idle_or_high_phase (render_frame app o).app.screenshot = true := by
  obtain ⟨_, h2, _, _⟩ := submit_frame_preserves app o
  unfold render_frame at hret ⊢
  simp only [] at hret ⊢
  by_cases hs : (submit_frame app o).1 = true
  · simp only [hs, if_true] at hret ⊢
    rw [(present_frame_sample_count (submit_frame app o).2.1 o (submit_frame app o).2.2).1]
    apply implement_screenshot_idle_or_high
    rw [h2]
    exact h
  · simp [hs] at hret

theorem main_loop_frame_idle_or_high (app : application_t) (i : frame_inputs)
    (o : render_outcomes) (h : idle_or_high_phase app.screenshot = true)
    (hrun : (main_loop_frame app i o).stopped = false) :
    idle_or_high_phase (main_loop_frame app i o).app.screenshot = true := by
  have hv := (handle_frame_input_screenshot app i).1 (phase_valid_of_idle_or_high _ h)
  unfold main_loop_frame at hrun ⊢
  simp only [] at hrun ⊢
  by_cases hh : (handle_frame_input app i).ret ≠ 0
  · simp [hh] at hrun
  · simp only [hh, if_false] at hrun ⊢
    have hret : (render_frame (handle_frame_input app i).app o).ret = 0 := by
      simpa using hrun
    exact render_frame_idle_or_high _ o hv hret

theorem main_loop_idle_or_high (frames : List (frame_inputs × render_outcomes)) :
    ∀ app : application_t, idle_or_high_phase app.screenshot = true →
      (main_loop app frames).stopped = false →
      idle_or_high_phase (main_loop app frames).app.screenshot = true := by
  induction frames with
  | nil => intro app h _; exact h
  | cons frame rest ih =>
    intro app h hrun
    unfold main_loop at hrun ⊢
    simp only [] at hrun ⊢
    by_cases hs : (main_loop_frame app frame.1 frame.2).stopped = true
    · simp [hs] at hrun
    · have hs' : (main_loop_frame app frame.1 frame.2).stopped = false := by simpa using hs
      simp only [hs', Bool.false_eq_true, if_false] at hrun ⊢
      exact ih _ (main_loop_frame_idle_or_high app frame.1 frame.2 h hs') hrun

/-- C13, as stated, fails: in the run of the scenario with an HDR experiment A,
the frame that follows the request at sample count 20 starts with the capture
between its two phases (HDR path set, capture byte `frame_bits_hdr_high`, not
idle), and `handle_frame_input` cleans experiment A up and advances the cursor
from 0 to 1 in that frame. -/
theorem cursor_advances_between_hdr_phases :
    (main_loop (scenario_app true false) (quiet_frames 23)).stopped = false
    ∧ is_idle (main_loop (scenario_app true false) (quiet_frames 23)).app.screenshot = false
    ∧ (main_loop (scenario_app true false) (quiet_frames 23)).app.screenshot.path_hdr.isSome
        = true
    ∧ (main_loop (scenario_app true false) (quiet_frames 23)).app.screenshot.frame_bits
        = .frame_bits_hdr_high
    ∧ (main_loop (scenario_app true false) (quiet_frames 23)).app.experiment_list.next = 0
    ∧ (handle_frame_input (main_loop (scenario_app true false) (quiet_frames 23)).app
        idle_frame_inputs).app.experiment_list.next = 1
    ∧ milestones (handle_frame_input (main_loop (scenario_app true false)
        (quiet_frames 23)).app idle_frame_inputs).trace = [.cleanup 0] := by
  decide

/-- C13, amended: in every run of the main loop that starts with the capture
idle or in its second HDR frame, every frame starts with the capture idle or in
its second HDR frame (low byte-plane captured, high byte-plane pending); and a
frame without the screenshot keys F10 and F12 in which `handle_frame_input`
advances the cursor leaves the screenshot object as it was at the start of the
frame. So the cursor advances only while the capture is idle or between the
two phases of an HDR capture. -/
theorem cursor_advances_idle_or_high_phase (app : application_t)
    (frames : List (frame_inputs × render_outcomes)) (i : frame_inputs)
    (h0 : idle_or_high_phase app.screenshot = true)
    (hrun : (main_loop app frames).stopped = false) :
    idle_or_high_phase (main_loop app frames).app.screenshot = true
    ∧ (i.key_f10 = false → i.key_f12 = false →
        (handle_frame_input (main_loop app frames).app i).app.experiment_list.next
          ≠ (main_loop app frames).app.experiment_list.next →
        (handle_frame_input (main_loop app frames).app i).app.screenshot
          = (main_loop app frames).app.screenshot) :=
  ⟨main_loop_idle_or_high frames app h0 hrun,
    (handle_frame_input_screenshot (main_loop app frames).app i).2⟩

/-- Witness for C13: 23 frames of the scenario with an HDR experiment A. -/
theorem cursor_advances_idle_or_high_phase_witness :
    idle_or_high_phase (scenario_app true false).screenshot = true
    ∧ (main_loop (scenario_app true false) (quiet_frames 23)).stopped = false
    ∧ idle_or_high_phase
        (main_loop (scenario_app true false) (quiet_frames 23)).app.screenshot = true
    ∧ (idle_frame_inputs.key_f10 = false → idle_frame_inputs.key_f12 = false →
        (handle_frame_input (main_loop (scenario_app true false) (quiet_frames 23)).app
            idle_frame_inputs).app.experiment_list.next
          ≠ (main_loop (scenario_app true false) (quiet_frames 23)).app.experiment_list.next →
        (handle_frame_input (main_loop (scenario_app true false) (quiet_frames 23)).app
            idle_frame_inputs).app.screenshot
          = (main_loop (scenario_app true false) (quiet_frames 23)).app.screenshot) :=
  ⟨by decide, by decide,
    cursor_advances_idle_or_high_phase (scenario_app true false) (quiet_frames 23)
      idle_frame_inputs (by decide) (by decide)⟩

theorem cleanup_experiment_stops (c : experiment_context) (b : Bool)
    (hlt : c.list.next < c.list.count)
    (hgt : (cleanup_experiment c b).2.list.next > (cleanup_experiment c b).2.list.count) :
    (cleanup_experiment c b).2.list.state = .experiment_state_new_experiment
    ∧ (cleanup_experiment c b).2.list.experiment = none := by
  unfold cleanup_experiment at hgt ⊢
  simp only [] at hgt ⊢
  split_ifs at hgt ⊢ with h1 h2 h3
  all_goals first
    | exact ⟨rfl, rfl⟩
    | (exfalso
       simp only at hgt hlt
       have := Nat.mod_le (c.list.next + 1) 4294967296
       omega)

theorem request_experiment_screenshot_list (c : experiment_context) :
    (request_experiment_screenshot c).list.next = c.list.next
    ∧ (request_experiment_screenshot c).list.count = c.list.count := by
  unfold request_experiment_screenshot
  cases c.list.experiment with
  | none => exact ⟨rfl, rfl⟩
  | some index =>
    simp only []
    split_ifs <;> exact ⟨rfl, rfl⟩

theorem advance_running_experiment_stops (c : experiment_context)
    (hlt : c.list.next < c.list.count)
    (hgt : (advance_running_experiment c).list.next > (advance_running_experiment c).list.count) :
    (advance_running_experiment c).list.state = .experiment_state_new_experiment
    ∧ (advance_running_experiment c).list.experiment = none := by
  obtain ⟨r1, r2⟩ := request_experiment_screenshot_list c
  unfold advance_running_experiment at hgt ⊢
  simp only [] at hgt ⊢
  split_ifs at hgt ⊢
  all_goals first
    | exact cleanup_experiment_stops c _ hlt hgt
    | (exfalso
       try dsimp only at hgt
       try rw [r1, r2] at hgt
       omega)

theorem setup_experiment_list (c : experiment_context) (t : Bool) :
    (setup_experiment c t).list.next = c.list.next
    ∧ (setup_experiment c t).list.count = c.list.count := by
  unfold setup_experiment
  exact ⟨rfl, rfl⟩

/-- C14, as stated, fails: in the run of the scenario, the `advance_experiments`
call of frame 29 finalizes the last experiment and takes the list from running
to stopped, but returns 0; the next call returns 1 and leaves everything as it
is, and so does the call after it, which returns 1 again although the
completion has been reported. -/
theorem completion_is_reported_late_and_again :
    finalizing_context.list.next ≤ finalizing_context.list.count
    ∧ (advance_experiments finalizing_context true).1 = 0
    ∧ (advance_experiments finalizing_context true).2.list.next
        > (advance_experiments finalizing_context true).2.list.count
    ∧ (advance_experiments finalizing_context true).2.list.experiment = none
    ∧ (advance_experiments (advance_experiments finalizing_context true).2 true).1 = 1
    ∧ (advance_experiments
        (advance_experiments (advance_experiments finalizing_context true).2 true).2 true).1
        = 1 := by
  decide

/-- C14, amended: `advance_experiments` returns 1 if and only if it is called
with the cursor past the count and the state
`experiment_state_new_experiment`, the marker that `cleanup_experiment` leaves
behind, and returns 0 otherwise; such a call changes nothing, so that every
later call returns 1 again. The call that takes the list from running (cursor
at an existing experiment) to stopped returns 0 and leaves that marker with
the current experiment cleared. -/
theorem advance_experiments_return_value (c : experiment_context) (timings_opens : Bool) :
    (advance_experiments c timings_opens).1
        = (if completion_pending c.list = true then 1 else 0)
    ∧ (completion_pending c.list = true →
        (advance_experiments c timings_opens).2 = c
        ∧ (advance_experiments (advance_experiments c timings_opens).2 timings_opens).1 = 1)
    ∧ (c.list.next < c.list.count →
        (advance_experiments c timings_opens).2.list.next
          > (advance_experiments c timings_opens).2.list.count →
        (advance_experiments c timings_opens).1 = 0
        ∧ completion_pending (advance_experiments c timings_opens).2.list = true
        ∧ (advance_experiments c timings_opens).2.list.experiment = none) := by
  have first : (advance_experiments c timings_opens).1
      = (if completion_pending c.list = true then 1 else 0) := by
    unfold advance_experiments completion_pending
    by_cases h1 : c.list.next > c.list.count
    · by_cases h2 : c.list.state = .experiment_state_new_experiment
      · simp [h1, h2]
      · simp [h1, h2]
    · simp [h1]
  refine ⟨first, ?_, ?_⟩
  · intro hp
    have hp' : c.list.next > c.list.count
        ∧ c.list.state = .experiment_state_new_experiment := by
      simpa [completion_pending] using hp
    have hsame : (advance_experiments c timings_opens).2 = c := by
      unfold advance_experiments
      simp [hp'.1, hp'.2]
    refine ⟨hsame, ?_⟩
    rw [hsame, first, if_pos hp]
  · intro hlt hgt
    have hle : ¬ c.list.next > c.list.count := by omega
    have hnp : ¬ completion_pending c.list = true := by
      simp only [completion_pending, Bool.and_eq_true, decide_eq_true_eq]
      exact fun h => hle h.1
    refine ⟨by rw [first, if_neg hnp], ?_⟩
    unfold advance_experiments at hgt ⊢
    simp only [hle, if_false] at hgt ⊢
    by_cases hnew : c.list.state = .experiment_state_new_experiment
    · simp only [hnew, if_true] at hgt ⊢
      obtain ⟨s1, s2⟩ := setup_experiment_list c timings_opens
      obtain ⟨a1, a2⟩ := advance_running_experiment_stops (setup_experiment c timings_opens)
        (by rw [s1, s2]; exact hlt) hgt
      refine ⟨?_, a2⟩
      simp only [completion_pending, Bool.and_eq_true, decide_eq_true_eq]
      exact ⟨hgt, a1⟩
    · simp only [hnew, if_false] at hgt ⊢
      obtain ⟨a1, a2⟩ := advance_running_experiment_stops c hlt hgt
      refine ⟨?_, a2⟩
      simp only [completion_pending, Bool.and_eq_true, decide_eq_true_eq]
      exact ⟨hgt, a1⟩

/-! ## The quicksave file -/

theorem le_bytes_length (w v : Nat) : (le_bytes w v).length = w := by
  induction w generalizing v with
  | zero => rfl
  | succ w ih => simp [le_bytes, ih]

theorem le_value_le_bytes (w v : Nat) : le_value (le_bytes w v) = v % 256 ^ w := by
  induction w generalizing v with
  | zero => simp [le_bytes, le_value, Nat.mod_one]
  | succ w ih =>
    simp only [le_bytes, le_value, ih, Nat.mod_mod]
    rw [pow_succ', Nat.mod_mul]

theorem words_bytes_length (ws : List Nat) : (words_bytes ws).length = 4 * ws.length := by
  induction ws with
  | nil => rfl
  | cons w ws ih =>
    simp only [words_bytes, List.length_append, le_bytes_length, ih, List.length_cons]
    omega

theorem bytes_words_words_bytes (ws rest : List Nat)
    (h : ∀ w ∈ ws, w < 4294967296) :
    bytes_words ws.length (words_bytes ws ++ rest) = ws := by
  induction ws with
  | nil => rfl
  | cons w ws ih =>
    have h4 : (le_bytes 4 w).length = 4 := le_bytes_length 4 w
    simp only [words_bytes, List.length_cons, bytes_words, List.append_assoc]
    rw [List.take_left' h4, List.drop_left' h4, le_value_le_bytes,
      ih (fun x hx => h x (List.mem_cons_of_mem _ hx))]
    have : w % 256 ^ 4 = w := Nat.mod_eq_of_lt (by
      have := h w (List.mem_cons_self _ _)
      norm_num
      exact this)
    rw [this]

theorem first_words_length (array : List Nat) (n : Nat) : (first_words array n).length = n := by
  simp [first_words]

theorem first_words_self (array : List Nat) : first_words array array.length = array := by
  apply List.ext_getElem
  · simp [first_words]
  · intro i h1 h2
    simp [first_words, List.getD_eq_getElem?_getD, h2]

theorem takeWhile_terminated (path rest : List Nat)
    (h : ∀ b ∈ path, b % 256 ≠ 0) :
    (path ++ 0 :: rest).takeWhile (fun b => decide (b % 256 ≠ 0)) = path := by
  induction path with
  | nil => simp [List.takeWhile]
  | cons b path ih =>
    have hb := h b (List.mem_cons_self _ _)
    simp only [List.cons_append, List.takeWhile_cons, hb, ne_eq, not_false_eq_true,
      decide_True, if_true]
    rw [ih (fun x hx => h x (List.mem_cons_of_mem _ hx))]

theorem quick_load_light_stream (old : List polygonal_light_t) (old_count i : Nat)
    (s : quick_load_state) (H PS PB Z1 Z2 ws rest : List Nat) (vc : Nat)
    (hs : s.stream = H ++ (PS ++ (PB ++ (Z1 ++ (Z2 ++ (words_bytes ws ++ rest))))))
    (hH : H.length = 88) (hvc : le_value ((H.drop 80).take 4) = vc)
    (hPS : PS.length = 8) (hPB : PB.length = le_value PS)
    (hZ1 : Z1.length = 8) (hZ2 : Z2.length = 8)
    (hz1 : le_value Z1 = 0) (hz2 : le_value Z2 = 0)
    (hws : ws.length = (4 * vc) % 4294967296)
    (hwords : ∀ w ∈ ws, w < 4294967296) :
    (quick_load_light old old_count i s).1.vertex_count = vc
    ∧ (quick_load_light old old_count i s).1.vertices_plane_space
        = some (ws ++ List.replicate (4 * vc - ws.length) 0)
    ∧ (quick_load_light old old_count i s).1.texture_file_path
        = (if le_value PS ≠ 0 then some (PB.takeWhile (fun b => decide (b % 256 ≠ 0)))
           else none)
    ∧ (quick_load_light old old_count i s).2.stream = rest := by
  have h16 : ∀ R : List Nat, List.drop 16 (Z1 ++ (Z2 ++ R)) = R := by
    intro R
    rw [← List.append_assoc]
    exact List.drop_left' (by simp [hZ1, hZ2])
  have hp1 : pointer_from_file Z1 = none := by simp [pointer_from_file, hz1]
  have hp2 : pointer_from_file Z2 = none := by simp [pointer_from_file, hz2]
  have hlen : ws.length ≤ (words_bytes ws ++ rest).length / 4 := by
    rw [List.length_append, words_bytes_length]
    omega
  have hdropV : List.drop (4 * ws.length) (words_bytes ws ++ rest) = rest :=
    List.drop_left' (by rw [words_bytes_length])
  have hread : bytes_words ws.length (words_bytes ws ++ rest) = ws :=
    bytes_words_words_bytes ws rest hwords
  have hPBd : ∀ R : List Nat, List.drop (le_value PS) (PB ++ R) = R :=
    fun R => List.drop_left' hPB
  have hPBt : ∀ R : List Nat, List.take (le_value PS) (PB ++ R) = PB :=
    fun R => List.take_left' hPB
  have hstream : (if le_value PS ≠ 0
      then List.drop (le_value PS) (PB ++ (Z1 ++ (Z2 ++ (words_bytes ws ++ rest))))
      else PB ++ (Z1 ++ (Z2 ++ (words_bytes ws ++ rest))))
      = Z1 ++ (Z2 ++ (words_bytes ws ++ rest)) := by
    split_ifs with h0
    · exact hPBd _
    · have : PB = [] := List.length_eq_zero.mp (by rw [hPB]; exact not_not.mp h0)
      rw [this]; rfl
  unfold quick_load_light
  simp only [POLYGONAL_LIGHT_QUICKSAVE_SIZE, hs, List.take_left' hH, List.drop_left' hH,
    List.take_left' hPS, List.drop_left' hPS, hstream, List.take_left' hZ1,
    List.drop_left' hZ1, List.take_left' hZ2, h16, hp1, hp2, hvc, hPBt]
  have hmin : min ws.length (((words_bytes ws).length + rest.length) / 4) = ws.length := by
    rw [← List.length_append]
    exact Nat.min_eq_left hlen
  by_cases h0 : le_value PS = 0 <;>
    cases hf : float_le_zero ((bytes_words 20 H).getD 7 0) <;>
    simp [h0, hf, set_polygonal_light_vertex_count, unread_light, hws.symm, hmin, hread,
      hdropV]

theorem quick_load_light_saved (old : List polygonal_light_t) (old_count i : Nat)
    (s : quick_load_state) (light : polygonal_light_t) (rest : List Nat)
    (hwf : light_well_formed light = true)
    (hs : s.stream = quick_save_light light ++ rest) :
    saved_part (quick_load_light old old_count i s).1 = saved_part light
    ∧ (quick_load_light old old_count i s).2.stream = rest := by
  obtain ⟨head, vc, tt, path, plane, world⟩ := light
  simp only [light_well_formed, Bool.and_eq_true, decide_eq_true_eq] at hwf
  obtain ⟨⟨hvc4, hpath⟩, hplane⟩ := hwf
  cases plane with
  | none => simp at hplane
  | some ws =>
    simp only [Bool.and_eq_true, decide_eq_true_eq, List.all_eq_true] at hplane
    obtain ⟨hws, hwords⟩ := hplane
    have hmod : 4 * vc % 4294967296 = 4 * vc := Nat.mod_eq_of_lt hvc4
    have hH : (words_bytes (first_words head 20) ++ (le_bytes 4 vc ++ le_bytes 4 tt)).length
        = 88 := by
      simp [words_bytes_length, first_words_length, le_bytes_length]
    have hvc : le_value (List.take 4 (List.drop 80
        (words_bytes (first_words head 20) ++ (le_bytes 4 vc ++ le_bytes 4 tt)))) = vc := by
      rw [List.drop_left' (by simp [words_bytes_length, first_words_length]),
        List.take_left' (le_bytes_length 4 vc), le_value_le_bytes]
      exact Nat.mod_eq_of_lt (by norm_num; omega)
    have hfirst : first_words ws (4 * vc) = ws := by
      rw [← hws]; exact first_words_self ws
    cases path with
    | none =>
      have key := quick_load_light_stream old old_count i s
        (words_bytes (first_words head 20) ++ (le_bytes 4 vc ++ le_bytes 4 tt))
        (le_bytes 8 0) [] (le_bytes 8 0) (le_bytes 8 0) ws rest vc
        (by simp [hs, quick_save_light, hmod, hfirst, List.append_assoc])
        hH hvc rfl rfl rfl rfl rfl rfl (by rw [hmod]; exact hws)
        (fun w hw => by simpa using hwords w hw)
      obtain ⟨k1, k2, k3, k4⟩ := key
      rw [hws, Nat.sub_self, List.replicate_zero, List.append_nil] at k2
      refine ⟨?_, k4⟩
      simp only [saved_part, k1, k2, k3]
      rfl
    | some p =>
      simp only [Bool.and_eq_true, decide_eq_true_eq, List.all_eq_true] at hpath
      obtain ⟨hp, hplen⟩ := hpath
      have hsize : le_value (le_bytes 8 (p.length + 1)) = p.length + 1 := by
        rw [le_value_le_bytes]
        exact Nat.mod_eq_of_lt (by norm_num; omega)
      have key := quick_load_light_stream old old_count i s
        (words_bytes (first_words head 20) ++ (le_bytes 4 vc ++ le_bytes 4 tt))
        (le_bytes 8 (p.length + 1)) (p ++ [0]) (le_bytes 8 0) (le_bytes 8 0) ws rest vc
        (by simp [hs, quick_save_light, hmod, hfirst, List.append_assoc])
        hH hvc (le_bytes_length 8 _) (by rw [hsize]; simp) rfl rfl rfl rfl
        (by rw [hmod]; exact hws)
        (fun w hw => by simpa using hwords w hw)
      obtain ⟨k1, k2, k3, k4⟩ := key
      rw [hws, Nat.sub_self, List.replicate_zero, List.append_nil] at k2
      refine ⟨?_, k4⟩
      have hterm : (p ++ [0]).takeWhile (fun b => decide (b % 256 ≠ 0)) = p :=
        takeWhile_terminated p [] (fun b hb => hp b hb)
      simp only [saved_part, k1, k2, k3, hsize]
      rw [hterm, if_pos (Nat.succ_ne_zero _)]

theorem quick_load_lights_saved (old : List polygonal_light_t) (old_count : Nat)
    (lights : List polygonal_light_t) :
    ∀ (i : Nat) (s : quick_load_state) (rest : List Nat),
      lights.all light_well_formed = true →
      s.stream = quick_save_lights lights ++ rest →
      (quick_load_lights old old_count lights.length i s).1.map saved_part
          = lights.map saved_part
        ∧ (quick_load_lights old old_count lights.length i s).2.stream = rest := by
  induction lights with
  | nil =>
    intro i s rest _ hs
    exact ⟨rfl, by simpa [quick_load_lights, quick_save_lights] using hs⟩
  | cons light lights ih =>
    intro i s rest hwf hs
    simp only [List.all_cons, Bool.and_eq_true] at hwf
    have h1 := quick_load_light_saved old old_count i s light
      (quick_save_lights lights ++ rest) hwf.1
      (by rw [hs, quick_save_lights, List.append_assoc])
    have h2 := ih (i + 1) (quick_load_light old old_count i s).2 rest hwf.2 h1.2
    simp only [List.length_cons, quick_load_lights, List.map_cons, h1.1, h2.1, h2.2,
      and_self]

theorem quick_load_quick_save_saved (saved previous : scene_content_t)
    (updates : Option application_updates_t)
    (hwf : scene_well_formed saved = true)
    (hcamera : previous.camera.length = saved.camera.length) :
    (quick_load previous (quick_save saved true) updates).1.camera = saved.camera
    ∧ (quick_load previous (quick_save saved true) updates).1.polygonal_light_count
        = saved.polygonal_light_count
    ∧ (quick_load previous (quick_save saved true) updates).1.polygonal_lights.map saved_part
        = saved.polygonal_lights.map saved_part := by
  obtain ⟨camera, count, lights⟩ := saved
  simp only [scene_well_formed, Bool.and_eq_true, decide_eq_true_eq] at hwf
  obtain ⟨⟨hcount, hlt⟩, hlights⟩ := hwf
  simp only at hcount hcamera
  subst hcount
  have hfile : quick_save ⟨camera, lights.length, lights⟩ true
      = some (camera ++ (le_bytes 4 0 ++ (le_bytes 4 lights.length
          ++ (quick_save_lights lights ++ [])))) := by
    simp [quick_save, List.append_assoc]
  have hn : le_value (le_bytes 4 lights.length) = lights.length := by
    rw [le_value_le_bytes]
    exact Nat.mod_eq_of_lt (by norm_num; omega)
  have h4 : (le_bytes 4 0).length = 4 := rfl
  have h4n : (le_bytes 4 lights.length).length = 4 := le_bytes_length 4 _
  rw [hfile]
  simp only [quick_load, List.take_left' hcamera.symm, List.drop_left' hcamera.symm,
    List.drop_left' h4, List.take_left' h4n, List.drop_left' h4n, hn]
  refine ⟨?_, trivial, ?_⟩
  · simp [hcamera]
  · exact (quick_load_lights_saved previous.polygonal_lights previous.polygonal_light_count
      lights 0 _ [] hlights rfl).1

theorem quick_load_light_wrapped (old : List polygonal_light_t) (old_count i : Nat)
    (s : quick_load_state) (light : polygonal_light_t) (rest : List Nat) (n : Nat)
    (hvc : light.vertex_count < 4294967296)
    (hwrap : (4 * light.vertex_count) % 4294967296 = 0)
    (hn : 4 * light.vertex_count = n)
    (hpath : light.texture_file_path = none)
    (hs : s.stream = quick_save_light light ++ rest) :
    saved_part (quick_load_light old old_count i s).1
        = (light.vertex_count, some (List.replicate n 0), none)
    ∧ (quick_load_light old old_count i s).2.stream = rest := by
  obtain ⟨head, vc, tt, path, plane, world⟩ := light
  simp only at hvc hwrap hn hpath
  subst hpath
  have hH : (words_bytes (first_words head 20) ++ (le_bytes 4 vc ++ le_bytes 4 tt)).length
      = 88 := by
    simp [words_bytes_length, first_words_length, le_bytes_length]
  have hvcv : le_value (List.take 4 (List.drop 80
      (words_bytes (first_words head 20) ++ (le_bytes 4 vc ++ le_bytes 4 tt)))) = vc := by
    rw [List.drop_left' (by simp [words_bytes_length, first_words_length]),
      List.take_left' (le_bytes_length 4 vc), le_value_le_bytes]
    exact Nat.mod_eq_of_lt (by norm_num; omega)
  have key := quick_load_light_stream old old_count i s
    (words_bytes (first_words head 20) ++ (le_bytes 4 vc ++ le_bytes 4 tt))
    (le_bytes 8 0) [] (le_bytes 8 0) (le_bytes 8 0) [] rest vc
    (by simp [hs, quick_save_light, hwrap, first_words, words_bytes, List.append_assoc])
    hH hvcv rfl rfl rfl rfl rfl rfl (by rw [hwrap]; rfl)
    (fun w hw => by cases hw)
  obtain ⟨k1, k2, k3, k4⟩ := key
  rw [List.nil_append, List.length_nil, Nat.sub_zero, hn] at k2
  refine ⟨?_, k4⟩
  simp only [saved_part, k1, k2, k3]
  rfl

theorem quick_save_light_wrapped_length (light : polygonal_light_t)
    (hwrap : (4 * light.vertex_count) % 4294967296 = 0)
    (hpath : light.texture_file_path = none) :
    (quick_save_light light).length = 112 := by
  obtain ⟨head, vc, tt, path, plane, world⟩ := light
  simp only at hwrap hpath
  subst hpath
  simp [quick_save_light, hwrap, first_words, words_bytes, words_bytes_length,
    first_words_length, le_bytes_length]

theorem quick_save_single_light (light : polygonal_light_t) :
    quick_save (scene_with_lights [light]) true
      = some ([1, 2, 3, 4] ++ (le_bytes 4 0 ++ (le_bytes 4 1
          ++ (quick_save_light light ++ [])))) := by
  simp [quick_save, scene_with_lights, quick_save_lights, List.append_assoc]

theorem quick_load_single_light (previous : scene_content_t) (light : polygonal_light_t)
    (updates : Option application_updates_t)
    (hcamera : previous.camera.length = 4) :
    (quick_load previous (quick_save (scene_with_lights [light]) true) updates).1.polygonal_lights
      = [(quick_load_light previous.polygonal_lights previous.polygonal_light_count 0
          { stream := quick_save_light light ++ [], vertex_count_changed := false,
            textures_changed := false }).1] := by
  have hc : ([1, 2, 3, 4] : List Nat).length = previous.camera.length := by
    rw [hcamera]; rfl
  have h4 : (le_bytes 4 0).length = 4 := rfl
  have h4n : (le_bytes 4 1).length = 4 := rfl
  have hn : le_value (le_bytes 4 1) = 1 := rfl
  rw [quick_save_single_light]
  simp only [quick_load, List.take_left' hc, List.drop_left' hc,
    List.drop_left' h4, List.take_left' h4n, List.drop_left' h4n, hn, quick_load_lights]

/-- C15: for a light of 1073741824 vertices the count `4 * light->vertex_count`
that `quick_save` passes to `fwrite` and `quick_load` to `fread` is zero in
`uint32_t`, whereas `set_polygonal_light_vertex_count` computes the size of the
array in `size_t`. The file that `quick_save` writes for a scene with this
light has 124 bytes, the twelve bytes of the scene and the 112 bytes of the
light before its vertices, and `quick_load` of that file leaves the
4294967296 plane-space floats of the light zero, whereas the array saved
holds 1.0 everywhere: the round trip does not reproduce the vertex array.
Where `4 * vertex_count` fits `uint32_t` for every light the claim holds,
whatever scene was loaded before, for a call of `quick_load` that has an
updates structure or no previous lights (it writes to the updates structure
without testing it for `NULL` when the texture path of a previous light
changes). -/
theorem quick_save_wraps_vertex_count :
    (4 * wrapped_light.vertex_count) % 4294967296 = 0
    ∧ (quick_save (scene_with_lights [wrapped_light]) true).map List.length = some 124
    ∧ (quick_load (scene_with_lights [])
        (quick_save (scene_with_lights [wrapped_light]) true)
        (some no_updates)).1.polygonal_lights.map saved_part
      = [(1073741824, some (List.replicate 4294967296 0), none)]
    ∧ (scene_with_lights [wrapped_light]).polygonal_lights.map saved_part
      = [(1073741824, some (List.replicate 4294967296 1065353216), none)]
    ∧ (quick_load (scene_with_lights [])
        (quick_save (scene_with_lights [wrapped_light]) true)
        (some no_updates)).1.polygonal_lights.map saved_part
      ≠ (scene_with_lights [wrapped_light]).polygonal_lights.map saved_part
    ∧ ∀ (saved previous : scene_content_t) (updates : Option application_updates_t),
        scene_well_formed saved = true →
        previous.camera.length = saved.camera.length →
        updates.isSome = true ∨ previous.polygonal_light_count = 0 →
        (quick_load previous (quick_save saved true) updates).1.camera = saved.camera
        ∧ (quick_load previous (quick_save saved true) updates).1.polygonal_light_count
            = saved.polygonal_light_count
        ∧ (quick_load previous (quick_save saved true) updates).1.polygonal_lights.map
              saved_part
            = saved.polygonal_lights.map saved_part := by
  have hwrap : (4 * wrapped_light.vertex_count) % 4294967296 = 0 := by decide
  have hloaded : (quick_load (scene_with_lights [])
        (quick_save (scene_with_lights [wrapped_light]) true)
        (some no_updates)).1.polygonal_lights.map saved_part
      = [(1073741824, some (List.replicate 4294967296 0), none)] := by
    rw [quick_load_single_light (scene_with_lights []) wrapped_light (some no_updates) rfl,
      List.map_cons, List.map_nil,
      (quick_load_light_wrapped _ _ 0 _ wrapped_light [] 4294967296 (by decide) hwrap
        (by decide) rfl rfl).1]
    rfl
  have hsaved : (scene_with_lights [wrapped_light]).polygonal_lights.map saved_part
      = [(1073741824, some (List.replicate 4294967296 1065353216), none)] := rfl
  have hhead : ∀ a : Nat, List.replicate 4294967296 a = a :: List.replicate 4294967295 a :=
    fun a => @List.replicate_succ Nat a 4294967295
  refine ⟨hwrap, ?_, hloaded, hsaved, ?_, ?_⟩
  · rw [quick_save_single_light, Option.map_some']
    simp only [List.length_append, quick_save_light_wrapped_length wrapped_light hwrap rfl]
    rfl
  · rw [hloaded, hsaved, hhead 0, hhead 1065353216]
    intro h
    injection h with h _
    injection h with _ h
    injection h with h _
    injection h with h
    injection h with h _
    exact absurd h (by decide)
  · intro saved previous updates hwf hcamera _
    exact quick_load_quick_save_saved saved previous updates hwf hcamera

/-! ## The vertex count of a light and the flags of `quick_load` -/

/-- C19: `set_polygonal_light_vertex_count` returns zero on every call, also on
one that changes the vertex count of the light: the count member is assigned
before it is compared with the requested count. The light has the requested
count afterwards; the triangle asked for four vertices gets them and the call
returns zero. -/
theorem set_polygonal_light_vertex_count_returns_zero (light : polygonal_light_t)
    (vertex_count : Nat) :
    (set_polygonal_light_vertex_count light vertex_count).1 = 0
    ∧ (set_polygonal_light_vertex_count light vertex_count).2.vertex_count = vertex_count
    ∧ triangle_light.vertex_count = 3
    ∧ (set_polygonal_light_vertex_count triangle_light 4).2.vertex_count = 4
    ∧ (set_polygonal_light_vertex_count triangle_light 4).1 = 0 := by
  refine ⟨?_, ?_, rfl, by decide, by decide⟩
  · unfold set_polygonal_light_vertex_count
    split_ifs <;> simp
  · unfold set_polygonal_light_vertex_count
    by_cases h : vertex_count = light.vertex_count
        ∧ light.vertices_plane_space.isSome = true ∧ light.vertices_world_space.isSome = true
    · rw [if_pos h]
      exact h.1.symm
    · rw [if_neg h]

/-- C20: `quick_load` leaves the light-texture flag unset when the file gives
a texture to a light that had none and when it takes the texture of a light
away; it sets the flag when the file names another texture for a textured
light. The light-count flag is unset in the three loads, in which the number
of lights and their vertex counts stay the same. -/
theorem quick_load_misses_added_and_removed_textures :
    (quick_load (scene_with_lights [triangle_light])
        (quick_save (scene_with_lights [textured_triangle_light]) true) (some no_updates)).2
      = some no_updates
    ∧ (quick_load (scene_with_lights [textured_triangle_light])
        (quick_save (scene_with_lights [triangle_light]) true) (some no_updates)).2
      = some no_updates
    ∧ (quick_load (scene_with_lights [textured_triangle_light])
        (quick_save (scene_with_lights
          [{ textured_triangle_light with texture_file_path := some [98] }]) true)
        (some no_updates)).2
      = some { no_updates with update_light_textures := true } := by
  decide

/-! ## The frame timer -/

theorem record_frame_time_index (timer : frame_timer_t) (result : Int) (time : Nat)
    (h : timer.g_recorded_time_index < FRAME_TIME_COUNT) :
    (record_frame_time timer result time).g_recorded_time_index < FRAME_TIME_COUNT := by
  unfold record_frame_time
  simp only [FRAME_TIME_COUNT] at h ⊢
  split_ifs <;> (try dsimp only) <;> omega

theorem frame_time_slots_perm (index : Nat) (h : index < 100) :
    ((List.range 99).map (fun i => ((index + 100 - i) % 4294967296) % 100)).Perm
      ((List.range 100).filter (fun slot => decide (slot ≠ (index + 1) % 100))) := by
  have hmod : ∀ i : Nat, (index + 100 - i) % 4294967296 = index + 100 - i :=
    fun i => Nat.mod_eq_of_lt (by omega)
  simp only [hmod]
  rw [List.perm_ext_iff_of_nodup]
  · intro a
    simp only [List.mem_map, List.mem_range, List.mem_filter, decide_eq_true_eq]
    constructor
    · rintro ⟨i, hi, rfl⟩
      omega
    · rintro ⟨ha, hne⟩
      refine ⟨(index + 100 - a) % 100, ?_, ?_⟩ <;> omega
  · apply List.Nodup.map_on _ (List.nodup_range 99)
    intro x hx y hy hxy
    simp only [List.mem_range] at hx hy
    omega
  · exact (List.nodup_range 100).filter _

theorem listed_frame_times_perm (timer : frame_timer_t)
    (h : timer.g_recorded_time_index < FRAME_TIME_COUNT) :
    (listed_frame_times timer).Perm (valid_entries timer) := by
  unfold listed_frame_times valid_entries
  apply List.Perm.map
  apply List.Perm.filter
  have hmap : (List.range (FRAME_TIME_COUNT - 1)).map
      (fun i => timer.g_recorded_times.getD (frame_time_slot timer i) 0)
      = ((List.range 99).map
          (fun i => ((timer.g_recorded_time_index + 100 - i) % 4294967296) % 100)).map
          (fun slot => timer.g_recorded_times.getD slot 0) := by
    rw [List.map_map]
    rfl
  rw [hmap]
  exact (frame_time_slots_perm timer.g_recorded_time_index h).map _

theorem float_order_key_injective (a b : Nat) (h : float_order_key a = float_order_key b) :
    a = b := by
  unfold float_order_key at h
  split_ifs at h <;> omega

theorem float_order_total :
    IsTotal Nat (fun a b => float_order_key a ≤ float_order_key b) :=
  ⟨fun a b => Nat.le_total (float_order_key a) (float_order_key b)⟩

theorem float_order_trans :
    IsTrans Nat (fun a b => float_order_key a ≤ float_order_key b) :=
  ⟨fun _ _ _ h1 h2 => Nat.le_trans h1 h2⟩

theorem float_order_antisymm :
    IsAntisymm Nat (fun a b => float_order_key a ≤ float_order_key b) :=
  ⟨fun a b h1 h2 => float_order_key_injective a b (Nat.le_antisymm h1 h2)⟩

theorem sorted_getD_counts (key : Nat → Nat) (values : List Nat) :
    ∀ k : Nat, List.Sorted (fun a b => key a ≤ key b) values → k < values.length →
      values.getD k 0 ∈ values
      ∧ k + 1 ≤ (values.filter (fun v => decide (key v ≤ key (values.getD k 0)))).length
      ∧ values.length - k
          ≤ (values.filter (fun v => decide (key (values.getD k 0) ≤ key v))).length := by
  induction values with
  | nil => intro k _ hk; simp at hk
  | cons a values ih =>
    intro k hsorted hk
    rw [List.sorted_cons] at hsorted
    cases k with
    | zero =>
      refine ⟨by simp, by simp, ?_⟩
      have hall : (a :: values).filter (fun v => decide (key ((a :: values).getD 0 0) ≤ key v))
          = a :: values := by
        rw [List.filter_eq_self]
        intro b hb
        rcases List.mem_cons.mp hb with rfl | hb
        · simp
        · simpa using hsorted.1 b hb
      rw [hall]
      simp
    | succ k =>
      have hk2 : k < values.length := by simpa using hk
      obtain ⟨hmem, hle, hge⟩ := ih k hsorted.2 hk2
      have hget : (a :: values).getD (k + 1) 0 = values.getD k 0 := rfl
      rw [hget]
      have ha : key a ≤ key (values.getD k 0) := hsorted.1 _ hmem
      refine ⟨List.mem_cons_of_mem _ hmem, ?_, ?_⟩
      · rw [List.filter_cons_of_pos (by simpa using ha)]
        simp only [List.length_cons]
        omega
      · have := List.Sublist.length_le
          ((List.sublist_cons_self a values).filter
            (fun v => decide (key (values.getD k 0) ≤ key v)))
        simp only [List.length_cons]
        omega

theorem is_median_perm (median : Nat) (values others : List Nat) (h : values.Perm others)
    (hm : is_median median values = true) : is_median median others = true := by
  simp only [is_median, Bool.and_eq_true, decide_eq_true_eq] at hm ⊢
  rw [← h.length_eq, ← (h.filter _).length_eq, ← (h.filter _).length_eq]
  exact ⟨⟨h.mem_iff.mp hm.1.1, hm.1.2⟩, hm.2⟩

set_option maxRecDepth 100000 in
/-- C16: with `get_last = 0`, `get_frame_time` returns 0 when no slot other
than the one after the most recently written entry holds a valid (non-zero)
time; otherwise it returns a median of the valid times in these slots, as
floats, namely entry `n / 2` of the `n` valid times in ascending order. For the
timer that has recorded the 99 times 10, 20, ..., 990 milliseconds since the
program started, whose slot 99 is empty, it returns the float `0x3F000000`,
which is 0.5 seconds, the value of slot 49 without change. -/
theorem get_frame_time_median (timer : frame_timer_t)
    (hindex : timer.g_recorded_time_index < FRAME_TIME_COUNT) :
    (valid_entries timer = [] → get_frame_time timer 0 = 0)
    ∧ (valid_entries timer ≠ [] →
        is_median (get_frame_time timer 0) (valid_entries timer) = true)
    ∧ get_frame_time timer 0
        = ((valid_entries timer).insertionSort
            (fun a b => float_order_key a ≤ float_order_key b)).getD
            ((valid_entries timer).length / 2) 0
    ∧ (valid_entries sample_frame_timer).length = 99
    ∧ get_frame_time sample_frame_timer 0 = 1056964608
    ∧ float_to_double (get_frame_time sample_frame_timer 0)
        = sample_frame_timer.g_recorded_times.getD 49 0
    ∧ sample_frame_timer.g_recorded_times.getD 49 0 = 4602678819172646912 := by
  haveI := float_order_total
  haveI := float_order_trans
  haveI := float_order_antisymm
  have hperm := listed_frame_times_perm timer hindex
  have hsort := List.perm_insertionSort
    (fun a b : Nat => float_order_key a ≤ float_order_key b) (listed_frame_times timer)
  have hsorted := List.sorted_insertionSort
    (fun a b : Nat => float_order_key a ≤ float_order_key b) (listed_frame_times timer)
  have heq : (listed_frame_times timer).insertionSort
        (fun a b => float_order_key a ≤ float_order_key b)
      = (valid_entries timer).insertionSort
        (fun a b => float_order_key a ≤ float_order_key b) :=
    List.eq_of_perm_of_sorted
      (hsort.trans (hperm.trans (List.perm_insertionSort _ (valid_entries timer)).symm))
      hsorted (List.sorted_insertionSort _ (valid_entries timer))
  have hvalue : get_frame_time timer 0
      = ((valid_entries timer).insertionSort
          (fun a b => float_order_key a ≤ float_order_key b)).getD
          ((valid_entries timer).length / 2) 0 := by
    unfold get_frame_time
    simp only [ne_eq, not_true_eq_false, if_false, heq, hperm.length_eq]
    split_ifs with h0
    · rw [List.length_eq_zero.mp h0]
      rfl
    · rfl
  refine ⟨?_, ?_, hvalue, by decide, by decide, by decide, by decide⟩
  · intro hnone
    rw [hvalue, hnone]
    rfl
  · intro hsome
    rw [hvalue]
    have hlen : ((valid_entries timer).insertionSort
          (fun a b => float_order_key a ≤ float_order_key b)).length
        = (valid_entries timer).length :=
      (List.perm_insertionSort _ (valid_entries timer)).length_eq
    have hpos : 0 < (valid_entries timer).length := List.length_pos.mpr hsome
    obtain ⟨hmem, hle, hge⟩ := sorted_getD_counts float_order_key
      ((valid_entries timer).insertionSort
        (fun a b => float_order_key a ≤ float_order_key b))
      ((valid_entries timer).length / 2)
      (List.sorted_insertionSort _ (valid_entries timer))
      (by rw [hlen]; omega)
    apply is_median_perm _ _ _ (List.perm_insertionSort
      (fun a b : Nat => float_order_key a ≤ float_order_key b) (valid_entries timer))
    simp only [is_median, Bool.and_eq_true, decide_eq_true_eq]
    rw [hlen] at hge ⊢
    exact ⟨⟨hmem, by omega⟩, by omega⟩

set_option maxRecDepth 100000 in
/-- Witness for C16: the timer after 99 records. -/
theorem get_frame_time_median_witness :
    sample_frame_timer.g_recorded_time_index < FRAME_TIME_COUNT
    ∧ is_median (get_frame_time sample_frame_timer 0) (valid_entries sample_frame_timer)
        = true :=
  ⟨by decide, (get_frame_time_median sample_frame_timer (by decide)).2.1 (by decide)⟩

theorem fence_monitor_append (first second : List Event) :
    ∀ pending : List Nat, fence_monitor pending (first ++ second)
      = (fence_monitor pending first).bind (fun p => fence_monitor p second) := by
  induction first with
  | nil => intro pending; rfl
  | cons e first ih =>
    intro pending
    cases e <;> simp only [List.cons_append, fence_monitor, List.append_eq, ih]
    split_ifs <;> rfl

theorem fence_monitor_timeouts (k n : Nat) (pending : List Nat) :
    fence_monitor pending (List.replicate n (Event.wait_for_fence k VK_TIMEOUT))
      = some pending := by
  induction n with
  | zero => rfl
  | succ n ih =>
    simp only [List.replicate_succ, fence_monitor, VK_TIMEOUT]
    exact ih

theorem set_used_getD (workloads : List frame_workload_t) (i k : Nat) :
    ((workloads.set i { used := true }).getD k { used := false }).used
      = (if k = i ∧ i < workloads.length then true
         else (workloads.getD k { used := false }).used) := by
  simp only [List.getD_eq_getElem?_getD, List.getElem?_set]
  by_cases hki : i = k
  · subst hki
    by_cases hlt : i < workloads.length
    · simp [hlt]
    · simp [hlt, List.getElem?_eq_none (Nat.le_of_not_lt hlt)]
  · have : ¬ (k = i ∧ i < workloads.length) := fun h => hki h.1.symm
    simp [hki, this]

theorem submit_frame_fence (app : application_t) (o : render_outcomes) (pending : List Nat)
    (hindex : o.swapchain_index < app.frame_queue.workloads.length)
    (hused : ∀ k ∈ pending, workload_used app k = true) :
    ∃ after, fence_monitor pending (submit_frame app o).2.2 = some after
      ∧ ∀ k ∈ after, workload_used (submit_frame app o).2.1 k = true := by
  unfold submit_frame
  simp only [workload_used] at hused ⊢
  have hnot : (app.frame_queue.workloads.getD o.swapchain_index { used := false }).used = false
      → o.swapchain_index ∉ pending := by
    intro h hm
    have := hused _ hm
    rw [h] at this
    cases this
  have hfilter : ∀ k ∈ pending.filter (fun j => decide (j ≠ o.swapchain_index)),
      (app.frame_queue.workloads.getD k { used := false }).used = true :=
    fun k hk => hused k (List.mem_filter.mp hk).1
  cases hw : (app.frame_queue.workloads.getD o.swapchain_index { used := false }).used
  · have hn := hnot hw
    simp only [hw, Bool.false_eq_true, false_and, if_false]
    split_ifs <;> simp_all [fence_monitor] <;>
      (intro k hk
       have hne : o.swapchain_index ≠ k := fun h => hn (h ▸ hk)
       rw [List.getElem?_set_ne hne]
       exact hused k hk)

  · simp only [true_and, if_true, List.append_assoc, List.cons_append, List.nil_append,
      List.singleton_append]
    split_ifs <;>
      simp_all [fence_monitor, fence_monitor_append, fence_monitor_timeouts] <;>
      (intro k hk hne
       rw [List.getElem?_set_ne (fun h => hne h.symm)]
       exact hused k hk)


theorem render_frame_after_submit (app : application_t) (o : render_outcomes) :
    (render_frame app o).ret = (if (submit_frame app o).1 = true then 0 else 1)
    ∧ (render_frame app o).app.frame_queue.workloads
        = (submit_frame app o).2.1.frame_queue.workloads
    ∧ (render_frame app o).trace = (submit_frame app o).2.2 ++
        (if (submit_frame app o).1 = true then
          [Event.record_frame_time o.swapchain_index (submit_frame app o).2.1.accum_num
             (submit_frame app o).2.1.timings,
           Event.present o.swapchain_index o.present_result]
         else []) := by
  unfold render_frame
  simp only []
  generalize submit_frame app o = s
  obtain ⟨ok, a, t⟩ := s
  cases ok
  · simp
  · simp only [if_true, present_frame]
    refine ⟨by simp, ?_, by simp⟩
    split_ifs <;> rfl

theorem submit_frame_fence_failure (app : application_t) (o : render_outcomes)
    (hw : workload_used app o.swapchain_index = true) (hfence : o.fence_result ≠ 0) :
    (submit_frame app o).1 = false
    ∧ ∀ e ∈ (submit_frame app o).2.2, is_record_commands e = false := by
  unfold submit_frame
  simp only [workload_used] at hw
  simp only [hw, true_and, if_true, hfence, ne_eq, not_false_eq_true]
  split_ifs
  · simp [is_record_commands]
    rintro e (⟨_, rfl⟩ | rfl) <;> rfl
  · simp [is_record_commands]

theorem submit_frame_unused (app : application_t) (o : render_outcomes)
    (hw : workload_used app o.swapchain_index = false) :
    ∀ e ∈ (submit_frame app o).2.2, is_wait_for_fence e = false := by
  unfold submit_frame
  simp only [workload_used] at hw
  simp only [hw, Bool.false_eq_true, false_and, if_false]
  split_ifs <;> simp [is_wait_for_fence]

theorem submit_frame_waits (app : application_t) (o : render_outcomes)
    (hw : workload_used app o.swapchain_index = true) (hacquire : o.acquire_result = 0) :
    ∃ rest, (submit_frame app o).2.2 = Event.acquire 0 o.swapchain_index ::
      (List.replicate o.fence_timeouts (Event.wait_for_fence o.swapchain_index VK_TIMEOUT)
        ++ Event.wait_for_fence o.swapchain_index o.fence_result :: rest) := by
  unfold submit_frame
  simp only [workload_used] at hw
  simp only [hw, true_and, if_true, hacquire, ne_eq, not_true_eq_false, if_false,
    List.append_assoc, List.cons_append, List.nil_append, List.singleton_append]
  split_ifs <;> exact ⟨_, rfl⟩

/-- C17: in a call of `render_frame`, the commands of a workload that is
pending (submitted, and its fence not waited for with success since) are never
recorded: when every pending workload is marked as used before the call, the
trace of the call passes the fence monitor and every workload pending
afterwards is marked as used. For a workload marked as used, the call waits
for its fence, again after each `VK_TIMEOUT`, and any final result other than
`VK_SUCCESS` makes the call return 1 without recording commands. Only for a
workload not marked as used are there no waits. -/
theorem render_frame_records_after_fence (app : application_t) (o : render_outcomes)
    (pending : List Nat)
    (hindex : o.swapchain_index < app.frame_queue.workloads.length)
    (hused : ∀ k ∈ pending, workload_used app k = true) :
    (∃ after, fence_monitor pending (render_frame app o).trace = some after
      ∧ ∀ k ∈ after, workload_used (render_frame app o).app k = true)
    ∧ (workload_used app o.swapchain_index = true → o.fence_result ≠ 0 →
        (render_frame app o).ret = 1
        ∧ ∀ e ∈ (render_frame app o).trace, is_record_commands e = false)
    ∧ (workload_used app o.swapchain_index = true → o.acquire_result = 0 →
        ∃ rest, (render_frame app o).trace = Event.acquire 0 o.swapchain_index ::
          (List.replicate o.fence_timeouts
              (Event.wait_for_fence o.swapchain_index VK_TIMEOUT)
            ++ Event.wait_for_fence o.swapchain_index o.fence_result :: rest))
    ∧ (workload_used app o.swapchain_index = false →
        ∀ e ∈ (render_frame app o).trace, is_wait_for_fence e = false) := by
  obtain ⟨hret, hworkloads, htrace⟩ := render_frame_after_submit app o
  refine ⟨?_, ?_, ?_, ?_⟩
  · obtain ⟨after, hafter, hmarked⟩ := submit_frame_fence app o pending hindex hused
    refine ⟨after, ?_, ?_⟩
    · rw [htrace, fence_monitor_append, hafter]
      split_ifs <;> rfl
    · intro k hk
      have := hmarked k hk
      simp only [workload_used] at this ⊢
      rw [hworkloads]
      exact this
  · intro hw hfence
    obtain ⟨hfail, hnone⟩ := submit_frame_fence_failure app o hw hfence
    rw [hret, htrace, hfail]
    exact ⟨rfl, by simpa using hnone⟩
  · intro hw hacquire
    obtain ⟨rest, hrest⟩ := submit_frame_waits app o hw hacquire
    rw [htrace, hrest]
    refine ⟨rest ++ (if (submit_frame app o).1 = true then
      [Event.record_frame_time o.swapchain_index (submit_frame app o).2.1.accum_num
        (submit_frame app o).2.1.timings,
       Event.present o.swapchain_index o.present_result] else []), ?_⟩
    simp only [List.cons_append, List.append_assoc]
  · intro hw e he
    rw [htrace, List.mem_append] at he
    rcases he with he | he
    · exact submit_frame_unused app o hw e he
    · split_ifs at he
      · simp only [List.mem_cons, List.not_mem_nil, or_false] at he
        rcases he with rfl | rfl <;> rfl
      · cases he

/-- Witness for C17: a second frame on the swapchain image of the first. -/
theorem render_frame_records_after_fence_witness :
    ∃ after, fence_monitor [1] (render_frame used_workload_app sample_render_outcomes).trace
        = some after
      ∧ ∀ k ∈ after,
          workload_used (render_frame used_workload_app sample_render_outcomes).app k = true :=
  (render_frame_records_after_fence used_workload_app sample_render_outcomes [1]
    (by decide) (by decide)).1

/-! ## Presentation failures -/

theorem cleanup_experiment_updates (c : experiment_context) (b : Bool) :
    (cleanup_experiment c b).2.updates = c.updates := by
  unfold cleanup_experiment
  simp only []
  split_ifs <;> rfl

theorem request_experiment_screenshot_updates (c : experiment_context) :
    (request_experiment_screenshot c).updates = c.updates := by
  unfold request_experiment_screenshot
  cases c.list.experiment with
  | none => rfl
  | some index =>
    simp only []
    split_ifs <;> rfl

theorem advance_running_experiment_updates (c : experiment_context) :
    (advance_running_experiment c).updates = c.updates := by
  have r := request_experiment_screenshot_updates c
  unfold advance_running_experiment
  simp only []
  split_ifs
  all_goals first
    | rfl
    | exact cleanup_experiment_updates c _
    | exact r

theorem setup_experiment_recreate (c : experiment_context) (t : Bool)
    (h : c.updates.recreate_swapchain = true) :
    (setup_experiment c t).updates.recreate_swapchain = true := by
  unfold setup_experiment
  simp only []
  split_ifs <;> first | rfl | exact h

theorem advance_experiments_recreate (c : experiment_context) (t : Bool)
    (h : c.updates.recreate_swapchain = true) :
    (advance_experiments c t).2.updates.recreate_swapchain = true := by
  unfold advance_experiments
  split_ifs
  · exact h
  · exact h
  · rw [advance_running_experiment_updates]
    exact setup_experiment_recreate c t h
  · rw [advance_running_experiment_updates]
    exact h

theorem apply_keys_recreate (app : application_t) (updates : application_updates_t)
    (i : frame_inputs) :
    (apply_keys app updates i).1.frame_queue.recreate_swapchain = false
    ∧ (app.frame_queue.recreate_swapchain = true →
        (apply_keys app updates i).2.1.recreate_swapchain = true) := by
  unfold apply_keys
  simp only []
  refine ⟨?_, fun h => ?_⟩
  · split_ifs <;> first
      | rfl
      | exact (Bool.not_eq_true _).mp (by assumption)
  · split_ifs <;> rfl

theorem update_application_resizes (app : application_t) (update : application_updates_t)
    (reset : Bool) (o : update_outcomes) (h : update.recreate_swapchain = true) :
    Event.resize_swapchain o.swapchain_result ∈ (update_application app update reset o).trace := by
  have hresized : (resized_update app update).recreate_swapchain = true := by
    unfold resized_update
    split_ifs
    · rfl
    · exact h
  have hnothing : nothing_to_update (resized_update app update) = false := by
    simp [nothing_to_update, hresized]
  have hflag : ∀ u : application_updates_t, u.recreate_swapchain = true →
      (propagate max_dependency_path_length (seed_flags u)).swapchain = true := by
    intro u hu
    rw [propagate_cap_eq_round]
    simp [propagate_round, seed_flags, hu]
  have hload : (quick_load_updates (resized_update app update) o).recreate_swapchain = true := by
    unfold quick_load_updates
    simp only []
    split_ifs <;> exact hresized
  unfold update_application
  simp only [hnothing, Bool.false_eq_true, if_false]
  split_ifs
  · have hf := hflag _ hload
    unfold rebuild_flagged rebuild_everything_else
    simp only [hf, if_true]
    split_ifs <;> simp
  · have hf := hflag _ hresized
    unfold rebuild_flagged rebuild_everything_else
    simp only [hf, if_true]
    split_ifs <;> simp

theorem update_application_recreate_flag (app : application_t)
    (update : application_updates_t) (reset : Bool) (o : update_outcomes)
    (h : app.frame_queue.recreate_swapchain = false) :
    (update_application app update reset o).app.frame_queue.recreate_swapchain = false := by
  unfold update_application
  simp only []
  split_ifs
  · exact h
  all_goals
    unfold rebuild_flagged rebuild_everything_else
    simp only []
    split_ifs <;> first | exact h | rfl

theorem present_frame_recreate (app : application_t) (o : render_outcomes)
    (trace : List Event) :
    (present_frame app o trace).ret = 0
    ∧ (present_frame app o trace).app.frame_queue.recreate_swapchain
        = (if o.present_result ≠ 0 then true else app.frame_queue.recreate_swapchain) := by
  unfold present_frame
  refine ⟨rfl, ?_⟩
  simp only []
  split_ifs <;> rfl

theorem submit_frame_recreate (app : application_t) (o : render_outcomes) :
    (submit_frame app o).2.1.frame_queue.recreate_swapchain
      = app.frame_queue.recreate_swapchain := by
  unfold submit_frame
  simp only []
  split_ifs <;> rfl

/-- Counterexample for C18: after a frame whose presentation has failed, a
`handle_frame_input` call in which Escape is pressed returns 1 and leaves the
flag of the frame queue set. -/
theorem escape_leaves_recreate_flag :
    failed_present_app.frame_queue.recreate_swapchain = true
    ∧ (handle_frame_input failed_present_app
        { idle_frame_inputs with key_escape := true }).ret = 1
    ∧ (handle_frame_input failed_present_app
        { idle_frame_inputs with key_escape := true }).app.frame_queue.recreate_swapchain
      = true := by
  decide

/-- C18, amended: a `render_frame` call that gets to the presentation returns
0 whatever `vkQueuePresentKHR` returns; it sets `recreate_swapchain` of the
frame queue when the presentation fails and leaves the flag as it is
otherwise. When the flag is set, a `handle_frame_input` call in which Escape
is not pressed clears it and sets `recreate_swapchain` in its update request,
so that its `update_application` call (if it gets there) calls
`create_or_resize_swapchain`. A call in which Escape is pressed returns 1 and
leaves the flag as it is. -/
theorem present_failure_requests_swapchain (app : application_t) (o : render_outcomes)
    (i : frame_inputs) :
    ((submit_frame app o).1 = true →
      (render_frame app o).ret = 0
      ∧ (render_frame app o).app.frame_queue.recreate_swapchain
          = (if o.present_result ≠ 0 then true else app.frame_queue.recreate_swapchain))
    ∧ (app.frame_queue.recreate_swapchain = true → i.key_escape = false →
        (handle_frame_input app i).app.frame_queue.recreate_swapchain = false
        ∧ (frame_update_request app i).recreate_swapchain = true
        ∧ ∀ u, (handle_frame_input app i).update = some u →
            Event.resize_swapchain i.update.swapchain_result ∈ u.trace)
    ∧ (i.key_escape = true →
        (handle_frame_input app i).ret = 1
        ∧ (handle_frame_input app i).app.frame_queue.recreate_swapchain
            = app.frame_queue.recreate_swapchain) := by
  refine ⟨fun hs => ?_, fun hflag hesc => ?_, fun hesc => ?_⟩
  · obtain ⟨p1, p2⟩ := present_frame_recreate (submit_frame app o).2.1 o (submit_frame app o).2.2
    unfold render_frame
    simp only [hs, if_true]
    exact ⟨p1, by rw [p2, submit_frame_recreate]⟩
  · obtain ⟨k1, k2⟩ := apply_keys_recreate (apply_interface app i.interface)
      (interface_updates i.interface) i
    have k2' : (apply_keys (apply_interface app i.interface)
        (interface_updates i.interface) i).2.1.recreate_swapchain = true := k2 hflag
    have hreq : (frame_update_request app i).recreate_swapchain = true := by
      unfold frame_update_request
      exact advance_experiments_recreate _ _ k2'
    have hreq' : (advance_experiments (experiment_context_of
        (apply_keys (apply_interface app i.interface) (interface_updates i.interface) i).1
        (apply_keys (apply_interface app i.interface) (interface_updates i.interface) i).2.1
        (apply_keys (apply_interface app i.interface) (interface_updates i.interface) i).2.2)
        i.timings_opens).2.updates.recreate_swapchain = true := hreq
    refine ⟨?_, hreq, ?_⟩
    · unfold handle_frame_input
      simp only [hesc, Bool.false_eq_true, if_false]
      split_ifs
      · exact k1
      · exact update_application_recreate_flag _ _ _ _ k1
      · exact update_application_recreate_flag _ _ _ _ k1
      · exact update_application_recreate_flag _ _ _ _ k1
    · intro u hu
      unfold handle_frame_input at hu
      simp only [hesc, Bool.false_eq_true, if_false] at hu
      split_ifs at hu
      all_goals
        cases hu
        exact update_application_resizes _ _ _ _ hreq'
  · unfold handle_frame_input
    simp only [hesc, if_true]
    first
      | exact ⟨rfl, rfl⟩
      | exact ⟨trivial, rfl⟩

/-! ## Teardown order, shading-pass flag and ring index -/

/-- C23: the `destroy_*` calls of `update_application` come in the exact
reverse of the order of its create calls over the thirteen resources that both
sequences cover, for every set of flags; so of two resources the one created
later is destroyed earlier. -/
theorem teardown_reverses_rebuild :
    teardown_order = rebuild_order.reverse
    ∧ rebuild_order.length = 13
    ∧ rebuild_order.Nodup
    ∧ (∀ f : resource_flags,
        teardown f = ((rebuild_order.filter f.get).reverse).map Event.destroy)
    ∧ ∀ a b : Resource, a ∈ rebuild_order → b ∈ rebuild_order →
        rebuild_order.indexOf a < rebuild_order.indexOf b →
        teardown_order.indexOf b < teardown_order.indexOf a := by
  refine ⟨by decide, by decide, by decide, ?_, ?_⟩
  · intro f
    have h : teardown_order = rebuild_order.reverse := by decide
    unfold teardown
    rw [h, List.filter_reverse]
  · intro a b
    cases a <;> cases b <;> decide

/-- C24: for every request, the shading-pass flag after the propagation loop
is set if and only if the request seeds it (startup, changed shading, reloaded
shaders) or one of the flags of swapchain, LTC table, scene, render targets,
constant buffers, light buffers, light textures and geometry pass is set
after the loop. The flags of interface pass and frame queue, which the loop
also reads for the shading pass, are never set without one of these. -/
theorem shading_pass_flag_after_propagation (update : application_updates_t) :
    (propagate max_dependency_path_length (seed_flags update)).shading_pass
      = (update.startup || update.change_shading || update.reload_shaders
        || (propagate max_dependency_path_length (seed_flags update)).swapchain
        || (propagate max_dependency_path_length (seed_flags update)).ltc_table
        || (propagate max_dependency_path_length (seed_flags update)).scene
        || (propagate max_dependency_path_length (seed_flags update)).render_targets
        || (propagate max_dependency_path_length (seed_flags update)).constant_buffers
        || (propagate max_dependency_path_length (seed_flags update)).light_buffers
        || (propagate max_dependency_path_length (seed_flags update)).light_textures
        || (propagate max_dependency_path_length (seed_flags update)).geometry_pass)
    ∧ ((propagate max_dependency_path_length (seed_flags update)).interface_pass
        || (propagate max_dependency_path_length (seed_flags update)).frame_queue)
      = (update.startup || update.reload_shaders
        || (propagate max_dependency_path_length (seed_flags update)).swapchain
        || (propagate max_dependency_path_length (seed_flags update)).render_targets) := by
  rw [propagate_cap_eq_round]
  simp only [propagate_round, seed_flags]
  cases update.startup <;> cases update.recreate_swapchain <;> cases update.reload_shaders
    <;> cases update.update_light_count <;> cases update.update_light_textures
    <;> cases update.reload_scene <;> cases update.change_shading <;> exact ⟨rfl, rfl⟩

theorem record_frame_time_success (timer : frame_timer_t) (time : Nat)
    (hindex : timer.g_recorded_time_index < 100) :
    record_frame_time timer 0 time
      = { g_recorded_times := timer.g_recorded_times.set
            ((timer.g_recorded_time_index + 1) % 100) time,
          g_recorded_time_index := (timer.g_recorded_time_index + 1) % 100 } := by
  unfold record_frame_time
  simp only [VK_NOT_READY, FRAME_TIME_COUNT]
  have h1 : (timer.g_recorded_time_index + 1) % 4294967296
      = timer.g_recorded_time_index + 1 := Nat.mod_eq_of_lt (by omega)
  rw [h1]
  by_cases h99 : timer.g_recorded_time_index + 1 ≥ 100
  · have h2 : timer.g_recorded_time_index = 99 := by omega
    simp [h2]
  · have h2 : (timer.g_recorded_time_index + 1) % 100 = timer.g_recorded_time_index + 1 :=
      Nat.mod_eq_of_lt (by omega)
    simp [h99, h2]

theorem record_frame_time_after_reset (timer : frame_timer_t) (time : Nat) :
    (record_frame_time (reset_timer_buffer timer) 0 time).g_recorded_time_index = 0 := by
  have h : (reset_timer_buffer timer).g_recorded_time_index < 100 := by
    show FRAME_TIME_COUNT - 1 < 100
    decide
  rw [record_frame_time_success (reset_timer_buffer timer) time h]
  norm_num [reset_timer_buffer, FRAME_TIME_COUNT]

theorem record_frame_time_failure (timer : frame_timer_t) (time : Nat) (result : Int)
    (hresult : result ≠ 0) : record_frame_time timer result time = timer := by
  unfold record_frame_time
  simp [hresult]

theorem get_frame_time_last (timer : frame_timer_t) (time get_last : Nat)
    (hindex : timer.g_recorded_time_index < 100)
    (hlength : timer.g_recorded_times.length = 100) (hlast : get_last ≠ 0) :
    get_frame_time (record_frame_time timer 0 time) get_last = double_to_float time := by
  rw [record_frame_time_success timer time hindex]
  unfold get_frame_time
  simp only [hlast, ne_eq, not_false_eq_true, if_true, FRAME_TIME_COUNT, Nat.mod_mod]
  rw [List.getD_eq_getElem?_getD, List.getElem?_set_eq_of_lt]
  · rfl
  · rw [hlength]
    exact Nat.mod_lt _ (by decide)

theorem double_to_float_float_to_double (value : Nat) (hvalue : value < 4294967296)
    (hlow : 1 ≤ (value / 8388608) % 256) (hhigh : (value / 8388608) % 256 ≤ 254) :
    double_to_float (float_to_double value) = value := by
  have hd : float_to_double value
      = (value / 2147483648) % 2 * 9223372036854775808
        + (((value / 8388608) % 256 + 896) * 4503599627370496
          + (value % 8388608) * 536870912) := by
    unfold float_to_double
    simp only []
    rw [if_neg (by omega), if_neg (by omega)]
  rw [hd]
  generalize hs : (value / 2147483648) % 2 = s
  generalize he : (value / 8388608) % 256 = e at hlow hhigh
  generalize hf : value % 8388608 = f
  have hs2 : s < 2 := by omega
  have hf2 : f < 8388608 := by omega
  have hv : value = s * 2147483648 + e * 8388608 + f := by omega
  have h1 : (s * 9223372036854775808 + ((e + 896) * 4503599627370496 + f * 536870912))
      / 9223372036854775808 % 2 = s := by omega
  have h2 : (s * 9223372036854775808 + ((e + 896) * 4503599627370496 + f * 536870912))
      / 4503599627370496 % 2048 = e + 896 := by omega
  have h3 : (s * 9223372036854775808 + ((e + 896) * 4503599627370496 + f * 536870912))
      % 4503599627370496 = f * 536870912 := by omega
  have e1 : ¬ (e + 896 = 2047) := by omega
  have e2 : ¬ (e + 896 = 0) := by omega
  have e3 : e + 896 ≥ 897 := by omega
  have h4 : (4503599627370496 + f * 536870912) / 536870912 = 8388608 + f := by omega
  have h5 : (4503599627370496 + f * 536870912) % 536870912 = 0 := by omega
  have h6 : e + 896 - 897 = e - 1 := by omega
  have hpow : (2 : Nat) ^ 29 = 536870912 := by norm_num
  have hhalf : (2 : Nat) ^ (29 - 1) = 268435456 := by norm_num
  unfold double_to_float
  simp only [h1, h2, h3, if_neg e1, if_neg e2, if_pos e3, hpow, hhalf, h4, h5, h6]
  rw [if_neg (by omega)]
  omega

/-- Counterexample for C26: a frame of 990 milliseconds is recorded, for which
`timestamp_ns * 1e-9` is the double `0x3FEFAE147AE147AF`, and the slot holds
that double. The following `get_frame_time` with `get_last` set returns the
float `0x3F7D70A4`, which as a double is `0x3FEFAE1480000000`: the value
returned is not the value written. -/
theorem last_frame_time_is_narrowed :
    (record_frame_time initial_frame_timer 0 4607092346807469999).g_recorded_times.getD 0 0
      = 4607092346807469999
    ∧ get_frame_time (record_frame_time initial_frame_timer 0 4607092346807469999) 1
      = 1065185444
    ∧ float_to_double 1065185444 = 4607092346893369344
    ∧ float_to_double
        (get_frame_time (record_frame_time initial_frame_timer 0 4607092346807469999) 1)
      ≠ 4607092346807469999 := by
  decide

/-- C26, amended: for a timer whose index is within the ring of 100 slots, a
successful `record_frame_time` moves the index by one modulo 100 (from slot 99
and after `reset_timer_buffer` to slot 0), writes the time to that slot and
leaves the other slots as they are, and `get_frame_time` with `get_last` set
returns the time written converted from `double` to `float`, which is the time
written itself where a normal float stands for it; a query that is not ready
or fails changes nothing. -/
theorem record_frame_time_advances_ring (timer : frame_timer_t) (time : Nat)
    (hindex : timer.g_recorded_time_index < FRAME_TIME_COUNT)
    (hlength : timer.g_recorded_times.length = FRAME_TIME_COUNT) :
    (record_frame_time timer 0 time).g_recorded_time_index
      = (timer.g_recorded_time_index + 1) % 100
    ∧ (record_frame_time timer 0 time).g_recorded_times
      = timer.g_recorded_times.set ((timer.g_recorded_time_index + 1) % 100) time
    ∧ (∀ slot, slot ≠ (timer.g_recorded_time_index + 1) % 100 →
        (record_frame_time timer 0 time).g_recorded_times.getD slot 0
          = timer.g_recorded_times.getD slot 0)
    ∧ (∀ get_last, get_last ≠ 0 →
        get_frame_time (record_frame_time timer 0 time) get_last = double_to_float time)
    ∧ (∀ get_last value, get_last ≠ 0 → value < 4294967296 →
        1 ≤ (value / 8388608) % 256 → (value / 8388608) % 256 ≤ 254 →
        time = float_to_double value →
        get_frame_time (record_frame_time timer 0 time) get_last = value)
    ∧ (timer.g_recorded_time_index = 99 →
        (record_frame_time timer 0 time).g_recorded_time_index = 0)
    ∧ (record_frame_time (reset_timer_buffer timer) 0 time).g_recorded_time_index = 0
    ∧ ∀ result : Int, result ≠ 0 → record_frame_time timer result time = timer := by
  have hstep := record_frame_time_success timer time hindex
  refine ⟨by rw [hstep], by rw [hstep], ?_, ?_, ?_, ?_,
    record_frame_time_after_reset timer time,
    fun result hresult => record_frame_time_failure timer time result hresult⟩
  · intro slot hslot
    rw [hstep]
    simp only [List.getD_eq_getElem?_getD]
    rw [List.getElem?_set_ne (fun h => hslot h.symm)]
  · intro get_last hlast
    exact get_frame_time_last timer time get_last hindex hlength hlast
  · intro get_last value hlast hvalue hlow hhigh htime
    rw [get_frame_time_last timer time get_last hindex hlength hlast, htime]
    exact double_to_float_float_to_double value hvalue hlow hhigh
  · intro h99
    rw [hstep, h99]

set_option maxRecDepth 100000 in
/-- Witness for C26: a record of 0.5 seconds and one of 0.99 seconds into the
timer that holds 99 times. -/
theorem record_frame_time_advances_ring_witness :
    sample_frame_timer.g_recorded_time_index < FRAME_TIME_COUNT
    ∧ sample_frame_timer.g_recorded_times.length = FRAME_TIME_COUNT
    ∧ (record_frame_time sample_frame_timer 0 4607092346807469999).g_recorded_time_index
        = (sample_frame_timer.g_recorded_time_index + 1) % 100
    ∧ get_frame_time (record_frame_time sample_frame_timer 0 4607092346807469999) 1
        = double_to_float 4607092346807469999 :=
  ⟨by decide, by decide,
   (record_frame_time_advances_ring sample_frame_timer 4607092346807469999
     (by decide) (by decide)).1,
   (record_frame_time_advances_ring sample_frame_timer 4607092346807469999
     (by decide) (by decide)).2.2.2.1 1 (by decide)⟩

/-! ## The cursor of the experiment list -/

theorem cleanup_experiment_list (c : experiment_context) (b : Bool) :
    (cleanup_experiment c b).2.list.count = c.list.count
    ∧ (cleanup_experiment c b).2.list.next
        = (if (c.list.next + 1) % 4294967296 = c.list.count
            then (c.list.count + 1) % 4294967296 else (c.list.next + 1) % 4294967296) := by
  unfold cleanup_experiment
  cases b <;> simp only [Bool.false_eq_true, if_false, if_true] <;> split_ifs <;>
    exact ⟨rfl, rfl⟩

theorem cleanup_experiment_cursor (c : experiment_context) (b : Bool)
    (hcount : c.list.count + 1 < 4294967296) (hle : c.list.next ≤ c.list.count) :
    cursor_valid (cleanup_experiment c b).2.list = true
    ∧ (cleanup_experiment c b).2.list.count = c.list.count := by
  obtain ⟨k1, k2⟩ := cleanup_experiment_list c b
  have h1 : (c.list.next + 1) % 4294967296 = c.list.next + 1 := Nat.mod_eq_of_lt (by omega)
  have h2 : (c.list.count + 1) % 4294967296 = c.list.count + 1 := Nat.mod_eq_of_lt hcount
  rw [h1, h2] at k2
  refine ⟨?_, k1⟩
  simp only [cursor_valid, Bool.or_eq_true, decide_eq_true_eq, k1, k2]
  split_ifs <;> omega

theorem cleanup_experiment_setup_events (c : experiment_context) (b : Bool) (k : Nat)
    (h : Event.setup_experiment k ∈ (cleanup_experiment c b).2.trace) :
    Event.setup_experiment k ∈ c.trace := by
  unfold cleanup_experiment at h
  simp only [] at h
  split_ifs at h <;> simpa using h

theorem request_experiment_screenshot_setup_events (c : experiment_context) (k : Nat)
    (h : Event.setup_experiment k ∈ (request_experiment_screenshot c).trace) :
    Event.setup_experiment k ∈ c.trace := by
  unfold request_experiment_screenshot at h
  cases hexp : c.list.experiment with
  | none => simpa [hexp] using h
  | some index =>
    simp only [hexp] at h
    split_ifs at h <;> simpa using h

theorem advance_running_experiment_cursor (c : experiment_context)
    (hcount : c.list.count + 1 < 4294967296)
    (hvalid : cursor_valid c.list = true) (hle : c.list.next ≤ c.list.count) :
    cursor_valid (advance_running_experiment c).list = true
    ∧ (advance_running_experiment c).list.count = c.list.count := by
  obtain ⟨r1, r2⟩ := request_experiment_screenshot_list c
  have hreq : cursor_valid (request_experiment_screenshot c).list = true := by
    simp only [cursor_valid, r1, r2] at hvalid ⊢
    exact hvalid
  have hreq2 : ∀ s : experiment_state_t,
      cursor_valid { (request_experiment_screenshot c).list with state := s } = true := by
    intro s
    simp only [cursor_valid] at hreq ⊢
    exact hreq
  have hsame : ∀ s : experiment_state_t, cursor_valid { c.list with state := s } = true := by
    intro s
    simp only [cursor_valid] at hvalid ⊢
    exact hvalid
  unfold advance_running_experiment
  simp only []
  split_ifs
  · exact ⟨hsame _, rfl⟩
  · exact cleanup_experiment_cursor c _ hcount hle
  · exact ⟨hreq2 _, r2⟩
  · exact ⟨hvalid, rfl⟩
  · exact ⟨hvalid, rfl⟩
  · exact cleanup_experiment_cursor c _ hcount hle
  · exact ⟨hreq2 _, r2⟩
  · exact ⟨hvalid, rfl⟩

theorem advance_running_experiment_setup_events (c : experiment_context) (k : Nat)
    (h : Event.setup_experiment k ∈ (advance_running_experiment c).trace) :
    Event.setup_experiment k ∈ c.trace := by
  unfold advance_running_experiment at h
  simp only [] at h
  split_ifs at h
  all_goals first
    | exact h
    | exact cleanup_experiment_setup_events c _ k h
    | exact request_experiment_screenshot_setup_events c k h

theorem advance_experiments_cursor (c : experiment_context) (t : Bool)
    (hcount : c.list.count + 1 < 4294967296) (hvalid : cursor_valid c.list = true) :
    cursor_valid (advance_experiments c t).2.list = true
    ∧ (advance_experiments c t).2.list.count = c.list.count := by
  obtain ⟨s1, s2⟩ := setup_experiment_list c t
  have hsetup : cursor_valid (setup_experiment c t).list = true := by
    simp only [cursor_valid, s1, s2] at hvalid ⊢
    exact hvalid
  unfold advance_experiments
  split_ifs with h1 h2 h3
  · exact ⟨hvalid, rfl⟩
  · exact ⟨hvalid, rfl⟩
  · have := advance_running_experiment_cursor (setup_experiment c t)
      (by rw [s2]; exact hcount) hsetup (by rw [s1, s2]; omega)
    exact ⟨this.1, by rw [this.2, s2]⟩
  · exact advance_running_experiment_cursor c hcount hvalid (by omega)

theorem advance_experiments_setup_events (c : experiment_context) (t : Bool) (k : Nat)
    (h : Event.setup_experiment k ∈ (advance_experiments c t).2.trace) :
    Event.setup_experiment k ∈ c.trace
    ∨ (k = c.list.next ∧ c.list.next ≤ c.list.count) := by
  unfold advance_experiments at h
  split_ifs at h with h1 h2 h3
  · exact Or.inl h
  · exact Or.inl h
  · have := advance_running_experiment_setup_events _ k h
    unfold setup_experiment at this
    simp only [List.mem_append, List.mem_singleton, Event.setup_experiment.injEq] at this
    rcases this with h | h
    · exact Or.inl h
    · exact Or.inr ⟨h, by omega⟩
  · exact Or.inl (advance_running_experiment_setup_events _ k h)

/-- C21: started at cursor 0 on the empty list, `advance_experiments` passes
its test `next > count` with the cursor equal to the count and calls
`setup_experiment`, which makes entry 0 of the array the current experiment
although no experiment has been defined: the entry is zeroed (its strings are
`NULL` in C). The same call goes on to build a screenshot path from the strings
of that entry and to request the screenshot, where the C program reads the
`NULL` strings `base_dir` and `ext` and copies to the `NULL` string
`screenshot_path`. For every other list the claim holds: a cursor that is
below the count or at the sentinel `count + 1` stays so, the count stays, and
`setup_experiment` is only called for a cursor below the count; a list that is
not running and a list with experiments started at cursor 0 are of this
kind. -/
theorem empty_list_pops_experiment :
    empty_started_context.list.next = 0
    ∧ empty_started_context.list.count = 0
    ∧ cursor_valid empty_started_context.list = false
    ∧ starts_experiment empty_started_context.list = true
    ∧ Event.setup_experiment 0 ∈ (setup_experiment empty_started_context true).trace
    ∧ (setup_experiment empty_started_context true).list.experiment = some 0
    ∧ (setup_experiment empty_started_context true).list.at 0 = zeroed_experiment
    ∧ Event.setup_experiment 0 ∈ (advance_experiments empty_started_context true).2.trace
    ∧ Event.take_screenshot (some "/00000.") none none 0
        ∈ (advance_experiments empty_started_context true).2.trace
    ∧ (∀ (c : experiment_context) (t : Bool), c.list.count + 1 < 4294967296 →
        cursor_valid c.list = true →
        cursor_valid (advance_experiments c t).2.list = true
        ∧ (advance_experiments c t).2.list.count = c.list.count
        ∧ ∀ k, Event.setup_experiment k ∈ (advance_experiments c t).2.trace →
            Event.setup_experiment k ∈ c.trace ∨ (k = c.list.next ∧ k < c.list.count))
    ∧ (∀ list : experiment_list_t,
        list.next = list.count + 1 ∨ (list.next = 0 ∧ 1 ≤ list.count) →
        cursor_valid list = true) := by
  refine ⟨by decide, by decide, by decide, by decide, by decide, by decide, by decide,
    by decide, by decide, ?_, ?_⟩
  · intro c t hcount hvalid
    obtain ⟨h1, h2⟩ := advance_experiments_cursor c t hcount hvalid
    refine ⟨h1, h2, ?_⟩
    intro k hk
    rcases advance_experiments_setup_events c t k hk with h | ⟨h3, h4⟩
    · exact Or.inl h
    · refine Or.inr ⟨h3, ?_⟩
      simp only [cursor_valid, Bool.or_eq_true, decide_eq_true_eq] at hvalid
      omega
  · intro list hlist
    simp only [cursor_valid, Bool.or_eq_true, decide_eq_true_eq]
    omega

/-! ## Screenshot requests of the experiment engine -/

theorem setup_experiment_budget (c : experiment_context) (t : Bool) :
    (setup_experiment c t).list.next_setup_frame = (c.list.at c.list.next).num_samples := rfl

theorem request_experiment_screenshot_issued (c : experiment_context) (index : Nat)
    (hexp : c.list.experiment = some index) :
    screenshot_request_issued c index
      { request_experiment_screenshot c with
        list := { (request_experiment_screenshot c).list with
          state := .experiment_state_screenshot_frame_0 } } = true := by
  unfold screenshot_request_issued request_experiment_screenshot experiment_screenshot_path
  simp only [hexp, decide_eq_true_eq]
  cases (c.list.at index).use_hdr <;> simp

/-- C22: in the state rendering of a running list with a current experiment,
`advance_experiments` requests a screenshot under the path that carries the
current sample count and moves to `experiment_state_screenshot_frame_0`, for a
per-frame-capture experiment when the sample count is a multiple of ten and
for a single-shot experiment when the sample count has reached
`next_setup_frame`, which `setup_experiment` sets to the sample budget of the
experiment. Otherwise the call changes nothing; so it does for a single-shot
experiment below its budget. -/
theorem rendering_requests_screenshot (c : experiment_context) (t : Bool) (index : Nat)
    (hrun : c.list.next ≤ c.list.count)
    (hstate : c.list.state = .experiment_state_rendering)
    (hexp : c.list.experiment = some index) :
    (advance_experiments c t).1 = 0
    ∧ ((c.list.at index).ss_per_frame = true → c.accum_num % 10 = 0 →
        screenshot_request_issued c index (advance_experiments c t).2 = true)
    ∧ ((c.list.at index).ss_per_frame = true → c.accum_num % 10 ≠ 0 →
        (advance_experiments c t).2 = c)
    ∧ ((c.list.at index).ss_per_frame = false → c.list.next_setup_frame ≤ c.accum_num →
        screenshot_request_issued c index (advance_experiments c t).2 = true)
    ∧ ((c.list.at index).ss_per_frame = false → c.accum_num < c.list.next_setup_frame →
        (advance_experiments c t).2 = c)
    ∧ (setup_experiment c t).list.next_setup_frame = (c.list.at c.list.next).num_samples
    ∧ format_uint 10 = "/00010" := by
  have hissued := request_experiment_screenshot_issued c index hexp
  have hadv : advance_experiments c t = (0, advance_running_experiment c) := by
    unfold advance_experiments
    simp [Nat.not_lt.mpr hrun, hstate]
  rw [hadv]
  refine ⟨rfl, ?_, ?_, ?_, ?_, rfl, by decide⟩
  all_goals
    intro hss hcond
    unfold advance_running_experiment
    simp only [hexp, hss, hstate, hcond, if_true, if_false, Bool.false_eq_true]
  · simpa using hissued
  · simp
  · simpa [hcond] using hissued
  · simp [Nat.not_le.mpr hcond]

set_option maxRecDepth 100000 in
/-- Witness for C22: frame 10 of the scenario, with ten samples accumulated
for the per-frame-capture experiment A. -/
theorem rendering_requests_screenshot_witness :
    screenshot_request_issued rendering_context 0
      (advance_experiments rendering_context true).2 = true :=
  (rendering_requests_screenshot rendering_context true 0 (by decide) (by decide)
    (by decide)).2.1 (by decide) (by decide)

/-! ## The reachable states of the screenshot object -/

theorem paths_consistent_of_phase_valid (s : screenshot_t)
    (h : capture_phase_valid s = true) : paths_consistent s = true := by
  rcases s with ⟨sp, sj, sh, fb, st, lc, hc⟩
  cases sp <;> cases sj <;> cases sh <;> cases fb
    <;> simp_all [paths_consistent, capture_phase_valid, idle_or_high_phase, is_idle,
      capture_pending]

theorem apply_screenshot_operation_phase_valid (s : screenshot_t)
    (operation : screenshot_operation) (h : capture_phase_valid s = true) :
    capture_phase_valid (apply_screenshot_operation s operation) = true := by
  cases operation with
  | take path_png path_jpg path_hdr => exact take_screenshot_phase_valid s _ _ _ h
  | implement extent o =>
    exact phase_valid_of_idle_or_high _ (implement_screenshot_idle_or_high s extent o h)
  | destroy =>
    show capture_phase_valid zeroed_screenshot = true
    decide

theorem run_screenshot_operations_phase_valid (operations : List screenshot_operation) :
    ∀ s : screenshot_t, capture_phase_valid s = true →
      capture_phase_valid (run_screenshot_operations s operations) = true := by
  induction operations with
  | nil => intro s h; exact h
  | cons operation rest ih =>
    intro s h
    exact ih _ (apply_screenshot_operation_phase_valid s operation h)

/-- C27: after any sequence of `take_screenshot`, `implement_screenshot` and
`destroy_screenshot` calls on the zeroed screenshot object, with any arguments
and outcomes, an HDR path is not set together with a PNG or JPG path and the
capture byte differs from `frame_bits_ldr` only while an HDR path is set. A
PNG and a JPG path can be set together. -/
theorem reachable_screenshot_paths_consistent (operations : List screenshot_operation) :
    paths_consistent (run_screenshot_operations zeroed_screenshot operations) = true
    ∧ (run_screenshot_operations zeroed_screenshot
        [.take (some "a.png") (some "a.jpg") none]).path_png = some "a.png"
    ∧ (run_screenshot_operations zeroed_screenshot
        [.take (some "a.png") (some "a.jpg") none]).path_jpg = some "a.jpg" :=
  ⟨paths_consistent_of_phase_valid _
    (run_screenshot_operations_phase_valid operations zeroed_screenshot (by decide)),
   by decide, by decide⟩

/-! ## Screenshot requests in an automated run -/

theorem cleanup_experiment_requests (c : experiment_context) (b : Bool) (e : Event)
    (he : is_take_screenshot e = true) (h : e ∈ (cleanup_experiment c b).2.trace) :
    e ∈ c.trace := by
  unfold cleanup_experiment at h
  simp only [] at h
  split_ifs at h <;>
    (simp only [List.mem_append, List.mem_singleton] at h
     rcases h with h | h
     · exact h
     · subst h
       cases he)

theorem advance_running_experiment_requests (c : experiment_context) (e : Event)
    (he : is_take_screenshot e = true) (h : e ∈ (advance_running_experiment c).trace) :
    e ∈ c.trace ∨ c.list.state = .experiment_state_rendering := by
  unfold advance_running_experiment at h
  simp only [] at h
  split_ifs at h
  · exact Or.inl h
  · exact Or.inl (cleanup_experiment_requests c _ e he h)
  · exact Or.inr (by assumption)
  · exact Or.inl h
  · exact Or.inl h
  · exact Or.inl (cleanup_experiment_requests c _ e he h)
  · exact Or.inr (And.left (by assumption))
  · exact Or.inl h

theorem advance_experiments_requests (c : experiment_context) (t : Bool) (e : Event)
    (he : is_take_screenshot e = true) (h : e ∈ (advance_experiments c t).2.trace) :
    e ∈ c.trace ∨ c.list.state ≠ .experiment_state_screenshot_frame_0 := by
  unfold advance_experiments at h
  split_ifs at h with h1 h2 h3
  · exact Or.inl h
  · exact Or.inl h
  · exact Or.inr (by rw [h3]; decide)
  · rcases advance_running_experiment_requests c e he h with h4 | h4
    · exact Or.inl h4
    · exact Or.inr (by rw [h4]; decide)

theorem advance_running_experiment_request_state (c : experiment_context) :
    (advance_running_experiment c).screenshot = c.screenshot
    ∨ (advance_running_experiment c).list.state = .experiment_state_screenshot_frame_0 := by
  unfold advance_running_experiment
  simp only []
  split_ifs
  · exact Or.inl rfl
  · exact Or.inl (cleanup_experiment_screenshot c _)
  · exact Or.inr rfl
  · exact Or.inl rfl
  · exact Or.inl rfl
  · exact Or.inl (cleanup_experiment_screenshot c _)
  · exact Or.inr rfl
  · exact Or.inl rfl

theorem advance_experiments_request_state (c : experiment_context) (t : Bool) :
    (advance_experiments c t).2.screenshot = c.screenshot
    ∨ (advance_experiments c t).2.list.state = .experiment_state_screenshot_frame_0 := by
  unfold advance_experiments
  split_ifs
  · exact Or.inl rfl
  · exact Or.inl rfl
  · rcases advance_running_experiment_request_state (setup_experiment c t) with h | h
    · exact Or.inl (by rw [h, (setup_experiment_keeps c t).1])
    · exact Or.inr h
  · exact advance_running_experiment_request_state c

theorem idle_or_high_not_low (s : screenshot_t) (h : idle_or_high_phase s = true) :
    s.frame_bits ≠ .frame_bits_hdr_low := by
  rcases s with ⟨sp, sj, sh, fb, st, lc, hc⟩
  cases fb <;> simp_all [idle_or_high_phase, is_idle]

theorem implement_screenshot_from_low (s : screenshot_t) (extent : Nat × Nat)
    (o : screenshot_outcomes) (h : capture_phase_valid s = true)
    (hn : is_idle (implement_screenshot s extent o).screenshot = false) :
    s.frame_bits = .frame_bits_hdr_low := by
  by_cases hp : capture_pending s = true
  · by_cases hret : (implement_screenshot s extent o).ret = 0
    · rcases implement_screenshot_success s extent o hp hret with ⟨h1, _⟩ | ⟨_, hz⟩
      · exact h1
      · rw [hz] at hn
        cases hn
    · rw [implement_screenshot_failure s extent o hret] at hn
      cases hn
  · exfalso
    have hidle : (implement_screenshot s extent o).screenshot = s := by
      unfold implement_screenshot
      unfold capture_pending at hp
      revert hp
      cases s.path_png.isSome <;> cases s.path_jpg.isSome <;> cases s.path_hdr.isSome <;> simp
    rw [hidle] at hn
    rcases s with ⟨sp, sj, sh, fb, st, lc, hc⟩
    cases sp <;> cases sj <;> cases sh <;> cases fb
      <;> simp_all [capture_phase_valid, idle_or_high_phase, is_idle, capture_pending]

theorem engine_call_context_fields (app : application_t) (i : frame_inputs)
    (hf10 : i.key_f10 = false) (hf12 : i.key_f12 = false) :
    (engine_call_context app i).screenshot = app.screenshot
    ∧ (engine_call_context app i).list = app.experiment_list
    ∧ (engine_call_context app i).trace = [] := by
  obtain ⟨_, k2⟩ := apply_keys_screenshot (apply_interface app i.interface)
    (interface_updates i.interface) i
  obtain ⟨_, k3⟩ := apply_keys_fields (apply_interface app i.interface)
    (interface_updates i.interface) i
  refine ⟨k2 hf10 hf12, k3, ?_⟩
  unfold engine_call_context experiment_context_of apply_keys
  simp [hf10, hf12]

theorem handle_frame_input_engine (app : application_t) (i : frame_inputs)
    (hret : (handle_frame_input app i).ret = 0) :
    (handle_frame_input app i).app.screenshot
        = (advance_experiments (engine_call_context app i) i.timings_opens).2.screenshot
    ∧ (handle_frame_input app i).app.experiment_list
        = (advance_experiments (engine_call_context app i) i.timings_opens).2.list := by
  unfold handle_frame_input at hret ⊢
  unfold engine_call_context
  simp only [] at hret ⊢
  split_ifs at hret ⊢
  all_goals first
    | exact absurd hret (by decide)
    | exact update_application_keeps _ _ _ _

theorem render_frame_engine (app : application_t) (o : render_outcomes)
    (hret : (render_frame app o).ret = 0) :
    (render_frame app o).app.experiment_list = app.experiment_list
    ∧ (render_frame app o).app.screenshot
        = (implement_screenshot app.screenshot
            (app.swapchain.extent_width, app.swapchain.extent_height) o.screenshot).screenshot := by
  have hlist : (submit_frame app o).2.1.experiment_list = app.experiment_list := by
    unfold submit_frame
    simp only []
    split_ifs <;> rfl
  obtain ⟨_, h2, _, h4⟩ := submit_frame_preserves app o
  unfold render_frame at hret ⊢
  simp only [] at hret ⊢
  by_cases hs : (submit_frame app o).1 = true
  · simp only [hs, if_true] at hret ⊢
    refine ⟨?_, ?_⟩
    · rw [← hlist]
      unfold present_frame
      simp only []
      split_ifs <;> rfl
    · rw [(present_frame_sample_count (submit_frame app o).2.1 o (submit_frame app o).2.2).1,
        h2, h4]
  · simp [hs] at hret

theorem main_loop_frame_engine (app : application_t) (i : frame_inputs) (o : render_outcomes)
    (hinv : engine_invariant app = true)
    (hf10 : i.key_f10 = false) (hf12 : i.key_f12 = false)
    (hrun : (main_loop_frame app i o).stopped = false) :
    engine_invariant (main_loop_frame app i o).app = true := by
  obtain ⟨c1, c2, _⟩ := engine_call_context_fields app i hf10 hf12
  unfold main_loop_frame at hrun ⊢
  simp only [] at hrun ⊢
  by_cases hh : (handle_frame_input app i).ret ≠ 0
  · simp [hh] at hrun
  · simp only [hh, if_false] at hrun ⊢
    have hret0 : (handle_frame_input app i).ret = 0 := not_not.mp hh
    have hret : (render_frame (handle_frame_input app i).app o).ret = 0 := by
      simpa using hrun
    obtain ⟨e1, e2⟩ := handle_frame_input_engine app i hret0
    obtain ⟨r1, r2⟩ := render_frame_engine (handle_frame_input app i).app o hret
    have hvalid0 : capture_phase_valid (engine_call_context app i).screenshot = true := by
      rw [c1]
      simp only [engine_invariant, Bool.or_eq_true, Bool.and_eq_true] at hinv
      rcases hinv with h | h
      · exact phase_valid_of_idle_or_high _ (by simp [idle_or_high_phase, h])
      · exact phase_valid_of_idle_or_high _ h.1
    have hvalid : capture_phase_valid (handle_frame_input app i).app.screenshot = true := by
      rw [e1]
      exact (advance_experiments_screenshot _ _).1 hvalid0
    have hhigh := implement_screenshot_idle_or_high (handle_frame_input app i).app.screenshot
      ((handle_frame_input app i).app.swapchain.extent_width,
        (handle_frame_input app i).app.swapchain.extent_height) o.screenshot hvalid
    simp only [engine_invariant, Bool.or_eq_true, Bool.and_eq_true, decide_eq_true_eq]
    rw [r1, r2]
    by_cases hidle : is_idle (implement_screenshot (handle_frame_input app i).app.screenshot
      ((handle_frame_input app i).app.swapchain.extent_width,
        (handle_frame_input app i).app.swapchain.extent_height) o.screenshot).screenshot = true
    · exact Or.inl hidle
    · refine Or.inr ⟨hhigh, ?_⟩
      have hlow := implement_screenshot_from_low _ _ _ hvalid (by simpa using hidle)
      rw [e1] at hlow
      rw [e2]
      rcases advance_experiments_request_state (engine_call_context app i) i.timings_opens
        with h | h
      · exfalso
        rw [h, c1] at hlow
        simp only [engine_invariant, Bool.or_eq_true, Bool.and_eq_true] at hinv
        rcases hinv with h' | h'
        · exact idle_or_high_not_low _ (by simp [idle_or_high_phase, h']) hlow
        · exact idle_or_high_not_low _ h'.1 hlow
      · exact h

theorem main_loop_engine (frames : List (frame_inputs × render_outcomes)) :
    ∀ app : application_t, engine_invariant app = true →
      (∀ f ∈ frames, f.1.key_f10 = false ∧ f.1.key_f12 = false) →
      (main_loop app frames).stopped = false →
      engine_invariant (main_loop app frames).app = true := by
  induction frames with
  | nil => intro app h _ _; exact h
  | cons frame rest ih =>
    intro app h hkeys hrun
    have hk := hkeys frame (List.mem_cons_self _ _)
    unfold main_loop at hrun ⊢
    simp only [] at hrun ⊢
    by_cases hs : (main_loop_frame app frame.1 frame.2).stopped = true
    · simp [hs] at hrun
    · have hs' : (main_loop_frame app frame.1 frame.2).stopped = false := by simpa using hs
      simp only [hs', Bool.false_eq_true, if_false] at hrun ⊢
      exact ih _ (main_loop_frame_engine app frame.1 frame.2 h hk.1 hk.2 hs')
        (fun f hf => hkeys f (List.mem_cons_of_mem _ hf)) hrun

/-- C28: in a run of the main loop that starts with the screenshot object idle
(or in the second frame of an HDR capture requested by the engine) and in
which F10 and F12 are not pressed, every frame begins with the screenshot
object idle, or in the second frame of an HDR capture with the list in the
state `experiment_state_screenshot_frame_0`; and whenever the
`advance_experiments` call of the next frame calls `take_screenshot`, the
screenshot object it is given is idle, so that the request sets its path. -/
theorem engine_requests_find_idle_object (app : application_t)
    (frames : List (frame_inputs × render_outcomes)) (i : frame_inputs)
    (hinv : engine_invariant app = true)
    (hkeys : ∀ f ∈ frames, f.1.key_f10 = false ∧ f.1.key_f12 = false)
    (hrun : (main_loop app frames).stopped = false)
    (hf10 : i.key_f10 = false) (hf12 : i.key_f12 = false) :
    engine_invariant (main_loop app frames).app = true
    ∧ (∀ e ∈ (advance_experiments (engine_call_context (main_loop app frames).app i)
          i.timings_opens).2.trace,
        is_take_screenshot e = true →
        is_idle (engine_call_context (main_loop app frames).app i).screenshot = true)
    ∧ (∀ (s : screenshot_t) (path : String), is_idle s = true →
        (take_screenshot s (some path) none none).path_png = some path
        ∧ (take_screenshot s none none (some path)).path_hdr = some path) := by
  have hafter := main_loop_engine frames app hinv hkeys hrun
  obtain ⟨c1, c2, c3⟩ := engine_call_context_fields (main_loop app frames).app i hf10 hf12
  refine ⟨hafter, ?_, ?_⟩
  · intro e he htake
    rcases advance_experiments_requests _ _ e htake he with h | h
    · rw [c3] at h
      cases h
    · rw [c1]
      rw [c2] at h
      simp only [engine_invariant, Bool.or_eq_true, Bool.and_eq_true, decide_eq_true_eq]
        at hafter
      rcases hafter with h' | h'
      · exact h'
      · exact absurd h'.2 h
  · intro s path hs
    obtain ⟨i1, i2, i3, i4⟩ := is_idle_fields s hs
    unfold take_screenshot
    simp [i1, i2, i3]

set_option maxRecDepth 100000 in
/-- Witness for C28: the scenario with the HDR experiment A after 21 frames. -/
theorem engine_requests_find_idle_object_witness :
    engine_invariant (main_loop (scenario_app true false) (quiet_frames 21)).app = true :=
  (engine_requests_find_idle_object (scenario_app true false) (quiet_frames 21)
    idle_frame_inputs (by decide) (by decide) (by decide) (by decide) (by decide)).1

/-! ## The sample count during a capture -/

theorem submit_frame_records (app : application_t) (o : render_outcomes)
    (h : (submit_frame app o).1 = true) :
    Event.record_commands o.swapchain_index app.accum_num app.screenshot.frame_bits.val 0
      ∈ (submit_frame app o).2.2 := by
  unfold submit_frame at h ⊢
  simp only [] at h ⊢
  split_ifs at h ⊢
  all_goals
    have hr : o.record_result = 0 := by simpa using ‹¬o.record_result ≠ 0›
    simp [hr]

theorem render_frame_records (app : application_t) (o : render_outcomes)
    (h : (render_frame app o).ret = 0) :
    Event.record_commands o.swapchain_index app.accum_num app.screenshot.frame_bits.val 0
      ∈ (render_frame app o).trace := by
  obtain ⟨hret, _, htrace⟩ := render_frame_after_submit app o
  have hs : (submit_frame app o).1 = true := by
    by_contra hn
    rw [hret, if_neg hn] at h
    cases h
  rw [htrace]
  exact List.mem_append_left _ (submit_frame_records app o hs)

theorem render_frame_counts (app : application_t) (o : render_outcomes)
    (h : (render_frame app o).ret = 0) :
    (render_frame app o).app.screenshot
        = (implement_screenshot app.screenshot
            (app.swapchain.extent_width, app.swapchain.extent_height) o.screenshot).screenshot
    ∧ (render_frame app o).app.accum_num
        = (if app.render_settings.accum = true
              ∧ (implement_screenshot app.screenshot
                  (app.swapchain.extent_width, app.swapchain.extent_height)
                  o.screenshot).screenshot.frame_bits ≠ .frame_bits_hdr_high
            then (app.accum_num + 1) % 4294967296 else app.accum_num) := by
  obtain ⟨h1, h2, h3, h4⟩ := submit_frame_preserves app o
  unfold render_frame at h ⊢
  simp only [] at h ⊢
  by_cases hs : (submit_frame app o).1 = true
  · simp only [hs, if_true] at h ⊢
    obtain ⟨p1, p2⟩ := present_frame_sample_count (submit_frame app o).2.1 o
      (submit_frame app o).2.2
    simp only [h1, h2, h3, h4] at p1 p2
    exact ⟨p1, p2⟩
  · simp [hs] at h

theorem implement_screenshot_not_high (s : screenshot_t) (extent : Nat × Nat)
    (o : screenshot_outcomes) (hvalid : capture_phase_valid s = true)
    (hlow : s.frame_bits ≠ .frame_bits_hdr_low) :
    (implement_screenshot s extent o).screenshot.frame_bits ≠ .frame_bits_hdr_high := by
  intro hhigh
  have hn : is_idle (implement_screenshot s extent o).screenshot = false := by
    cases hidle : is_idle (implement_screenshot s extent o).screenshot
    · rfl
    · have := (is_idle_fields _ hidle).2.2.2
      rw [hhigh] at this
      cases this
  exact hlow (implement_screenshot_from_low s extent o hvalid hn)

/-- C25: when a frame starts with an HDR capture requested (HDR path set,
capture byte `frame_bits_hdr_low`), its capture succeeds and the sample count
and the screenshot object reach the next frame unchanged, in which
accumulation is enabled, then both frames record their commands with the same
sample count:
the first frame holds the count and the second increases it by 1 (in
`uint32_t`). A frame that starts with any other phase of the screenshot object
(idle, LDR capture requested, second HDR frame) increases the count by 1. -/
theorem hdr_capture_holds_sample_count (app next : application_t) (o1 o2 : render_outcomes)
    (hvalid : capture_phase_valid app.screenshot = true)
    (hlow : app.screenshot.frame_bits = .frame_bits_hdr_low)
    (hret1 : (render_frame app o1).ret = 0)
    (hcapture : (implement_screenshot app.screenshot
      (app.swapchain.extent_width, app.swapchain.extent_height) o1.screenshot).ret = 0)
    (hcount : next.accum_num = (render_frame app o1).app.accum_num)
    (hshot : next.screenshot = (render_frame app o1).app.screenshot)
    (haccum2 : next.render_settings.accum = true)
    (hret2 : (render_frame next o2).ret = 0) :
    Event.record_commands o1.swapchain_index app.accum_num 1 0 ∈ (render_frame app o1).trace
    ∧ (render_frame app o1).app.accum_num = app.accum_num
    ∧ Event.record_commands o2.swapchain_index app.accum_num 2 0
        ∈ (render_frame next o2).trace
    ∧ (render_frame next o2).app.accum_num = (app.accum_num + 1) % 4294967296
    ∧ ∀ (other : application_t) (o : render_outcomes),
        other.render_settings.accum = true →
        capture_phase_valid other.screenshot = true →
        other.screenshot.frame_bits ≠ .frame_bits_hdr_low →
        (render_frame other o).ret = 0 →
        (render_frame other o).app.accum_num = (other.accum_num + 1) % 4294967296 := by
  have hother : ∀ (other : application_t) (o : render_outcomes),
      other.render_settings.accum = true →
      capture_phase_valid other.screenshot = true →
      other.screenshot.frame_bits ≠ .frame_bits_hdr_low →
      (render_frame other o).ret = 0 →
      (render_frame other o).app.accum_num = (other.accum_num + 1) % 4294967296 := by
    intro other o ha hv hl hr
    rw [(render_frame_counts other o hr).2]
    rw [if_pos ⟨ha, implement_screenshot_not_high _ _ _ hv hl⟩]
  obtain ⟨s1, c1⟩ := render_frame_counts app o1 hret1
  have hpending : capture_pending app.screenshot = true := by
    cases hp : capture_pending app.screenshot
    · exfalso
      revert hvalid hlow hp
      generalize app.screenshot = s
      rcases s with ⟨sp, sj, sh, fb, st, lc, hc⟩
      cases sp <;> cases sj <;> cases sh <;> cases fb
        <;> simp [capture_phase_valid, idle_or_high_phase, is_idle, capture_pending]
    · rfl
  have hhigh : (implement_screenshot app.screenshot
      (app.swapchain.extent_width, app.swapchain.extent_height) o1.screenshot).screenshot.frame_bits
      = .frame_bits_hdr_high := by
    rcases implement_screenshot_success _ _ _ hpending hcapture with ⟨_, h2, _⟩ | ⟨h1, _⟩
    · exact h2
    · exact absurd hlow h1
  have hheld : (render_frame app o1).app.accum_num = app.accum_num := by
    rw [c1, if_neg (fun h => h.2 hhigh)]
  have hrec1 := render_frame_records app o1 hret1
  rw [hlow] at hrec1
  have hrec2 := render_frame_records next o2 hret2
  have hbits : next.screenshot.frame_bits = .frame_bits_hdr_high := by
    rw [hshot, s1]
    exact hhigh
  rw [hbits, hcount, hheld] at hrec2
  have hvalid2 : capture_phase_valid next.screenshot = true := by
    rw [hshot, s1]
    exact phase_valid_of_idle_or_high _ (implement_screenshot_idle_or_high _ _ _ hvalid)
  refine ⟨hrec1, hheld, hrec2, ?_, hother⟩
  rw [hother next o2 haccum2 hvalid2 (by rw [hbits]; decide) hret2, hcount, hheld]

set_option maxRecDepth 100000 in
/-- Witness for C25: the two frames of an HDR capture on the scenario
application with seven samples accumulated. -/
theorem hdr_capture_holds_sample_count_witness :
    (render_frame hdr_requested_app sample_render_outcomes).app.accum_num = 7
    ∧ (render_frame (render_frame hdr_requested_app sample_render_outcomes).app
        sample_render_outcomes).app.accum_num = (7 + 1) % 4294967296 :=
  ⟨(hdr_capture_holds_sample_count hdr_requested_app
      (render_frame hdr_requested_app sample_render_outcomes).app
      sample_render_outcomes sample_render_outcomes
      (by decide) (by decide) (by decide) (by decide) rfl rfl (by decide)
      (by decide)).2.1,
   (hdr_capture_holds_sample_count hdr_requested_app
      (render_frame hdr_requested_app sample_render_outcomes).app
      sample_render_outcomes sample_render_outcomes
      (by decide) (by decide) (by decide) (by decide) rfl rfl (by decide)
      (by decide)).2.2.2.1⟩

/-! ## The buffer of the screenshot path -/

theorem format_uint_length (n : Nat) (h : n < 100000) : (format_uint n).length = 6 := by
  have hlen : (toString n).length ≤ 5 := Nat.repr_length n 5 (by decide) (by simpa using h)
  unfold format_uint
  simp only [String.length_append, String.length_mk, List.length_replicate]
  have h1 : "/".length = 1 := rfl
  rw [h1]
  omega

theorem concatenate_strings_length (a b c d e : String) :
    (concatenate_strings [a, b, c, d, e]).length
      = a.length + b.length + c.length + d.length + e.length := by
  simp [concatenate_strings, String.length_append]

/-- C29: the path that `advance_experiments` builds for a sample count below
100000 is as long as the placeholder that `fill_path_info` has allocated, for
every experiment. For the experiment `uniform_area` of
`create_experiment_list`, whose budget is 100000 samples, `advance_experiments`
builds the path for the sample count 100000 when the budget is reached, and
this path is one character longer than the placeholder. -/
theorem screenshot_path_overruns_placeholder :
    (∀ (exp : experiment_t) (n : Nat), n < 100000 →
      (experiment_screenshot_path exp n).length = (fill_path_info exp).screenshot_path.length)
    ∧ ensure_correct_uniform_area.num_samples = 100000
    ∧ ensure_correct_uniform_area.screenshot_path
        = "data/experiments/ensure_correct/uniform_area/00000.hdr"
    ∧ experiment_screenshot_path ensure_correct_uniform_area 100000
        = "data/experiments/ensure_correct/uniform_area/100000.hdr"
    ∧ (experiment_screenshot_path ensure_correct_uniform_area 100000).length
        = ensure_correct_uniform_area.screenshot_path.length + 1
    ∧ screenshot_request_issued budget_reached_context 0
        (advance_experiments budget_reached_context true).2 = true := by
  refine ⟨?_, by decide, by decide, by decide, by decide, by decide⟩
  intro exp n hn
  unfold experiment_screenshot_path fill_path_info
  simp only [concatenate_strings_length, format_uint_length n hn]
  rfl

/-! ## The light buffer -/

theorem foldl_max_vertex_count (lights : List polygonal_light_t) :
    ∀ init : Nat,
      init ≤ lights.foldl
        (fun maximum light => if maximum < light.vertex_count then light.vertex_count
          else maximum) init
      ∧ ∀ light ∈ lights, light.vertex_count ≤ lights.foldl
        (fun maximum light => if maximum < light.vertex_count then light.vertex_count
          else maximum) init := by
  induction lights with
  | nil => intro init; exact ⟨Nat.le_refl _, fun _ h => by cases h⟩
  | cons first rest ih =>
    intro init
    simp only [List.foldl_cons]
    obtain ⟨h1, h2⟩ := ih (if init < first.vertex_count then first.vertex_count else init)
    refine ⟨?_, ?_⟩
    · split_ifs at h1 ⊢ <;> omega
    · intro light hl
      rcases List.mem_cons.mp hl with rfl | hl
      · split_ifs at h1 ⊢ <;> omega
      · exact h2 light hl

theorem write_lights_from_bounds (max_vertex_count : Nat) (lights : List polygonal_light_t) :
    ∀ offset : Nat,
      (∀ light ∈ lights, light.vertex_count ≤ max_vertex_count) →
      offset + lights.length * (48 + 16 * max_vertex_count) < 18446744073709551616 →
      ∀ r ∈ write_lights_from max_vertex_count offset lights,
        r.1 + r.2 ≤ offset + lights.length * (48 + 16 * max_vertex_count) := by
  induction lights with
  | nil => intro offset _ _ r hr; cases hr
  | cons first rest ih =>
    intro offset hmax hfit r hr
    have hfirst := hmax first (List.mem_cons_self _ _)
    have hlen : (first :: rest).length * (48 + 16 * max_vertex_count)
        = rest.length * (48 + 16 * max_vertex_count) + (48 + 16 * max_vertex_count) := by
      rw [List.length_cons, Nat.succ_mul]
    rw [hlen] at hfit ⊢
    have h1 : (offset + 48) % 18446744073709551616 = offset + 48 :=
      Nat.mod_eq_of_lt (by omega)
    have h2 : (offset + 48 + 4 * 4 * max_vertex_count) % 18446744073709551616
        = offset + 48 + 16 * max_vertex_count := by
      rw [Nat.mod_eq_of_lt (by omega)]
    simp only [write_lights_from, write_light, POLYGONAL_LIGHT_FIXED_CONSTANT_BUFFER_SIZE,
      List.mem_append, List.mem_cons, h1, h2] at hr
    rcases hr with (hr | hr | hr) | hr
    · subst hr
      simp only
      omega
    · subst hr
      simp only
      omega
    · split_ifs at hr
      · simp only [List.mem_singleton] at hr
        subst hr
        simp only
        omega
      · cases hr
    · have := ih (offset + 48 + 16 * max_vertex_count)
        (fun light hl => hmax light (List.mem_cons_of_mem _ hl)) (by omega) r hr
      omega

theorem write_lights_fits (scene : scene_content_t)
    (hmax : 12 * get_max_polygonal_light_vertex_count scene < 4294967296)
    (hsize : scene.polygonal_light_count
      * (48 + 4 * (12 * get_max_polygonal_light_vertex_count scene - 8))
      < 18446744073709551616) :
    3 ≤ get_max_polygonal_light_vertex_count scene
    ∧ polygonal_light_size scene
        = 48 + 4 * (12 * get_max_polygonal_light_vertex_count scene - 8)
    ∧ 48 + 16 * get_max_polygonal_light_vertex_count scene ≤ polygonal_light_size scene
    ∧ ∀ r ∈ write_lights scene, r.1 + r.2 ≤ light_buffer_size scene := by
  obtain ⟨hthree, hle⟩ := foldl_max_vertex_count
    (scene.polygonal_lights.take scene.polygonal_light_count) 3
  have hthree' : 3 ≤ get_max_polygonal_light_vertex_count scene := hthree
  have hpls : polygonal_light_size scene
      = 48 + 4 * (12 * get_max_polygonal_light_vertex_count scene - 8) := by
    unfold polygonal_light_size POLYGONAL_LIGHT_FIXED_CONSTANT_BUFFER_SIZE
    rw [Nat.mod_eq_of_lt hmax]
    have : (12 * get_max_polygonal_light_vertex_count scene + 4294967296 - 8) % 4294967296
        = 12 * get_max_polygonal_light_vertex_count scene - 8 := by
      omega
    rw [this]
  refine ⟨hthree', hpls, by rw [hpls]; omega, ?_⟩
  intro r hr
  have hlen : (scene.polygonal_lights.take scene.polygonal_light_count).length
      ≤ scene.polygonal_light_count := by
    rw [List.length_take]
    exact Nat.min_le_left _ _
  have hstride : (scene.polygonal_lights.take scene.polygonal_light_count).length
      * (48 + 16 * get_max_polygonal_light_vertex_count scene)
      ≤ scene.polygonal_light_count
        * (48 + 4 * (12 * get_max_polygonal_light_vertex_count scene - 8)) :=
    Nat.mul_le_mul hlen (by omega)
  have hbound := write_lights_from_bounds (get_max_polygonal_light_vertex_count scene)
    (scene.polygonal_lights.take scene.polygonal_light_count) 0
    (fun light hl => hle light hl) (by omega) r hr
  by_cases hcount : scene.polygonal_light_count = 0
  · exfalso
    unfold write_lights at hr
    rw [hcount] at hr
    simp [write_lights_from] at hr
  · unfold light_buffer_size
    simp only [hcount, if_false, hpls]
    rw [Nat.mod_eq_of_lt hsize]
    omega

/-- C30: for a light of 357913942 vertices the factor `12 * max - 8` of
`create_light_buffers` wraps to 0 in `uint32_t`: the buffer has 48 bytes, and
`write_lights`, which computes its offsets in `size_t`, writes 5726623072
bytes of vertices behind the first 48, so the stride written per light exceeds
the size allocated per light. Where `12 * max` does not wrap (and the total
size fits `size_t`), every byte range that `write_lights` writes ends within
the buffer, and the stride `48 + 16 * max` is at most the size
`48 + 4 * (12 * max - 8)` allocated per light, with `max` at least 3. -/
theorem huge_light_overruns_buffer :
    get_max_polygonal_light_vertex_count huge_light_scene = 357913942
    ∧ polygonal_light_size huge_light_scene = 48
    ∧ light_buffer_size huge_light_scene = 48
    ∧ (48, 5726623072) ∈ write_lights huge_light_scene
    ∧ polygonal_light_size huge_light_scene
        < 48 + 16 * get_max_polygonal_light_vertex_count huge_light_scene
    ∧ ∀ scene : scene_content_t,
        12 * get_max_polygonal_light_vertex_count scene < 4294967296 →
        scene.polygonal_light_count
            * (48 + 4 * (12 * get_max_polygonal_light_vertex_count scene - 8))
          < 18446744073709551616 →
        3 ≤ get_max_polygonal_light_vertex_count scene
        ∧ polygonal_light_size scene
            = 48 + 4 * (12 * get_max_polygonal_light_vertex_count scene - 8)
        ∧ 48 + 16 * get_max_polygonal_light_vertex_count scene ≤ polygonal_light_size scene
        ∧ ∀ r ∈ write_lights scene, r.1 + r.2 ≤ light_buffer_size scene :=
  ⟨by decide, by decide, by decide, by decide, by decide,
    fun scene hmax hsize => write_lights_fits scene hmax hsize⟩

end Risltc
